import Mathlib

/-!
Connectivity state machine of the ESP32 gateway (`src/Network/myWifi.h`,
`src/Network/myWifi.cpp`).

A shallow embedding of the class `MyWiFi`.  The object's fields and the state of
its external collaborators (millisecond clock, radio driver, `Preferences`
store, HTTP replies) are one record; every member function is a Lean function
on that record.  What the outside world decides (link-status answers, the
pending portal request, scan results, whether the store opens and what a write
reports) is read from an `Env`.

Conventions
* `unsigned long` is 32 bits wide on the ESP32: `millis` is the real elapsed
  time modulo `2^32` and every subtraction / addition on it wraps.
* `delay ms` advances the real time by `ms`; all other statements take no time.
  Between two calls of the public interface the clock may move arbitrarily.
* Every call of the radio driver (status query with its answer, command) is
  appended to `driverLog` together with the real time at which it is made.
* `String::length()` counts bytes: `strlen` is the UTF-8 byte size.
* `Serial` output is not modelled.
-/

namespace S3

/-! ## Types of `myWifi.h` and of the driver headers -/

/-- The enum `WiFiStatus_t` of `myWifi.h`. -/
inductive WiFiStatus_t
  | WIFI_STATUS_IDLE
  | WIFI_STATUS_CONNECTING
  | WIFI_STATUS_CONNECTED
  | WIFI_STATUS_DISCONNECTED
  | WIFI_STATUS_AP_STARTED
  | WIFI_STATUS_AP_STA_STARTED
  | WIFI_STATUS_RECONNECTING
  | WIFI_STATUS_CONFIG_PORTAL
  deriving DecidableEq, Repr

/-- The driver enum `wifi_mode_t` (`WIFI_OFF`, `WIFI_STA`, `WIFI_AP`,
`WIFI_AP_STA` are the Arduino aliases of the four values). -/
inductive wifi_mode_t
  | WIFI_MODE_NULL
  | WIFI_MODE_STA
  | WIFI_MODE_AP
  | WIFI_MODE_APSTA
  deriving DecidableEq, Repr

/-- The driver enum `wl_status_t` answered by `WiFi.status()`. -/
inductive wl_status_t
  | WL_NO_SHIELD
  | WL_IDLE_STATUS
  | WL_NO_SSID_AVAIL
  | WL_SCAN_COMPLETED
  | WL_CONNECTED
  | WL_CONNECT_FAILED
  | WL_CONNECTION_LOST
  | WL_DISCONNECTED
  deriving DecidableEq, Repr

open WiFiStatus_t wifi_mode_t wl_status_t

/-! ## Constants of `myWifi.h` -/

def DEFAULT_AP_SSID : String := "ESP32-Gateway"
def DEFAULT_AP_PASSWORD : String := "12345678"
def DEFAULT_STA_SSID : String := ""
def DEFAULT_STA_PASSWORD : String := ""

def WIFI_CONNECT_TIMEOUT : Nat := 10000
def WIFI_RECONNECT_INTERVAL : Nat := 5000
def WIFI_RECONNECT_INTERVAL_SLOW : Nat := 30000
def WIFI_CHECK_INTERVAL : Nat := 5000
def AP_CHECK_STA_INTERVAL : Nat := 3000

/-- Number of values of an `unsigned long` (32 bits on the ESP32). -/
def ULONG : Nat := 4294967296

/-- Wrapping `a - b` on `unsigned long`. -/
def usub (a b : Nat) : Nat := (a + (ULONG - b % ULONG)) % ULONG

/-- Wrapping `a + b` on `unsigned long`. -/
def uadd (a b : Nat) : Nat := (a + b) % ULONG

/-- Arduino `String::length()`: the number of bytes. -/
def strlen (x : String) : Nat := x.utf8ByteSize

/-! ## External collaborators -/

/-- The four keys `NVS_KEY_*` of the namespace `wifi_config`. -/
inductive NvsKey
  | sta_ssid
  | sta_pwd
  | ap_ssid
  | ap_pwd
  deriving DecidableEq, Repr

/-- Content of the persisted namespace: each key is absent or holds a string. -/
structure Nvs where
  sta_ssid : Option String
  sta_pwd : Option String
  ap_ssid : Option String
  ap_pwd : Option String
  deriving DecidableEq, Repr

def Nvs.empty : Nvs := ⟨none, none, none, none⟩

def Nvs.get (n : Nvs) : NvsKey → Option String
  | .sta_ssid => n.sta_ssid
  | .sta_pwd => n.sta_pwd
  | .ap_ssid => n.ap_ssid
  | .ap_pwd => n.ap_pwd

def Nvs.set (n : Nvs) (k : NvsKey) (v : String) : Nvs :=
  match k with
  | .sta_ssid => { n with sta_ssid := some v }
  | .sta_pwd => { n with sta_pwd := some v }
  | .ap_ssid => { n with ap_ssid := some v }
  | .ap_pwd => { n with ap_pwd := some v }

/-- What one `putString` does: whether the value reached the store and the
byte count it reports. -/
structure PutOutcome where
  stored : Bool
  bytes : Nat
  deriving DecidableEq, Repr

/-- One entry of a scan result (`WiFi.SSID(i)`, `WiFi.RSSI(i)`,
`WiFi.encryptionType(i)`). -/
structure Network where
  ssid : String
  rssi : Int
  encryption : Nat
  deriving DecidableEq, Repr

/-- A request waiting at the portal's web server. -/
structure Request where
  uri : String
  post : Bool
  ssid : String
  password : String
  deriving DecidableEq, Repr

/-- Commands issued to the radio driver `WiFi`. -/
inductive RadioCmd
  | mode (m : wifi_mode_t)
  | softAP (ssid pw : String)
  | join (ssid pw : String)
  | disconnect (wifioff : Bool)
  | scanNetworks
  | scanDelete
  deriving DecidableEq, Repr

/-- A call of the radio driver: a status query with its answer, or a command. -/
inductive DriverCall
  | status (answer : wl_status_t)
  | command (c : RadioCmd)
  deriving DecidableEq, Repr

/-- A call of the radio driver with the real time (milliseconds since
power-up) at which it is made. -/
structure DriverEvent where
  time : Nat
  call : DriverCall
  deriving DecidableEq, Repr

/-- Body of a reply sent with `webServer->send`.  The configuration page and
the status document are kept symbolic. -/
inductive HttpBody
  | text (t : String)
  | configPortalHTML (apSSID : String)
  | statusJSON (mode : wifi_mode_t) (status : WiFiStatus_t) (apSSID : String)
  deriving DecidableEq, Repr

structure HttpReply where
  code : Nat
  contentType : String
  body : HttpBody
  deriving DecidableEq, Repr

/-- Everything the outside world decides. -/
structure Env where
  /-- Answer of the `k`-th call of `WiFi.status()`. -/
  status : Nat → wl_status_t
  /-- The request served by the next `webServer->handleClient()`, if any. -/
  request : Option Request
  /-- Result of `WiFi.scanNetworks`. -/
  scanCount : Int
  /-- Duration of the blocking scan in milliseconds. -/
  scanMillis : Nat
  network : Nat → Network
  /-- Whether the `k`-th attempt to open the namespace succeeds. -/
  nvsOpen : Nat → Bool
  nvsPut : NvsKey → String → PutOutcome

/-! ## The object -/

/-- Fields of `class MyWiFi`, the function-local static of `checkAPMode`, and
the state of the collaborators. -/
structure MyWiFi where
  webServer : Bool
  dnsServer : Bool
  staSSID : String
  staPassword : String
  apSSID : String
  apPassword : String
  currentStatus : WiFiStatus_t
  currentMode : wifi_mode_t
  lastCheckTime : Nat
  lastReconnectTime : Nat
  reconnectAttempts : Int
  configPortalActive : Bool
  apModeStartTime : Nat
  shouldStopPortal : Bool
  portalStopTime : Nat
  /-- The variable `static unsigned long lastAttempt` of `checkAPMode`. -/
  lastAttempt : Nat
  /-- The handle `preferences`: opened, and opened read-only. -/
  prefsStarted : Bool
  prefsReadOnly : Bool
  /-- Persisted content of the namespace. -/
  nvs : Nvs
  /-- Real time in milliseconds since power-up. -/
  clock : Nat
  /-- Number of `WiFi.status()` calls made so far. -/
  polls : Nat
  /-- Number of attempts to open the namespace made so far. -/
  opens : Nat
  /-- Mode last commanded to the radio (`WiFi.getMode()`). -/
  radioMode : wifi_mode_t
  /-- Commands issued to the radio, oldest first. -/
  radioLog : List RadioCmd
  /-- Every call of the radio driver (status queries and commands) in the order
  in which the code makes them, oldest first. -/
  driverLog : List DriverEvent
  /-- Replies sent by the web server, oldest first. -/
  httpLog : List HttpReply
  deriving DecidableEq, Repr

namespace MyWiFi

/-- The constructor `MyWiFi::MyWiFi()` on a device whose store holds `n` and
whose clock reads `t`. -/
def construct (n : Nvs) (t : Nat) : MyWiFi :=
  { webServer := false, dnsServer := false,
    staSSID := "", staPassword := "", apSSID := "", apPassword := "",
    currentStatus := WIFI_STATUS_IDLE, currentMode := WIFI_MODE_NULL,
    lastCheckTime := 0, lastReconnectTime := 0, reconnectAttempts := 0,
    configPortalActive := false, apModeStartTime := 0,
    shouldStopPortal := false, portalStopTime := 0, lastAttempt := 0,
    prefsStarted := false, prefsReadOnly := false, nvs := n,
    clock := t, polls := 0, opens := 0,
    radioMode := WIFI_MODE_NULL, radioLog := [], driverLog := [], httpLog := [] }

/-! ### Primitives of the collaborators -/

/-- Arduino `millis()`. -/
def millis (s : MyWiFi) : Nat := s.clock % ULONG

/-- Arduino `delay(ms)`. -/
def delay (ms : Nat) (s : MyWiFi) : MyWiFi := { s with clock := s.clock + ms }

/-- The call `WiFi.status()`. -/
def wifiStatus (e : Env) (s : MyWiFi) : wl_status_t × MyWiFi :=
  (e.status s.polls,
    { s with polls := s.polls + 1,
             driverLog := s.driverLog ++ [⟨s.clock, .status (e.status s.polls)⟩] })

/-- The call `WiFi.mode(m)`. -/
def wifiMode (m : wifi_mode_t) (s : MyWiFi) : MyWiFi :=
  { s with radioMode := m, radioLog := s.radioLog ++ [RadioCmd.mode m],
           driverLog := s.driverLog ++ [⟨s.clock, .command (.mode m)⟩] }

/-- Any other command to the radio. -/
def radio (c : RadioCmd) (s : MyWiFi) : MyWiFi :=
  { s with radioLog := s.radioLog ++ [c],
           driverLog := s.driverLog ++ [⟨s.clock, .command c⟩] }

/-- The call `webServer->send(code, type, body)`. -/
def send (code : Nat) (ty : String) (b : HttpBody) (s : MyWiFi) : MyWiFi :=
  { s with httpLog := s.httpLog ++ [⟨code, ty, b⟩] }

/-- The call `preferences.begin(NVS_NAMESPACE, readOnly)`: refused on a handle
that is already open, otherwise decided by the store. -/
def prefsBegin (e : Env) (readOnly : Bool) (s : MyWiFi) : Bool × MyWiFi :=
  if s.prefsStarted then (false, s)
  else if e.nvsOpen s.opens then
    (true, { s with prefsStarted := true, prefsReadOnly := readOnly, opens := s.opens + 1 })
  else (false, { s with opens := s.opens + 1 })

/-- The call `preferences.end()`. -/
def prefsEnd (s : MyWiFi) : MyWiFi := { s with prefsStarted := false }

/-- The call `preferences.clear()`. -/
def prefsClear (s : MyWiFi) : MyWiFi :=
  if s.prefsStarted ∧ ¬ s.prefsReadOnly then { s with nvs := Nvs.empty } else s

/-- The call `preferences.getString(key, dflt)`. -/
def prefsGetString (k : NvsKey) (dflt : String) (s : MyWiFi) : String :=
  if s.prefsStarted then (s.nvs.get k).getD dflt else dflt

/-- The call `preferences.putString(key, value)`. -/
def prefsPutString (e : Env) (k : NvsKey) (v : String) (s : MyWiFi) : Nat × MyWiFi :=
  if s.prefsStarted ∧ ¬ s.prefsReadOnly then
    ((e.nvsPut k v).bytes, if (e.nvsPut k v).stored then { s with nvs := s.nvs.set k v } else s)
  else (0, s)

/-! ### Credential store (`loadConfig`, `saveConfig`, setters) -/

/-- The function `MyWiFi::loadConfig` (it always returns `true`). -/
def loadConfig (e : Env) (s : MyWiFi) : Bool × MyWiFi :=
  let s := (prefsBegin e true s).2
  let s := { s with staSSID := prefsGetString .sta_ssid DEFAULT_STA_SSID s }
  let s := { s with staPassword := prefsGetString .sta_pwd DEFAULT_STA_PASSWORD s }
  let s := { s with apSSID := prefsGetString .ap_ssid DEFAULT_AP_SSID s }
  let s := { s with apPassword := prefsGetString .ap_pwd DEFAULT_AP_PASSWORD s }
  let s := prefsEnd s
  let s := if strlen s.apPassword < 8 then { s with apPassword := DEFAULT_AP_PASSWORD } else s
  (true, s)

/-- The four `putString` calls of `saveConfig` and its return value. -/
def saveConfig.write (e : Env) (s : MyWiFi) : Bool × MyWiFi :=
  let r1 := prefsPutString e .sta_ssid s.staSSID s
  let r2 := prefsPutString e .sta_pwd r1.2.staPassword r1.2
  let r3 := prefsPutString e .ap_ssid r2.2.apSSID r2.2
  let r4 := prefsPutString e .ap_pwd r3.2.apPassword r3.2
  let success := decide (r1.1 > 0 ∧ r2.1 > 0 ∧ r3.1 > 0 ∧ r4.1 > 0)
  (success, prefsEnd r4.2)

/-- The function `MyWiFi::saveConfig`. -/
def saveConfig (e : Env) (s : MyWiFi) : Bool × MyWiFi :=
  let s := prefsEnd s
  let s := delay 10 s
  let o := prefsBegin e false s
  if o.1 then saveConfig.write e o.2
  else
    let s := (prefsBegin e false o.2).2
    let s := prefsClear s
    let s := prefsEnd s
    let s := delay 100 s
    let o2 := prefsBegin e false s
    if o2.1 then saveConfig.write e o2.2 else (false, o2.2)

/-- The function `MyWiFi::setSTACredentials`. -/
def setSTACredentials (e : Env) (ssid password : String) (s : MyWiFi) : Bool × MyWiFi :=
  saveConfig e { s with staSSID := ssid, staPassword := password }

/-- The function `MyWiFi::setAPCredentials`. -/
def setAPCredentials (e : Env) (ssid password : String) (s : MyWiFi) : Bool × MyWiFi :=
  if strlen password < 8 then (false, s)
  else saveConfig e { s with apSSID := ssid, apPassword := password }

/-- The function `MyWiFi::clearConfig`. -/
def clearConfig (e : Env) (s : MyWiFi) : MyWiFi :=
  let s := (prefsBegin e false s).2
  let s := prefsClear s
  let s := prefsEnd s
  { s with staSSID := DEFAULT_STA_SSID, staPassword := DEFAULT_STA_PASSWORD,
           apSSID := DEFAULT_AP_SSID, apPassword := DEFAULT_AP_PASSWORD }

/-! ### Radio modes and the captive configuration service -/

/-- The function `MyWiFi::startSTA`. -/
def startSTA (s : MyWiFi) : MyWiFi :=
  let s := wifiMode WIFI_MODE_STA s
  let s := { s with currentMode := WIFI_MODE_STA }
  delay 100 s

/-- The function `MyWiFi::startAP`. -/
def startAP (s : MyWiFi) : MyWiFi :=
  let s := wifiMode WIFI_MODE_AP s
  let s := radio (.softAP s.apSSID s.apPassword) s
  let s := { s with currentMode := WIFI_MODE_AP, currentStatus := WIFI_STATUS_AP_STARTED }
  delay 100 s

/-- The function `MyWiFi::startAPSTA`. -/
def startAPSTA (s : MyWiFi) : MyWiFi :=
  let s := wifiMode WIFI_MODE_APSTA s
  let s := radio (.softAP s.apSSID s.apPassword) s
  let s := { s with currentMode := WIFI_MODE_APSTA, currentStatus := WIFI_STATUS_AP_STA_STARTED }
  delay 100 s

/-- The function `MyWiFi::stopConfigPortal`. -/
def stopConfigPortal (s : MyWiFi) : MyWiFi :=
  if s.configPortalActive then
    let s := delay 100 s
    { s with webServer := false, dnsServer := false,
             configPortalActive := false, shouldStopPortal := false }
  else s

/-- The function `MyWiFi::setupWebServer`. -/
def setupWebServer (s : MyWiFi) : MyWiFi := { s with webServer := true }

/-- The function `MyWiFi::startConfigPortal`. -/
def startConfigPortal (s : MyWiFi) : MyWiFi :=
  let s := stopConfigPortal s
  let s := startAP s
  let s := { s with dnsServer := true }
  let s := setupWebServer s
  { s with configPortalActive := true, apModeStartTime := millis s,
           currentStatus := WIFI_STATUS_CONFIG_PORTAL }

/-- The function `MyWiFi::disconnect`. -/
def disconnect (s : MyWiFi) : MyWiFi :=
  let s := stopConfigPortal s
  let s := radio (.disconnect true) s
  let s := wifiMode WIFI_MODE_NULL s
  { s with currentStatus := WIFI_STATUS_IDLE, currentMode := WIFI_MODE_NULL }

/-! ### Bounded joins -/

/-- Iterations that exhaust `WIFI_CONNECT_TIMEOUT` in steps of `delay(500)`,
plus the evaluation of the guard that ends the loop. -/
def pollFuel : Nat := 21

/-- The loop `while (WiFi.status() != WL_CONNECTED && millis() - startTime <
WIFI_CONNECT_TIMEOUT) delay(500);` of `connectToWiFi`; `none` when the fuel
runs out before the guard fails. -/
def connectPoll (e : Env) (startTime : Nat) : Nat → MyWiFi → Option MyWiFi
  | 0, _ => none
  | fuel + 1, s =>
    let r := wifiStatus e s
    if r.1 ≠ WL_CONNECTED ∧ usub (millis r.2) startTime < WIFI_CONNECT_TIMEOUT then
      connectPoll e startTime fuel (delay 500 r.2)
    else some r.2

/-- The function `MyWiFi::connectToWiFi`. -/
def connectToWiFi (e : Env) (s : MyWiFi) : Bool × MyWiFi :=
  if strlen s.staSSID = 0 then (false, s)
  else
    let s := { s with currentStatus := WIFI_STATUS_CONNECTING }
    let s := radio (.join s.staSSID s.staPassword) s
    let s := (connectPoll e (millis s) pollFuel s).getD s
    let r := wifiStatus e s
    if r.1 = WL_CONNECTED then (true, { r.2 with reconnectAttempts := 0 })
    else (false, r.2)

/-- The loop `while (millis() - startTime < WIFI_CONNECT_TIMEOUT) { if
(WiFi.status() == WL_CONNECTED) { connected = true; break; } delay(500); }` of
`handleReconnect`, with the final value of `connected`. -/
def reconnectPoll (e : Env) (startTime : Nat) : Nat → MyWiFi → Option (Bool × MyWiFi)
  | 0, _ => none
  | fuel + 1, s =>
    if usub (millis s) startTime < WIFI_CONNECT_TIMEOUT then
      let r := wifiStatus e s
      if r.1 = WL_CONNECTED then some (true, r.2)
      else reconnectPoll e startTime fuel (delay 500 r.2)
    else some (false, s)

/-- The function `MyWiFi::handleReconnect`. -/
def handleReconnect (e : Env) (s : MyWiFi) : MyWiFi :=
  let s := { s with reconnectAttempts := s.reconnectAttempts + 1 }
  let s := { s with currentStatus := WIFI_STATUS_RECONNECTING }
  let s := if s.currentMode ≠ WIFI_MODE_APSTA then
      let s := wifiMode WIFI_MODE_APSTA s
      let s := radio (.softAP s.apSSID s.apPassword) s
      { s with currentMode := WIFI_MODE_APSTA }
    else s
  let s := radio (.join s.staSSID s.staPassword) s
  let r := (reconnectPoll e (millis s) pollFuel s).getD (false, s)
  let s := r.2
  if r.1 then
    let s := { s with currentStatus := WIFI_STATUS_CONNECTED, reconnectAttempts := 0 }
    let s := stopConfigPortal s
    let s := delay 100 s
    let s := wifiMode WIFI_MODE_STA s
    { s with currentMode := WIFI_MODE_STA }
  else
    let s := { s with currentStatus := WIFI_STATUS_DISCONNECTED }
    if s.currentMode ≠ WIFI_MODE_APSTA then
      let s := wifiMode WIFI_MODE_APSTA s
      let s := radio (.softAP s.apSSID s.apPassword) s
      { s with currentMode := WIFI_MODE_APSTA }
    else s

/-- First statement of `checkSTAConnection`: the reaction to a lost link. -/
def checkSTAConnection.onLoss (e : Env) (s : MyWiFi) : MyWiFi :=
  let r := wifiStatus e s
  let s := r.2
  if r.1 ≠ WL_CONNECTED ∧ s.currentStatus = WIFI_STATUS_CONNECTED then
    let s := { s with currentStatus := WIFI_STATUS_DISCONNECTED }
    let s := { s with lastReconnectTime := millis s }
    let s := { s with reconnectAttempts := 0 }
    let s := startAPSTA s
    let s := if ¬ s.configPortalActive then
        let s := { s with dnsServer := true }
        let s := setupWebServer s
        { s with configPortalActive := true }
      else s
    handleReconnect e s
  else s

/-- Second statement of `checkSTAConnection`: the retry on the selected interval. -/
def checkSTAConnection.retry (e : Env) (s : MyWiFi) : MyWiFi :=
  if s.currentStatus = WIFI_STATUS_DISCONNECTED then
    let currentTime := millis s
    let reconnectInterval :=
      if s.reconnectAttempts < 3 then WIFI_RECONNECT_INTERVAL else WIFI_RECONNECT_INTERVAL_SLOW
    if usub currentTime s.lastReconnectTime ≥ reconnectInterval then
      handleReconnect e { s with lastReconnectTime := currentTime }
    else s
  else s

/-- The function `MyWiFi::checkSTAConnection`. -/
def checkSTAConnection (e : Env) (s : MyWiFi) : MyWiFi :=
  checkSTAConnection.retry e (checkSTAConnection.onLoss e s)

/-- The function `MyWiFi::checkAPMode`. -/
def checkAPMode (e : Env) (s : MyWiFi) : MyWiFi :=
  if strlen s.staSSID > 0 then
    let r := wifiStatus e s
    let s := r.2
    if r.1 = WL_CONNECTED then
      let s := stopConfigPortal s
      let s := { s with currentStatus := WIFI_STATUS_CONNECTED, reconnectAttempts := 0 }
      let s := delay 100 s
      let s := wifiMode WIFI_MODE_STA s
      { s with currentMode := WIFI_MODE_STA }
    else if r.1 = WL_IDLE_STATUS ∨ r.1 = WL_DISCONNECTED ∨ r.1 = WL_NO_SSID_AVAIL then
      if usub (millis s) s.lastAttempt < 3000 then s
      else
        let s := { s with lastAttempt := millis s }
        let s := if s.currentMode = WIFI_MODE_AP then
            let s := wifiMode WIFI_MODE_APSTA s
            let s := { s with currentMode := WIFI_MODE_APSTA }
            delay 100 s
          else s
        radio (.join s.staSSID s.staPassword) s
    else s
  else s

/-! ### Handlers of the captive configuration service -/

/-- The function `MyWiFi::handleRoot`. -/
def handleRoot (s : MyWiFi) : MyWiFi :=
  if ¬ s.webServer then s
  else send 200 "text/html" (.configPortalHTML s.apSSID) s

/-- The function `MyWiFi::handleSave` for the form fields `ssid` and
`password` of the request. -/
def handleSave (e : Env) (newSSID newPassword : String) (s : MyWiFi) : MyWiFi :=
  if ¬ s.webServer then s
  else if strlen newSSID > 0 then
    let s := { s with staSSID := newSSID, staPassword := newPassword }
    let s := (saveConfig e s).2
    let s := send 200 "text/html"
      (.text ("<html><body><h2>Configuration Saved!</h2>" ++ "<p>Connecting to WiFi...</p>" ++
        "<p>Please wait...</p>" ++ "</body></html>")) s
    { s with shouldStopPortal := true, portalStopTime := uadd (millis s) 2000 }
  else
    send 400 "text/html" (.text "<html><body><h2>Error: SSID cannot be empty</h2></body></html>") s

/-- One element of the array built by `handleScan`. -/
def scanEntry (n : Network) : String :=
  "\x7b" ++ "\"ssid\":\"" ++ n.ssid ++ "\"," ++ "\"rssi\":" ++ toString n.rssi ++ "," ++
    "\"encryption\":" ++ toString n.encryption ++ "\x7d"

/-- The text `json` built by `handleScan` from `n` scan results. -/
def scanJSON (e : Env) (n : Int) : String :=
  "[" ++ ",".intercalate ((List.range n.toNat).map fun i => scanEntry (e.network i)) ++ "]"

/-- The function `MyWiFi::handleScan`. -/
def handleScan (e : Env) (s : MyWiFi) : MyWiFi :=
  if ¬ s.webServer then s
  else
    let currentWiFiMode := s.radioMode
    let needRestoreMode := decide (currentWiFiMode = WIFI_MODE_AP)
    let s := if currentWiFiMode = WIFI_MODE_AP then delay 100 (wifiMode WIFI_MODE_APSTA s) else s
    let r := wifiStatus e s
    let s := if r.1 ≠ WL_CONNECTED then delay 200 (radio (.disconnect false) r.2) else r.2
    let s := delay e.scanMillis (radio .scanNetworks s)
    let json := scanJSON e e.scanCount
    let s := radio .scanDelete s
    let s := if needRestoreMode then delay 100 (wifiMode WIFI_MODE_AP s) else s
    send 200 "application/json" (.text json) s

/-- The function `MyWiFi::getStatusJSON`: `getConnectedSSID`, `getLocalIP` and
`getRSSI` each ask the driver for the link status. -/
def getStatusJSON (e : Env) (s : MyWiFi) : HttpBody × MyWiFi :=
  let s := (wifiStatus e s).2
  let s := (wifiStatus e s).2
  let s := (wifiStatus e s).2
  (.statusJSON s.currentMode s.currentStatus s.apSSID, s)

/-- The function `MyWiFi::handleStatus`. -/
def handleStatus (e : Env) (s : MyWiFi) : MyWiFi :=
  if ¬ s.webServer then s
  else
    let r := getStatusJSON e s
    send 200 "application/json" r.1 r.2

/-- The call `webServer->handleClient()` with the routes registered by
`setupWebServer`: `/`, `POST /save`, `/scan`, `/status`, and `handleRoot` for
everything else. -/
def handleClient (e : Env) (s : MyWiFi) : MyWiFi :=
  match e.request with
  | none => s
  | some q =>
    if q.uri = "/" then handleRoot s
    else if q.uri = "/save" ∧ q.post then handleSave e q.ssid q.password s
    else if q.uri = "/scan" then handleScan e s
    else if q.uri = "/status" then handleStatus e s
    else handleRoot s

/-- The function `MyWiFi::handleConfigPortal`. -/
def handleConfigPortal (e : Env) (s : MyWiFi) : MyWiFi :=
  if ¬ s.dnsServer ∨ ¬ s.webServer then s
  else handleClient e s

/-! ### Start-up and the evaluation tick -/

/-- The function `MyWiFi::begin`. -/
def begin (e : Env) (s : MyWiFi) : Bool × MyWiFi :=
  let s := wifiMode WIFI_MODE_NULL s
  let s := delay 100 s
  let s := (loadConfig e s).2
  if strlen s.staSSID > 0 then
    let s := startSTA s
    let r := connectToWiFi e s
    if r.1 then
      (true, { r.2 with currentStatus := WIFI_STATUS_CONNECTED, currentMode := WIFI_MODE_STA })
    else (false, startConfigPortal r.2)
  else (false, startConfigPortal s)

/-- First block of `handle`: the deferred shutdown of the portal. -/
def handle.deferredStop (e : Env) (s : MyWiFi) : MyWiFi :=
  let s := { s with shouldStopPortal := false }
  let s := stopConfigPortal s
  let s := wifiMode WIFI_MODE_STA s
  let r := connectToWiFi e s
  if r.1 then { r.2 with currentStatus := WIFI_STATUS_CONNECTED, currentMode := WIFI_MODE_STA }
  else startConfigPortal r.2

/-- Second block of `handle`: serve the portal and probe for the client network. -/
def handle.portal (e : Env) (currentTime : Nat) (s : MyWiFi) : MyWiFi :=
  if s.configPortalActive ∧ ¬ s.shouldStopPortal then
    let s := handleConfigPortal e s
    if usub currentTime s.lastReconnectTime ≥ AP_CHECK_STA_INTERVAL then
      let s := { s with lastReconnectTime := currentTime }
      if strlen s.staSSID > 0 ∧ s.currentStatus ≠ WIFI_STATUS_CONNECTED then checkAPMode e s
      else s
    else s
  else s

/-- Third block of `handle`: the periodic check of the client link. -/
def handle.linkCheck (e : Env) (currentTime : Nat) (s : MyWiFi) : MyWiFi :=
  if (s.currentMode = WIFI_MODE_STA ∨ s.currentMode = WIFI_MODE_APSTA) ∧
      s.currentStatus = WIFI_STATUS_CONNECTED then
    if usub currentTime s.lastCheckTime ≥ WIFI_CHECK_INTERVAL then
      checkSTAConnection e { s with lastCheckTime := currentTime }
    else s
  else s

/-- Fourth block of `handle`: reconnect while disconnected. -/
def handle.reconnect (e : Env) (currentTime : Nat) (s : MyWiFi) : MyWiFi :=
  if s.currentStatus = WIFI_STATUS_DISCONNECTED ∧ ¬ s.configPortalActive then
    if usub currentTime s.lastReconnectTime ≥ WIFI_RECONNECT_INTERVAL then
      handleReconnect e { s with lastReconnectTime := currentTime }
    else s
  else s

/-- The function `MyWiFi::handle`, one evaluation tick. -/
def handle (e : Env) (s : MyWiFi) : MyWiFi :=
  let currentTime := millis s
  if s.shouldStopPortal ∧ currentTime ≥ s.portalStopTime then handle.deferredStop e s
  else
    let s := handle.portal e currentTime s
    let s := handle.linkCheck e currentTime s
    handle.reconnect e currentTime s

end MyWiFi

/-- Time passes between two calls of the public interface: the clock reads
`t` at the next call. -/
def atClock (t : Nat) (s : MyWiFi) : MyWiFi := { s with clock := t }

/-- States the object can be in when a call of the public interface returns:
`begin` on the constructed object, then any number of `handle` ticks, for every
environment and every clock reading at the start of each call. -/
inductive Reachable : MyWiFi → Prop
  | boot (e : Env) (n : Nvs) (t : Nat) : Reachable (MyWiFi.begin e (MyWiFi.construct n t)).2
  | tick (e : Env) (t : Nat) (s : MyWiFi) : Reachable s → Reachable (MyWiFi.handle e (atClock t s))


/-! ## Concrete environments used to run the model -/

/-- A store that keeps every value and reports its length in bytes, as the
`Preferences` library does. -/
def lengthPut (_ : NvsKey) (v : String) : PutOutcome := ⟨true, strlen v⟩

/-- No request is pending and every answer of the driver is `a`. -/
def steadyEnv (a : wl_status_t) : Env :=
  { status := fun _ => a, request := none, scanCount := 0, scanMillis := 0,
    network := fun _ => ⟨"", 0, 0⟩, nvsOpen := fun _ => true, nvsPut := lengthPut }

/-- The client network is out of reach. -/
def downEnv : Env := steadyEnv WL_DISCONNECTED

/-- The client network answers at once. -/
def upEnv : Env := steadyEnv WL_CONNECTED

/-! ## Concrete runs -/

/-- A device without stored credentials boots into the portal; about 49.7 days
later, when `millis()` reads `4294966296` (`2^32 - 1000`), `handleSave` stores
the credentials `Home` / `secretpw`. -/
def savedBeforeWrap : MyWiFi :=
  MyWiFi.handleSave downEnv "Home" "secretpw"
    (atClock 4294966286 (MyWiFi.begin downEnv (MyWiFi.construct Nvs.empty 0)).2)

/-- A disconnected object with the portal down whose counter records three
failed reconnect attempts, the last one started when `millis()` read `0`; the
clock now reads `5000`. -/
def thirdFailure : MyWiFi :=
  { MyWiFi.construct Nvs.empty 5000 with
    staSSID := "Home", staPassword := "secretpw",
    apSSID := DEFAULT_AP_SSID, apPassword := DEFAULT_AP_PASSWORD,
    currentStatus := WIFI_STATUS_DISCONNECTED, currentMode := WIFI_MODE_APSTA,
    radioMode := WIFI_MODE_APSTA, reconnectAttempts := 3, lastReconnectTime := 0 }

/-- A device with stored credentials `Home` / `secretpw` boots at clock `0`
with the network in reach. -/
def bootConnected : MyWiFi :=
  (MyWiFi.begin upEnv (MyWiFi.construct ⟨some "Home", some "secretpw", none, none⟩ 0)).2

/-- A device with stored credentials `Home` / `secretpw` boots with the network
in reach; the tick at clock `20000` finds the link lost and the network out of
reach (it returns at clock `40100`), and the next tick runs at clock `40110`. -/
def linkLost : MyWiFi :=
  MyWiFi.handle downEnv (atClock 40110
    (MyWiFi.handle downEnv (atClock 20000
      (MyWiFi.begin upEnv (MyWiFi.construct ⟨some "Home", some "secretpw", none, none⟩ 0)).2)))

/-- The object inside `begin`, right after `loadConfig()`, on a device whose
store holds `n` and whose clock reads `t` at power-up. -/
def bootLoaded (e : Env) (n : Nvs) (t : Nat) : MyWiFi :=
  (MyWiFi.loadConfig e (MyWiFi.delay 100 (MyWiFi.wifiMode WIFI_MODE_NULL (MyWiFi.construct n t)))).2

/-! ## Predicates used in the proofs -/

namespace MyWiFi

/-- The tick's connectivity invariant: the client link is recorded as
connected, or the access point is up. -/
def Inv (s : MyWiFi) : Prop :=
  s.currentStatus = WIFI_STATUS_CONNECTED ∨ s.currentMode = WIFI_MODE_AP ∨
    s.currentMode = WIFI_MODE_APSTA

/-- Relation `s'` differs from `s` at most in the store, its handle and the clock. -/
def StoreOnly (s s' : MyWiFi) : Prop :=
  ∃ st ro n c o, s' =
    { s with prefsStarted := st, prefsReadOnly := ro, nvs := n, clock := c, opens := o }

/-- Fields that no handler of the configuration service writes. -/
def HandlerFrame (s s' : MyWiFi) : Prop :=
  s'.currentStatus = s.currentStatus ∧ s'.currentMode = s.currentMode ∧
  s'.configPortalActive = s.configPortalActive ∧ s'.webServer = s.webServer ∧
  s'.dnsServer = s.dnsServer ∧ s'.reconnectAttempts = s.reconnectAttempts ∧
  s'.lastCheckTime = s.lastCheckTime ∧ s'.lastReconnectTime = s.lastReconnectTime ∧
  s'.lastAttempt = s.lastAttempt ∧ s'.apSSID = s.apSSID ∧ s'.apPassword = s.apPassword ∧
  s'.apModeStartTime = s.apModeStartTime

end MyWiFi

namespace MyWiFi

/-- Whether `loadConfig` can read the namespace: the handle is already open or
the store lets it be opened. -/
def readable (e : Env) (s : MyWiFi) : Bool := s.prefsStarted || e.nvsOpen s.opens

end MyWiFi

namespace MyWiFi

/-- The function `MyWiFi::isConnected`; `getConnectedSSID`, `getLocalIP` and
`getRSSI` query the driver in the same way, `getStatus`, `getCurrentMode`,
`getAPIP` and `getConnectedClients` only read. -/
def isConnected (e : Env) (s : MyWiFi) : Bool × MyWiFi :=
  let r := wifiStatus e s
  (decide (r.1 = WL_CONNECTED), r.2)

end MyWiFi

/-- States the object can be in between calls of its public interface: the
constructed object, then any sequence of `begin`, `handle` ticks (each serving
the portal request its environment holds), the setters, `clearConfig`,
`startConfigPortal`, `disconnect` and the accessors, with time passing in
between. -/
inductive Operated : MyWiFi → Prop
  | construct (n : Nvs) (t : Nat) : Operated (MyWiFi.construct n t)
  | elapse (t : Nat) (s : MyWiFi) : Operated s → Operated (atClock t s)
  | begin (e : Env) (s : MyWiFi) : Operated s → Operated (MyWiFi.begin e s).2
  | handle (e : Env) (s : MyWiFi) : Operated s → Operated (MyWiFi.handle e s)
  | setSTACredentials (e : Env) (ssid password : String) (s : MyWiFi) :
      Operated s → Operated (MyWiFi.setSTACredentials e ssid password s).2
  | setAPCredentials (e : Env) (ssid password : String) (s : MyWiFi) :
      Operated s → Operated (MyWiFi.setAPCredentials e ssid password s).2
  | clearConfig (e : Env) (s : MyWiFi) : Operated s → Operated (MyWiFi.clearConfig e s)
  | startConfigPortal (s : MyWiFi) : Operated s → Operated (MyWiFi.startConfigPortal s)
  | disconnect (s : MyWiFi) : Operated s → Operated (MyWiFi.disconnect s)
  | isConnected (e : Env) (s : MyWiFi) : Operated s → Operated (MyWiFi.isConnected e s).2

namespace MyWiFi

/-- A disconnected status comes with the portal, and the counter of reconnect
attempts is at most 2. -/
def Good (s : MyWiFi) : Prop :=
  (s.currentStatus = WIFI_STATUS_DISCONNECTED → s.configPortalActive = true) ∧
    s.reconnectAttempts ≤ 2

end MyWiFi

/-- Whether a call of the driver is allowed right after the call `prev`: the
command `WiFi.mode(WIFI_STA)` only when `prev` is a status query answered
`WL_CONNECTED`, the command `WiFi.mode(WIFI_OFF)` never, everything else always. -/
def modeAllowed (prev : Option DriverCall) : DriverCall → Bool
  | .command (.mode WIFI_MODE_STA) => decide (prev = some (.status WL_CONNECTED))
  | .command (.mode WIFI_MODE_NULL) => false
  | _ => true

/-- Every call of the list is allowed after its predecessor (`prev` for the
first one): each switch to station-only mode comes immediately after a status
answer `WL_CONNECTED`, and every other mode command keeps the access point. -/
def modesVerified : Option DriverCall → List DriverEvent → Bool
  | _, [] => true
  | prev, ev :: rest => modeAllowed prev ev.call && modesVerified (some ev.call) rest

/-- The list consists of status queries only. -/
def pollsOnly (l : List DriverEvent) : Prop := ∀ x ∈ l, ∃ a, x.call = DriverCall.status a

namespace MyWiFi

/-- The state `s'` continues the record of driver calls of `s` by calls that
are all allowed (`modesVerified`). -/
def Verified (s s' : MyWiFi) : Prop :=
  ∃ ev, s'.driverLog = s.driverLog ++ ev ∧ modesVerified none ev = true

end MyWiFi

/-- A device without stored credentials boots into the portal at clock `0`;
`handleSave` stores `Home` / `secretpw` when the clock reads `1000`
(`saveConfig` waits 10 ms, so `portalStopTime` is `3010`), and the next tick runs
at clock `3010`. -/
def savedDue : MyWiFi :=
  atClock 3010 (MyWiFi.handleSave downEnv "Home" "secretpw"
    (atClock 1000 (MyWiFi.begin downEnv (MyWiFi.construct Nvs.empty 0)).2))

/-- Whether a call of the driver is a join request (`WiFi.begin`). -/
def isJoin : DriverCall → Bool
  | .command (.join _ _) => true
  | _ => false

/-- Times of the join requests (`WiFi.begin`) among the driver calls `l`, in
order. -/
def joinTimes (l : List DriverEvent) : List Nat :=
  List.map DriverEvent.time (List.filter (fun ev => isJoin ev.call) l)

namespace MyWiFi

/-- Times of the join requests issued by the portal block of the tick
`handle e s`, the block that serves the portal and calls `checkAPMode`; a tick
that takes the deferred shutdown does not run the block. -/
def probeJoins (e : Env) (s : MyWiFi) : List Nat :=
  if s.shouldStopPortal ∧ millis s ≥ s.portalStopTime then []
  else joinTimes ((handle.portal e (millis s) s).driverLog.drop s.driverLog.length)

/-- The stamp `lastAttempt` is the same in `s'` as in `s`, and the clock of
`s'` is not behind. -/
def Steady (s s' : MyWiFi) : Prop := s'.lastAttempt = s.lastAttempt ∧ s.clock ≤ s'.clock

/-- Relation `Steady`, and the driver calls added from `s` to `s'` contain no
join request. -/
def Calm (s s' : MyWiFi) : Prop :=
  Steady s s' ∧ ∃ ev, s'.driverLog = s.driverLog ++ ev ∧ joinTimes ev = []

end MyWiFi

/-- Runs of `handle` ticks from the state `s0`, each with its own environment,
the clock never running backwards between two ticks; `js` collects, in order,
the times of the join requests of the portal blocks. -/
inductive Probed (s0 : MyWiFi) : MyWiFi → List Nat → Prop
  | start : Probed s0 s0 []
  | tick (e : Env) (t : Nat) (s : MyWiFi) (js : List Nat) :
      Probed s0 s js → s.clock ≤ t →
      Probed s0 (MyWiFi.handle e (atClock t s)) (js ++ MyWiFi.probeJoins e (atClock t s))

/-- A device with the stored credentials `Home` / `secretpw` boots at clock `0`
with the network out of reach: `begin` ends in the portal, in access-point
mode. -/
def bootPortal : MyWiFi :=
  (MyWiFi.begin downEnv (MyWiFi.construct ⟨some "Home", some "secretpw", none, none⟩ 0)).2

/-- The state `bootPortal` after the ticks at clock `11000` and `14000`, the
network still out of reach. -/
def probedTwice : MyWiFi :=
  MyWiFi.handle downEnv (atClock 14000 (MyWiFi.handle downEnv (atClock 11000 bootPortal)))

namespace MyWiFi

/-- A connected status comes with the portal down, and a scheduled shutdown of
the portal with the portal up. -/
def Consistent (s : MyWiFi) : Prop :=
  (s.currentStatus = WIFI_STATUS_CONNECTED → s.configPortalActive = false) ∧
    (s.shouldStopPortal = true → s.configPortalActive = true)

end MyWiFi

/-- States in which a tick can start: a state reachable by `begin` and ticks,
after any time has passed. -/
def TickStart (s : MyWiFi) : Prop := ∃ s0 t, Reachable s0 ∧ s = atClock t s0

/-! ## The bounded joins terminate -/

namespace MyWiFi

theorem usub_delay (c d start : Nat) (h : usub (c % ULONG) start < WIFI_CONNECT_TIMEOUT)
    (hd : d ≤ 500) :
    usub ((c + d) % ULONG) start = usub (c % ULONG) start + d := by
  unfold usub ULONG WIFI_CONNECT_TIMEOUT at *
  omega

theorem connectPoll_isSome (e : Env) (start : Nat) :
    ∀ (fuel : Nat) (s : MyWiFi),
      WIFI_CONNECT_TIMEOUT ≤ usub (millis s) start + 500 * fuel →
      (connectPoll e start (fuel + 1) s).isSome = true := by
  intro fuel
  induction fuel with
  | zero =>
    intro s h
    have h2 : ¬ usub (millis (wifiStatus e s).2) start < WIFI_CONNECT_TIMEOUT := by
      simp only [millis, wifiStatus] at *
      omega
    simp [connectPoll, h2]
  | succ n ih =>
    intro s h
    rw [connectPoll]
    split
    · rename_i hg
      apply ih
      have h3 := usub_delay s.clock 500 start (by simpa [wifiStatus, millis] using hg.2) (le_refl _)
      simp only [delay, millis, wifiStatus] at *
      omega
    · rfl

theorem reconnectPoll_isSome (e : Env) (start : Nat) :
    ∀ (fuel : Nat) (s : MyWiFi),
      WIFI_CONNECT_TIMEOUT ≤ usub (millis s) start + 500 * fuel →
      (reconnectPoll e start (fuel + 1) s).isSome = true := by
  intro fuel
  induction fuel with
  | zero =>
    intro s h
    have h2 : ¬ usub (millis s) start < WIFI_CONNECT_TIMEOUT := by omega
    simp [reconnectPoll, h2]
  | succ n ih =>
    intro s h
    rw [reconnectPoll]
    split
    · rename_i hg
      dsimp only
      split
      · rfl
      · apply ih
        have h3 := usub_delay s.clock 500 start (by simpa [millis] using hg) (le_refl _)
        simp only [delay, millis, wifiStatus] at *
        omega
    · rfl

theorem usub_self (a : Nat) : usub (a % ULONG) (a % ULONG) = 0 := by
  unfold usub ULONG
  omega

/-- The polling loop of `connectToWiFi` leaves by its own guard: started at
the current clock reading, `pollFuel` iterations are enough. -/
theorem connectPoll_total (e : Env) (s : MyWiFi) :
    (connectPoll e (millis s) pollFuel s).isSome = true := by
  apply connectPoll_isSome
  have := usub_self s.clock
  simp only [millis, WIFI_CONNECT_TIMEOUT] at *
  omega

/-- The polling loop of `handleReconnect` leaves by its own guard or by the
`break`. -/
theorem reconnectPoll_total (e : Env) (s : MyWiFi) :
    (reconnectPoll e (millis s) pollFuel s).isSome = true := by
  apply reconnectPoll_isSome
  have := usub_self s.clock
  simp only [millis, WIFI_CONNECT_TIMEOUT] at *
  omega

/-- The loops change nothing but the clock, the number of status calls and the
record of the calls. -/
theorem connectPoll_frame (e : Env) (start : Nat) :
    ∀ (fuel : Nat) (s s' : MyWiFi), connectPoll e start fuel s = some s' →
      s' = { s with clock := s'.clock, polls := s'.polls, driverLog := s'.driverLog } := by
  intro fuel
  induction fuel with
  | zero => intro s s' h; simp [connectPoll] at h
  | succ n ih =>
    intro s s' h
    rw [connectPoll] at h
    split at h
    · have := ih _ _ h
      rw [this]
      simp [delay, wifiStatus]
    · simp only [Option.some.injEq] at h
      subst h
      simp [wifiStatus]

theorem reconnectPoll_frame (e : Env) (start : Nat) :
    ∀ (fuel : Nat) (s : MyWiFi) (b : Bool) (s' : MyWiFi),
      reconnectPoll e start fuel s = some (b, s') →
      s' = { s with clock := s'.clock, polls := s'.polls, driverLog := s'.driverLog } := by
  intro fuel
  induction fuel with
  | zero => intro s b s' h; simp [reconnectPoll] at h
  | succ n ih =>
    intro s b s' h
    rw [reconnectPoll] at h
    split at h
    · dsimp only at h
      split at h
      · simp only [Option.some.injEq, Prod.mk.injEq] at h
        obtain ⟨_, h⟩ := h
        subst h
        simp [wifiStatus]
      · have := ih _ _ _ h
        rw [this]
        simp [delay, wifiStatus]
    · simp only [Option.some.injEq, Prod.mk.injEq] at h
      obtain ⟨_, h⟩ := h
      subst h
      rfl

/-! ## What each operation leaves untouched -/

theorem connectWait_shape (e : Env) (start fuel : Nat) (s : MyWiFi) :
    ∃ c p l, (connectPoll e start fuel s).getD s =
      { s with clock := c, polls := p, driverLog := l } := by
  cases h : connectPoll e start fuel s with
  | none => exact ⟨s.clock, s.polls, s.driverLog, rfl⟩
  | some s' =>
    exact ⟨s'.clock, s'.polls, s'.driverLog, by simpa using connectPoll_frame e start fuel s s' h⟩

theorem reconnectWait_shape (e : Env) (start fuel : Nat) (s : MyWiFi) :
    ∃ b c p l, (reconnectPoll e start fuel s).getD (false, s) =
      (b, { s with clock := c, polls := p, driverLog := l }) := by
  cases h : reconnectPoll e start fuel s with
  | none => exact ⟨false, s.clock, s.polls, s.driverLog, rfl⟩
  | some r =>
    obtain ⟨b, s'⟩ := r
    refine ⟨b, s'.clock, s'.polls, s'.driverLog, ?_⟩
    have := reconnectPoll_frame e start fuel s b s' h
    simp only [Option.getD_some, Prod.mk.injEq, true_and]
    exact this

/-- A bounded join with a configured ssid: one join command, status
`WIFI_STATUS_CONNECTING`, counter reset on success; nothing else but the clock
and the number of status calls changes. -/
theorem connectToWiFi_shape (e : Env) (s : MyWiFi) (h : ¬ strlen s.staSSID = 0) :
    ∃ c p l b, connectToWiFi e s =
      (b, { s with currentStatus := WIFI_STATUS_CONNECTING,
                   radioLog := s.radioLog ++ [RadioCmd.join s.staSSID s.staPassword],
                   clock := c, polls := p, driverLog := l,
                   reconnectAttempts := if b = true then 0 else s.reconnectAttempts }) := by
  unfold connectToWiFi
  rw [if_neg h]
  dsimp only
  generalize hy : radio (.join s.staSSID s.staPassword)
    { s with currentStatus := WIFI_STATUS_CONNECTING } = y
  obtain ⟨c, p, l, hc⟩ := connectWait_shape e (millis y) pollFuel y
  rw [hc]
  subst hy
  simp only [wifiStatus, radio]
  split
  · exact ⟨c, p + 1, _, true, rfl⟩
  · exact ⟨c, p + 1, _, false, rfl⟩

theorem startConfigPortal_fields (s : MyWiFi) :
    (startConfigPortal s).currentMode = WIFI_MODE_AP ∧
    (startConfigPortal s).currentStatus = WIFI_STATUS_CONFIG_PORTAL ∧
    (startConfigPortal s).configPortalActive = true ∧
    (startConfigPortal s).webServer = true ∧ (startConfigPortal s).dnsServer = true := by
  simp [startConfigPortal, setupWebServer, startAP, delay, radio, wifiMode]

theorem handleReconnect_fields (e : Env) (s : MyWiFi) :
    ((handleReconnect e s).currentStatus = WIFI_STATUS_CONNECTED ∧
      (handleReconnect e s).currentMode = WIFI_MODE_STA ∧
      (handleReconnect e s).configPortalActive = false) ∨
    ((handleReconnect e s).currentStatus = WIFI_STATUS_DISCONNECTED ∧
      (handleReconnect e s).currentMode = WIFI_MODE_APSTA ∧
      (handleReconnect e s).configPortalActive = s.configPortalActive) := by
  unfold handleReconnect
  simp only []
  generalize hs1 : (radio _ _ : MyWiFi) = s1
  obtain ⟨b, c, p, l, h⟩ := reconnectWait_shape e (millis s1) pollFuel s1
  rw [h]
  have hm : s1.currentMode = WIFI_MODE_APSTA := by
    subst hs1
    by_cases hmode : s.currentMode = WIFI_MODE_APSTA <;> simp [radio, wifiMode, hmode]
  have hp : s1.configPortalActive = s.configPortalActive := by
    subst hs1
    by_cases hmode : s.currentMode = WIFI_MODE_APSTA <;> simp [radio, wifiMode, hmode]
  cases b
  · right
    simp [hm, hp]
  · left
    simp only [if_true]
    by_cases hpa : s1.configPortalActive = true <;>
      simp [stopConfigPortal, delay, wifiMode, hpa]

theorem storeOnly_refl (s : MyWiFi) : StoreOnly s s := ⟨_, _, _, _, _, rfl⟩

theorem storeOnly_prefsEnd {s x : MyWiFi} (h : StoreOnly s x) : StoreOnly s (prefsEnd x) := by
  obtain ⟨st, ro, n, c, o, rfl⟩ := h
  exact ⟨_, _, _, _, _, rfl⟩

theorem storeOnly_delay {s x : MyWiFi} (ms : Nat) (h : StoreOnly s x) :
    StoreOnly s (delay ms x) := by
  obtain ⟨st, ro, n, c, o, rfl⟩ := h
  exact ⟨_, _, _, _, _, rfl⟩

theorem storeOnly_prefsClear {s x : MyWiFi} (h : StoreOnly s x) : StoreOnly s (prefsClear x) := by
  obtain ⟨st, ro, n, c, o, rfl⟩ := h
  unfold MyWiFi.prefsClear
  split <;> exact ⟨_, _, _, _, _, rfl⟩

theorem storeOnly_prefsBegin {s x : MyWiFi} (e : Env) (ro : Bool) (h : StoreOnly s x) :
    StoreOnly s (prefsBegin e ro x).2 := by
  obtain ⟨st, ro, n, c, o, rfl⟩ := h
  unfold MyWiFi.prefsBegin
  split
  · exact ⟨_, _, _, _, _, rfl⟩
  · split <;> exact ⟨_, _, _, _, _, rfl⟩

theorem storeOnly_prefsPutString {s x : MyWiFi} (e : Env) (k : NvsKey) (v : String)
    (h : StoreOnly s x) : StoreOnly s (prefsPutString e k v x).2 := by
  obtain ⟨st, ro, n, c, o, rfl⟩ := h
  unfold MyWiFi.prefsPutString
  split
  · dsimp only
    split <;> exact ⟨_, _, _, _, _, rfl⟩
  · exact ⟨_, _, _, _, _, rfl⟩

theorem storeOnly_write {s x : MyWiFi} (e : Env) (h : StoreOnly s x) :
    StoreOnly s (saveConfig.write e x).2 := by
  unfold saveConfig.write
  dsimp only
  apply storeOnly_prefsEnd
  apply storeOnly_prefsPutString
  apply storeOnly_prefsPutString
  apply storeOnly_prefsPutString
  apply storeOnly_prefsPutString
  exact h

/-- The function `saveConfig` touches only the store, its handle and the clock. -/
theorem saveConfig_storeOnly (e : Env) (s : MyWiFi) : StoreOnly s (saveConfig e s).2 := by
  unfold saveConfig
  dsimp only
  have h0 : StoreOnly s (MyWiFi.prefsBegin e false (MyWiFi.delay 10 (MyWiFi.prefsEnd s))).2 :=
    storeOnly_prefsBegin e false (storeOnly_delay 10 (storeOnly_prefsEnd (storeOnly_refl s)))
  split
  · exact storeOnly_write e h0
  · have h1 := storeOnly_prefsBegin e false (storeOnly_delay 100 (storeOnly_prefsEnd
      (storeOnly_prefsClear (storeOnly_prefsBegin e false h0))))
    split
    · exact storeOnly_write e h1
    · exact h1

theorem handlerFrame_refl (s : MyWiFi) : HandlerFrame s s := by
  simp [HandlerFrame]

theorem handleRoot_frame (s : MyWiFi) : HandlerFrame s (handleRoot s) := by
  unfold handleRoot
  split <;> simp [HandlerFrame, send]

theorem handleSave_frame (e : Env) (a b : String) (s : MyWiFi) :
    HandlerFrame s (handleSave e a b s) := by
  unfold handleSave
  split
  · exact handlerFrame_refl s
  · split
    · obtain ⟨st, ro, n, c, o, h⟩ := saveConfig_storeOnly e { s with staSSID := a, staPassword := b }
      simp only [h]
      simp [HandlerFrame, send]
    · simp [HandlerFrame, send]

theorem handleScan_frame (e : Env) (s : MyWiFi) : HandlerFrame s (handleScan e s) := by
  unfold handleScan
  split
  · exact handlerFrame_refl s
  · dsimp only
    by_cases h1 : s.radioMode = WIFI_MODE_AP <;>
      by_cases h2 : e.status s.polls = WL_CONNECTED <;>
      simp [HandlerFrame, send, radio, delay, wifiMode, wifiStatus, h1, h2]

theorem handleStatus_frame (e : Env) (s : MyWiFi) : HandlerFrame s (handleStatus e s) := by
  unfold handleStatus
  split <;> simp [HandlerFrame, send, getStatusJSON, wifiStatus]

theorem handleClient_frame (e : Env) (s : MyWiFi) : HandlerFrame s (handleClient e s) := by
  unfold handleClient
  split
  · exact handlerFrame_refl s
  · split
    · exact handleRoot_frame s
    · split
      · exact handleSave_frame e _ _ s
      · split
        · exact handleScan_frame e s
        · split
          · exact handleStatus_frame e s
          · exact handleRoot_frame s

theorem handleConfigPortal_frame (e : Env) (s : MyWiFi) :
    HandlerFrame s (handleConfigPortal e s) := by
  unfold handleConfigPortal
  split
  · exact handlerFrame_refl s
  · exact handleClient_frame e s

theorem checkAPMode_inv (e : Env) (s : MyWiFi) (h : Inv s) : Inv (checkAPMode e s) := by
  unfold checkAPMode
  split
  · dsimp only
    split
    · left
      by_cases hpa : s.configPortalActive = true <;>
        simp [stopConfigPortal, delay, wifiMode, wifiStatus, hpa]
    · split
      · split
        · exact h
        · by_cases hm : s.currentMode = WIFI_MODE_AP
          · simp [Inv, radio, wifiStatus, wifiMode, delay, hm]
          · simpa [Inv, radio, wifiStatus, wifiMode, delay, hm] using h
      · exact h
  · exact h

theorem handleReconnect_inv (e : Env) (x : MyWiFi) : Inv (handleReconnect e x) := by
  rcases handleReconnect_fields e x with h1 | h1
  · exact Or.inl h1.1
  · exact Or.inr (Or.inr h1.2.1)

theorem checkSTAConnection_inv (e : Env) (s : MyWiFi) (h : Inv s) :
    Inv (checkSTAConnection e s) := by
  have h1 : Inv (checkSTAConnection.onLoss e s) := by
    unfold checkSTAConnection.onLoss
    dsimp only
    split
    · exact handleReconnect_inv e _
    · exact h
  unfold checkSTAConnection checkSTAConnection.retry
  dsimp only
  split_ifs <;> first | exact handleReconnect_inv e _ | exact h1

theorem handle_inv (e : Env) (s : MyWiFi) (h : Inv s) : Inv (handle e s) := by
  unfold handle
  dsimp only
  split
  · unfold handle.deferredStop
    dsimp only
    split
    · exact Or.inl rfl
    · exact Or.inr (Or.inl (startConfigPortal_fields _).1)
  · have h1 : Inv (handle.portal e (millis s) s) := by
      unfold handle.portal
      split
      · have hf := handleConfigPortal_frame e s
        have h0 : Inv (handleConfigPortal e s) := by
          unfold Inv at *
          rw [hf.1, hf.2.1]
          exact h
        dsimp only
        split
        · split
          · exact checkAPMode_inv e _ h0
          · exact h0
        · exact h0
      · exact h
    have h2 : Inv (handle.linkCheck e (millis s) (handle.portal e (millis s) s)) := by
      unfold handle.linkCheck
      split
      · split
        · apply checkSTAConnection_inv
          exact h1
        · exact h1
      · exact h1
    unfold handle.reconnect
    split
    · split
      · exact handleReconnect_inv e _
      · exact h2
    · exact h2

theorem begin_inv (e : Env) (s : MyWiFi) : Inv (begin e s).2 := by
  unfold begin
  dsimp only
  split
  · split
    · exact Or.inl rfl
    · exact Or.inr (Or.inl (startConfigPortal_fields _).1)
  · exact Or.inr (Or.inl (startConfigPortal_fields _).1)

end MyWiFi

/-! ## C1 -/

/-- C1: in every state reachable from the constructed object by `begin` followed
by any number of `handle` ticks (for all driver answers, clock readings and
portal requests), `currentStatus` is `WIFI_STATUS_CONNECTED` or `currentMode` is
`WIFI_MODE_AP` or `WIFI_MODE_APSTA` when the call returns. -/
theorem reachable_link_or_access_point (s : MyWiFi) (h : Reachable s) :
    s.currentStatus = WIFI_STATUS_CONNECTED ∨ s.currentMode = WIFI_MODE_AP ∨
      s.currentMode = WIFI_MODE_APSTA := by
  induction h with
  | boot e n t => exact MyWiFi.begin_inv e _
  | tick e t s _ ih =>
    apply MyWiFi.handle_inv
    exact ih


theorem reachable_link_or_access_point_witness :
    Reachable (MyWiFi.handle downEnv (atClock 4000 (MyWiFi.begin downEnv (MyWiFi.construct Nvs.empty 0)).2)) ∧
    ((MyWiFi.handle downEnv (atClock 4000 (MyWiFi.begin downEnv (MyWiFi.construct Nvs.empty 0)).2)).currentStatus
        = WIFI_STATUS_CONNECTED ∨
      (MyWiFi.handle downEnv (atClock 4000 (MyWiFi.begin downEnv (MyWiFi.construct Nvs.empty 0)).2)).currentMode
        = WIFI_MODE_AP ∨
      (MyWiFi.handle downEnv (atClock 4000 (MyWiFi.begin downEnv (MyWiFi.construct Nvs.empty 0)).2)).currentMode
        = WIFI_MODE_APSTA) :=
  ⟨Reachable.tick _ _ _ (Reachable.boot _ _ _),
   reachable_link_or_access_point _ (Reachable.tick _ _ _ (Reachable.boot _ _ _))⟩

/-! ## C2 -/

namespace MyWiFi

/-- What `handleSave` leaves behind for a non-empty ssid. -/
theorem handleSave_schedules (e : Env) (ssid password : String) (s : MyWiFi)
    (hweb : s.webServer = true) (hssid : 0 < strlen ssid) :
    (handleSave e ssid password s).shouldStopPortal = true ∧
    (handleSave e ssid password s).portalStopTime
      = uadd (millis (handleSave e ssid password s)) 2000 ∧
    (handleSave e ssid password s).staSSID = ssid ∧
    (handleSave e ssid password s).staPassword = password := by
  unfold handleSave
  rw [if_neg (by simp [hweb]), if_pos hssid]
  obtain ⟨st, ro, n, c, o, h⟩ :=
    saveConfig_storeOnly e { s with staSSID := ssid, staPassword := password }
  simp only [h]
  simp [send, millis]

/-- A tick whose clock reading is below the stored deadline does nothing while
the portal is up and the link is not recorded as connected. -/
theorem handle_before_stored_deadline (e : Env) (s : MyWiFi) (c : Nat)
    (hstop : s.shouldStopPortal = true) (hp : s.configPortalActive = true)
    (hs : s.currentStatus ≠ WIFI_STATUS_CONNECTED) (hc : c % ULONG < s.portalStopTime) :
    handle e (atClock c s) = atClock c s := by
  have h0 : ¬ ((atClock c s).shouldStopPortal = true ∧
      millis (atClock c s) ≥ (atClock c s).portalStopTime) := by
    simp only [atClock, millis]
    omega
  unfold handle
  simp only [h0, if_false]
  have h1 : handle.portal e (millis (atClock c s)) (atClock c s) = atClock c s := by
    simp [handle.portal, atClock, hstop]
  rw [h1]
  have h2 : handle.linkCheck e (millis (atClock c s)) (atClock c s) = atClock c s := by
    simp [handle.linkCheck, atClock, hs]
  rw [h2]
  simp [handle.reconnect, atClock, hp]

/-- The deferred shutdown issues one join, with the stored client profile. -/
theorem deferredStop_radioLog (e : Env) (s : MyWiFi) (hssid : 0 < strlen s.staSSID) :
    ∃ rest, (handle.deferredStop e s).radioLog =
        s.radioLog ++ [RadioCmd.mode WIFI_MODE_STA, RadioCmd.join s.staSSID s.staPassword] ++ rest ∧
      ∀ a b, RadioCmd.join a b ∉ rest := by
  unfold handle.deferredStop
  dsimp only
  generalize hx : wifiMode WIFI_MODE_STA (stopConfigPortal { s with shouldStopPortal := false }) = x
  have hx1 : x.staSSID = s.staSSID ∧ x.staPassword = s.staPassword ∧
      x.radioLog = s.radioLog ++ [RadioCmd.mode WIFI_MODE_STA] := by
    subst hx
    by_cases hp : s.configPortalActive = true <;> simp [wifiMode, stopConfigPortal, delay, hp]
  have hne : ¬ strlen x.staSSID = 0 := by rw [hx1.1]; omega
  obtain ⟨c, p, l, b, hc⟩ := connectToWiFi_shape e x hne
  rw [hc]
  cases b
  · refine ⟨[RadioCmd.mode WIFI_MODE_AP, RadioCmd.softAP x.apSSID x.apPassword], ?_, by simp⟩
    simp only [Bool.false_eq_true, if_false]
    by_cases hp : x.configPortalActive = true <;>
      simp [startConfigPortal, stopConfigPortal, startAP, setupWebServer, delay, radio, wifiMode,
        hx1.1, hx1.2.1, hx1.2.2, hp]
  · refine ⟨[], ?_, by simp⟩
    simp [hx1.1, hx1.2.1, hx1.2.2]

end MyWiFi

/-- Away from the wrap-around the deferred shutdown is on time: when
`handleSave` runs at a clock reading `t` with `t + 2000 < 2^32` (portal up,
link not recorded as connected), every tick
at a clock reading below `t + 2000` leaves the object unchanged, and a tick at
a reading of at least `t + 2000` runs only the deferred shutdown, which issues
exactly one join, with the saved ssid and password. -/
theorem deferred_stop_without_wrap (e e' : Env) (ssid password : String) (s : MyWiFi) (c : Nat)
    (hweb : s.webServer = true) (hssid : 0 < strlen ssid)
    (hp : s.configPortalActive = true) (hs : s.currentStatus ≠ WIFI_STATUS_CONNECTED)
    (hwrap : MyWiFi.millis (MyWiFi.handleSave e ssid password s) + 2000 < ULONG) :
    (c % ULONG < MyWiFi.millis (MyWiFi.handleSave e ssid password s) + 2000 →
      MyWiFi.handle e' (atClock c (MyWiFi.handleSave e ssid password s))
        = atClock c (MyWiFi.handleSave e ssid password s)) ∧
    (MyWiFi.millis (MyWiFi.handleSave e ssid password s) + 2000 ≤ c % ULONG →
      MyWiFi.handle e' (atClock c (MyWiFi.handleSave e ssid password s))
        = MyWiFi.handle.deferredStop e' (atClock c (MyWiFi.handleSave e ssid password s)) ∧
      ∃ rest, (MyWiFi.handle e' (atClock c (MyWiFi.handleSave e ssid password s))).radioLog =
          (MyWiFi.handleSave e ssid password s).radioLog ++
            [RadioCmd.mode WIFI_MODE_STA, RadioCmd.join ssid password] ++ rest ∧
        ∀ a b, RadioCmd.join a b ∉ rest) := by
  obtain ⟨k1, k2, k3, k4⟩ := MyWiFi.handleSave_schedules e ssid password s hweb hssid
  have hf := MyWiFi.handleSave_frame e ssid password s
  have hdl : (MyWiFi.handleSave e ssid password s).portalStopTime
      = MyWiFi.millis (MyWiFi.handleSave e ssid password s) + 2000 := by
    rw [k2]
    unfold uadd
    exact Nat.mod_eq_of_lt hwrap
  constructor
  · intro hc
    apply MyWiFi.handle_before_stored_deadline
    · exact k1
    · rw [hf.2.2.1]; exact hp
    · rw [hf.1]; exact hs
    · rw [hdl]; exact hc
  · intro hc
    have hfire : MyWiFi.handle e' (atClock c (MyWiFi.handleSave e ssid password s))
        = MyWiFi.handle.deferredStop e' (atClock c (MyWiFi.handleSave e ssid password s)) := by
      unfold MyWiFi.handle
      have : (atClock c (MyWiFi.handleSave e ssid password s)).shouldStopPortal = true ∧
          MyWiFi.millis (atClock c (MyWiFi.handleSave e ssid password s)) ≥
            (atClock c (MyWiFi.handleSave e ssid password s)).portalStopTime := by
        refine ⟨k1, ?_⟩
        show c % ULONG ≥ (MyWiFi.handleSave e ssid password s).portalStopTime
        rw [hdl]
        exact hc
      simp only [this, and_self, if_true]
    refine ⟨hfire, ?_⟩
    rw [hfire]
    have hlog := MyWiFi.deferredStop_radioLog e' (atClock c (MyWiFi.handleSave e ssid password s))
      (by show 0 < strlen (MyWiFi.handleSave e ssid password s).staSSID; rw [k3]; exact hssid)
    have e1 : (atClock c (MyWiFi.handleSave e ssid password s)).staSSID = ssid := k3
    have e2 : (atClock c (MyWiFi.handleSave e ssid password s)).staPassword = password := k4
    rw [e1, e2] at hlog
    exact hlog

theorem deferred_stop_without_wrap_witness :
    MyWiFi.handle downEnv (atClock 1500 (MyWiFi.handleSave downEnv "Home" "secretpw"
        (MyWiFi.begin downEnv (MyWiFi.construct Nvs.empty 0)).2))
      = atClock 1500 (MyWiFi.handleSave downEnv "Home" "secretpw"
        (MyWiFi.begin downEnv (MyWiFi.construct Nvs.empty 0)).2) :=
  (deferred_stop_without_wrap downEnv downEnv "Home" "secretpw"
    (MyWiFi.begin downEnv (MyWiFi.construct Nvs.empty 0)).2 1500
    (by decide) (by decide) (by decide) (by decide) (by decide)).1 (by decide)

/-- C2 (evaluation at the failing input): `handleSave` runs when the `unsigned
long` clock reads `t = 4294966296`; the deadline `t + 2000` wraps to `1000`, and
the tick one millisecond later, at clock value `4294966297`, already stops the
portal and joins, ending in `WIFI_STATUS_CONNECTED` / `WIFI_MODE_STA`. -/
theorem deferred_stop_fires_before_deadline :
    MyWiFi.millis savedBeforeWrap = 4294966296 ∧
    savedBeforeWrap.shouldStopPortal = true ∧
    savedBeforeWrap.portalStopTime = 1000 ∧
    savedBeforeWrap.configPortalActive = true ∧
    savedBeforeWrap.currentStatus = WIFI_STATUS_CONFIG_PORTAL ∧
    savedBeforeWrap.currentMode = WIFI_MODE_AP ∧
    MyWiFi.millis (atClock 4294966297 savedBeforeWrap) < 4294966296 + 2000 ∧
    (MyWiFi.handle upEnv (atClock 4294966297 savedBeforeWrap)).configPortalActive = false ∧
    (MyWiFi.handle upEnv (atClock 4294966297 savedBeforeWrap)).currentStatus
      = WIFI_STATUS_CONNECTED ∧
    (MyWiFi.handle upEnv (atClock 4294966297 savedBeforeWrap)).currentMode = WIFI_MODE_STA ∧
    (MyWiFi.handle upEnv (atClock 4294966297 savedBeforeWrap)).radioLog
      = savedBeforeWrap.radioLog ++ [RadioCmd.mode WIFI_MODE_STA, RadioCmd.join "Home" "secretpw"] := by
  decide

/-! ## C3 -/

namespace MyWiFi

/-- The reconnect branch of `handle` waits `WIFI_RECONNECT_INTERVAL` for every
value of `reconnectAttempts`: disconnected with the portal down and no shutdown
due, the tick is `handleReconnect` once that interval has passed since
`lastReconnectTime` and does nothing before. -/
theorem handle_reconnect_threshold (e : Env) (s : MyWiFi)
    (hd : s.currentStatus = WIFI_STATUS_DISCONNECTED) (hp : s.configPortalActive = false)
    (hstop : ¬ (s.shouldStopPortal = true ∧ millis s ≥ s.portalStopTime)) :
    (usub (millis s) s.lastReconnectTime ≥ WIFI_RECONNECT_INTERVAL →
      handle e s = handleReconnect e { s with lastReconnectTime := millis s }) ∧
    (usub (millis s) s.lastReconnectTime < WIFI_RECONNECT_INTERVAL → handle e s = s) := by
  have h1 : handle.portal e (millis s) s = s := by simp [handle.portal, hp]
  have h2 : handle.linkCheck e (millis s) s = s := by simp [handle.linkCheck, hd]
  have h : handle e s = handle.reconnect e (millis s) s := by
    unfold handle
    simp only [hstop, if_false, h1, h2]
  rw [h]
  unfold handle.reconnect
  constructor
  · intro hi
    simp [hd, hp, hi]
  · intro hi
    simp [hd, hp, Nat.not_le.mpr hi]

/-- A join that succeeds sets `reconnectAttempts` to `0`, in the bounded join
of `connectToWiFi` and in `handleReconnect`. -/
theorem successful_join_resets_counter (e : Env) (s : MyWiFi) :
    ((connectToWiFi e s).1 = true → (connectToWiFi e s).2.reconnectAttempts = 0) ∧
    ((handleReconnect e s).currentStatus = WIFI_STATUS_CONNECTED →
      (handleReconnect e s).reconnectAttempts = 0) := by
  constructor
  · by_cases h : strlen s.staSSID = 0
    · simp [connectToWiFi, h]
    · obtain ⟨c, p, l, b, hc⟩ := connectToWiFi_shape e s h
      rw [hc]
      intro hb
      simp only at hb
      simp [hb]
  · unfold handleReconnect
    dsimp only
    generalize hs1 : (radio _ _ : MyWiFi) = s1
    obtain ⟨b, c, p, l, h⟩ := reconnectWait_shape e (millis s1) pollFuel s1
    rw [h]
    cases b
    · by_cases hm : s1.currentMode = WIFI_MODE_APSTA <;> simp [hm, radio, wifiMode]
    · intro _
      by_cases hpa : s1.configPortalActive = true <;>
        simp [stopConfigPortal, delay, wifiMode, hpa]

end MyWiFi

/-- C3 (evaluation at the failing input): with `reconnectAttempts = 3` and only
`5000` ms since `lastReconnectTime`, the reconnect branch of `handle` already
starts the next attempt (the counter becomes `4` and a join is issued), although
`5000 < WIFI_RECONNECT_INTERVAL_SLOW`.  In a run from `begin`, after a lost link
the tick `3000` ms after `lastReconnectTime` issues the next join while
`reconnectAttempts = 2`. -/
theorem reconnect_ignores_slow_interval :
    thirdFailure.currentStatus = WIFI_STATUS_DISCONNECTED ∧
    thirdFailure.reconnectAttempts = 3 ∧
    usub (MyWiFi.millis thirdFailure) thirdFailure.lastReconnectTime = 5000 ∧
    (MyWiFi.handle downEnv thirdFailure).reconnectAttempts = 4 ∧
    (MyWiFi.handle downEnv thirdFailure).radioLog = [RadioCmd.join "Home" "secretpw"] ∧
    Reachable linkLost ∧
    linkLost.currentStatus = WIFI_STATUS_DISCONNECTED ∧
    linkLost.reconnectAttempts = 2 ∧
    linkLost.lastReconnectTime = 40110 ∧
    usub (MyWiFi.millis (atClock 43110 linkLost)) linkLost.lastReconnectTime = 3000 ∧
    (MyWiFi.handle downEnv (atClock 43110 linkLost)).radioLog
      = linkLost.radioLog ++ [RadioCmd.join "Home" "secretpw"] ∧
    (MyWiFi.handle downEnv (atClock 43110 linkLost)).currentStatus = WIFI_STATUS_DISCONNECTED ∧
    (MyWiFi.handle downEnv (atClock 43110 linkLost)).reconnectAttempts = 2 := by
  refine ⟨by decide, by decide, by decide, by decide, by decide,
    Reachable.tick _ _ _ (Reachable.tick _ _ _ (Reachable.boot _ _ _)), by decide, by decide,
    by decide, by decide, by decide, by decide, by decide⟩

/-! ## C4, C5, C6: the credential store -/

namespace MyWiFi

theorem prefsPutString_fields (e : Env) (k : NvsKey) (v : String) (s : MyWiFi) :
    (prefsPutString e k v s).2.staSSID = s.staSSID ∧
    (prefsPutString e k v s).2.staPassword = s.staPassword ∧
    (prefsPutString e k v s).2.apSSID = s.apSSID ∧
    (prefsPutString e k v s).2.apPassword = s.apPassword ∧
    (prefsPutString e k v s).2.prefsStarted = s.prefsStarted ∧
    (prefsPutString e k v s).2.prefsReadOnly = s.prefsReadOnly := by
  unfold prefsPutString
  split
  · dsimp only
    split <;> simp
  · simp

theorem prefsPutString_bytes (e : Env) (k : NvsKey) (v : String) (s : MyWiFi)
    (h1 : s.prefsStarted = true) (h2 : s.prefsReadOnly = false) :
    (prefsPutString e k v s).1 = (e.nvsPut k v).bytes := by
  simp [prefsPutString, h1, h2]

/-- Return value of the four writes on an open, writable handle. -/
theorem write_result (e : Env) (s : MyWiFi)
    (h1 : s.prefsStarted = true) (h2 : s.prefsReadOnly = false) :
    (saveConfig.write e s).1 =
      decide ((e.nvsPut .sta_ssid s.staSSID).bytes > 0 ∧ (e.nvsPut .sta_pwd s.staPassword).bytes > 0 ∧
        (e.nvsPut .ap_ssid s.apSSID).bytes > 0 ∧ (e.nvsPut .ap_pwd s.apPassword).bytes > 0) := by
  unfold saveConfig.write
  dsimp only
  have a1 := prefsPutString_fields e .sta_ssid s.staSSID s
  generalize hx1 : prefsPutString e .sta_ssid s.staSSID s = x1 at *
  have a2 := prefsPutString_fields e .sta_pwd x1.2.staPassword x1.2
  have b1 := prefsPutString_bytes e .sta_ssid s.staSSID s h1 h2
  rw [hx1] at b1
  have b2 := prefsPutString_bytes e .sta_pwd x1.2.staPassword x1.2 (by rw [a1.2.2.2.2.1, h1])
    (by rw [a1.2.2.2.2.2, h2])
  generalize hx2 : prefsPutString e .sta_pwd x1.2.staPassword x1.2 = x2 at *
  have a3 := prefsPutString_fields e .ap_ssid x2.2.apSSID x2.2
  have b3 := prefsPutString_bytes e .ap_ssid x2.2.apSSID x2.2
    (by rw [a2.2.2.2.2.1, a1.2.2.2.2.1, h1]) (by rw [a2.2.2.2.2.2, a1.2.2.2.2.2, h2])
  generalize hx3 : prefsPutString e .ap_ssid x2.2.apSSID x2.2 = x3 at *
  have b4 := prefsPutString_bytes e .ap_pwd x3.2.apPassword x3.2
    (by rw [a3.2.2.2.2.1, a2.2.2.2.2.1, a1.2.2.2.2.1, h1])
    (by rw [a3.2.2.2.2.2, a2.2.2.2.2.2, a1.2.2.2.2.2, h2])
  rw [b1, b2, b3, b4, a1.2.1, a2.2.2.1, a1.2.2.1, a3.2.2.2.1, a2.2.2.2.1, a1.2.2.2.1]

/-- When the namespace opens at the first attempt, `saveConfig` is the four writes. -/
theorem saveConfig_opened (e : Env) (s : MyWiFi) (h : e.nvsOpen s.opens = true) :
    saveConfig e s = saveConfig.write e
      { s with prefsStarted := true, prefsReadOnly := false, clock := s.clock + 10,
               opens := s.opens + 1 } := by
  simp [saveConfig, prefsBegin, prefsEnd, delay, h]

end MyWiFi

namespace MyWiFi

/-- On a store that keeps what is put, the four writes leave the four values
of the object in the namespace. -/
theorem write_stores (e : Env) (s : MyWiFi)
    (h1 : s.prefsStarted = true) (h2 : s.prefsReadOnly = false)
    (hput : ∀ k v, (e.nvsPut k v).stored = true) :
    (saveConfig.write e s).2 =
      { s with prefsStarted := false,
               nvs := ⟨some s.staSSID, some s.staPassword, some s.apSSID, some s.apPassword⟩ } := by
  simp [saveConfig.write, prefsPutString, prefsEnd, h1, h2, hput, Nvs.set]

end MyWiFi

/-- C4: a passphrase of length 7 makes `setAPCredentials` return `false` and
leave the whole object, the store included, unchanged; with a passphrase of
length 8 it assigns `apSSID` and `apPassword` and, when the namespace opens and
each of the four writes reports a positive byte count, returns `true`. -/
theorem setAPCredentials_seven_rejected_eight_accepted (e : Env) (ssid password : String)
    (s : MyWiFi) :
    (strlen password = 7 → MyWiFi.setAPCredentials e ssid password s = (false, s)) ∧
    (strlen password = 8 →
      (MyWiFi.setAPCredentials e ssid password s).2.apSSID = ssid ∧
      (MyWiFi.setAPCredentials e ssid password s).2.apPassword = password ∧
      (e.nvsOpen s.opens = true →
        0 < (e.nvsPut .sta_ssid s.staSSID).bytes → 0 < (e.nvsPut .sta_pwd s.staPassword).bytes →
        0 < (e.nvsPut .ap_ssid ssid).bytes → 0 < (e.nvsPut .ap_pwd password).bytes →
        (MyWiFi.setAPCredentials e ssid password s).1 = true)) := by
  constructor
  · intro h
    simp [MyWiFi.setAPCredentials, h]
  · intro h
    have hlt : ¬ strlen password < 8 := by omega
    simp only [MyWiFi.setAPCredentials, hlt, if_false]
    obtain ⟨st, ro, n, c, o, hs⟩ :=
      MyWiFi.saveConfig_storeOnly e { s with apSSID := ssid, apPassword := password }
    refine ⟨by rw [hs], by rw [hs], ?_⟩
    intro ho b1 b2 b3 b4
    rw [MyWiFi.saveConfig_opened e { s with apSSID := ssid, apPassword := password } ho,
      MyWiFi.write_result e _ rfl rfl]
    simp [b1, b2, b3, b4]

theorem setAPCredentials_seven_rejected_eight_accepted_witness :
    MyWiFi.setAPCredentials downEnv "Lab" "1234567" savedBeforeWrap = (false, savedBeforeWrap) ∧
    (MyWiFi.setAPCredentials downEnv "Lab" "abcdefgh" savedBeforeWrap).2.apSSID = "Lab" ∧
    (MyWiFi.setAPCredentials downEnv "Lab" "abcdefgh" savedBeforeWrap).2.apPassword = "abcdefgh" ∧
    (MyWiFi.setAPCredentials downEnv "Lab" "abcdefgh" savedBeforeWrap).1 = true :=
  ⟨(setAPCredentials_seven_rejected_eight_accepted downEnv "Lab" "1234567" savedBeforeWrap).1
      (by decide),
   ((setAPCredentials_seven_rejected_eight_accepted downEnv "Lab" "abcdefgh" savedBeforeWrap).2
      (by decide)).1,
   ((setAPCredentials_seven_rejected_eight_accepted downEnv "Lab" "abcdefgh" savedBeforeWrap).2
      (by decide)).2.1,
   ((setAPCredentials_seven_rejected_eight_accepted downEnv "Lab" "abcdefgh" savedBeforeWrap).2
      (by decide)).2.2 (by decide) (by decide) (by decide) (by decide) (by decide)⟩

/-- C5 (counterexample): on the booted portal state `setAPCredentials` with the
empty passphrase returns `false` and assigns nothing: the access-point profile
is still `ESP32-Gateway` / `12345678`. -/
theorem setAPCredentials_empty_passphrase_is_rejected :
    (MyWiFi.setAPCredentials downEnv "Lab" ""
      (MyWiFi.begin downEnv (MyWiFi.construct Nvs.empty 0)).2).1 = false ∧
    (MyWiFi.setAPCredentials downEnv "Lab" ""
      (MyWiFi.begin downEnv (MyWiFi.construct Nvs.empty 0)).2).2.apSSID = "ESP32-Gateway" ∧
    (MyWiFi.setAPCredentials downEnv "Lab" ""
      (MyWiFi.begin downEnv (MyWiFi.construct Nvs.empty 0)).2).2.apPassword = "12345678" := by
  decide

/-- C5 (amended): `setAPCredentials` rejects a passphrase exactly when it is
shorter than 8 bytes, the empty passphrase included: it then returns `false` and
leaves the object and the store unchanged; a passphrase of 8 bytes or more is
assigned together with the ssid. -/
theorem setAPCredentials_rejects_exactly_short (e : Env) (ssid password : String) (s : MyWiFi) :
    (strlen password < 8 → MyWiFi.setAPCredentials e ssid password s = (false, s)) ∧
    (8 ≤ strlen password →
      (MyWiFi.setAPCredentials e ssid password s).2.apSSID = ssid ∧
      (MyWiFi.setAPCredentials e ssid password s).2.apPassword = password) ∧
    MyWiFi.setAPCredentials e ssid "" s = (false, s) := by
  refine ⟨?_, ?_, ?_⟩
  · intro h
    simp [MyWiFi.setAPCredentials, h]
  · intro h
    have hlt : ¬ strlen password < 8 := by omega
    simp only [MyWiFi.setAPCredentials, hlt, if_false]
    obtain ⟨st, ro, n, c, o, hs⟩ :=
      MyWiFi.saveConfig_storeOnly e { s with apSSID := ssid, apPassword := password }
    exact ⟨by rw [hs], by rw [hs]⟩
  · have h0 : strlen "" < 8 := by decide
    simp [MyWiFi.setAPCredentials, h0]

theorem setAPCredentials_rejects_exactly_short_witness :
    MyWiFi.setAPCredentials downEnv "Lab" "short" savedBeforeWrap = (false, savedBeforeWrap) ∧
    ((MyWiFi.setAPCredentials downEnv "Lab" "long enough" savedBeforeWrap).2.apSSID = "Lab" ∧
      (MyWiFi.setAPCredentials downEnv "Lab" "long enough" savedBeforeWrap).2.apPassword
        = "long enough") ∧
    MyWiFi.setAPCredentials downEnv "Lab" "" savedBeforeWrap = (false, savedBeforeWrap) :=
  ⟨(setAPCredentials_rejects_exactly_short downEnv "Lab" "short" savedBeforeWrap).1 (by decide),
   (setAPCredentials_rejects_exactly_short downEnv "Lab" "long enough" savedBeforeWrap).2.1
     (by decide),
   (setAPCredentials_rejects_exactly_short downEnv "Lab" "" savedBeforeWrap).2.2⟩

/-- C6: on a store that opens and keeps what is put, `setSTACredentials(ssid,
password)` followed by `loadConfig()` yields `staSSID = ssid` and `staPassword =
password`. -/
theorem setSTACredentials_loadConfig_round_trip (e : Env) (ssid password : String) (s : MyWiFi)
    (hopen : ∀ k, e.nvsOpen k = true) (hput : ∀ k v, (e.nvsPut k v).stored = true) :
    (MyWiFi.loadConfig e (MyWiFi.setSTACredentials e ssid password s).2).2.staSSID = ssid ∧
    (MyWiFi.loadConfig e (MyWiFi.setSTACredentials e ssid password s).2).2.staPassword
      = password := by
  unfold MyWiFi.setSTACredentials
  rw [MyWiFi.saveConfig_opened e _ (hopen _), MyWiFi.write_stores e _ rfl rfl hput]
  simp only [MyWiFi.loadConfig, MyWiFi.prefsBegin, MyWiFi.prefsGetString, MyWiFi.prefsEnd, hopen,
    Nvs.get, if_true, Bool.false_eq_true, if_false, Option.getD_some]
  constructor <;> split <;> rfl

theorem setSTACredentials_loadConfig_round_trip_witness :
    (MyWiFi.loadConfig downEnv
      (MyWiFi.setSTACredentials downEnv "Home" "secretpw" (MyWiFi.construct Nvs.empty 0)).2).2.staSSID
      = "Home" ∧
    (MyWiFi.loadConfig downEnv
      (MyWiFi.setSTACredentials downEnv "Home" "secretpw"
        (MyWiFi.construct Nvs.empty 0)).2).2.staPassword = "secretpw" :=
  setSTACredentials_loadConfig_round_trip downEnv "Home" "secretpw" (MyWiFi.construct Nvs.empty 0)
    (fun _ => rfl) (fun _ _ => rfl)

/-! ## C7: the idle tick -/

/-- C7: when the deferred shutdown is not due, fewer than
`AP_CHECK_STA_INTERVAL` and `WIFI_RECONNECT_INTERVAL` ms have passed since
`lastReconnectTime`, fewer than `WIFI_CHECK_INTERVAL` ms since `lastCheckTime`,
and no request is pending, `handle` leaves `currentStatus`, `currentMode`,
`reconnectAttempts`, `configPortalActive` and all timer fields unchanged (indeed
the whole object). -/
theorem handle_idle_tick_unchanged (e : Env) (s : MyWiFi)
    (hreq : e.request = none)
    (hstop : ¬ (s.shouldStopPortal = true ∧ MyWiFi.millis s ≥ s.portalStopTime))
    (hprobe : usub (MyWiFi.millis s) s.lastReconnectTime < AP_CHECK_STA_INTERVAL)
    (hrec : usub (MyWiFi.millis s) s.lastReconnectTime < WIFI_RECONNECT_INTERVAL)
    (hcheck : usub (MyWiFi.millis s) s.lastCheckTime < WIFI_CHECK_INTERVAL) :
    (MyWiFi.handle e s).currentStatus = s.currentStatus ∧
    (MyWiFi.handle e s).currentMode = s.currentMode ∧
    (MyWiFi.handle e s).reconnectAttempts = s.reconnectAttempts ∧
    (MyWiFi.handle e s).configPortalActive = s.configPortalActive ∧
    (MyWiFi.handle e s).lastCheckTime = s.lastCheckTime ∧
    (MyWiFi.handle e s).lastReconnectTime = s.lastReconnectTime ∧
    (MyWiFi.handle e s).lastAttempt = s.lastAttempt ∧
    (MyWiFi.handle e s).apModeStartTime = s.apModeStartTime ∧
    (MyWiFi.handle e s).shouldStopPortal = s.shouldStopPortal ∧
    (MyWiFi.handle e s).portalStopTime = s.portalStopTime ∧
    MyWiFi.handle e s = s := by
  have hportal : MyWiFi.handleConfigPortal e s = s := by
    unfold MyWiFi.handleConfigPortal MyWiFi.handleClient
    rw [hreq]
    split <;> rfl
  have h1 : MyWiFi.handle.portal e (MyWiFi.millis s) s = s := by
    unfold MyWiFi.handle.portal
    rw [hportal]
    simp [Nat.not_le.mpr hprobe]
  have h2 : MyWiFi.handle.linkCheck e (MyWiFi.millis s) s = s := by
    unfold MyWiFi.handle.linkCheck
    simp [Nat.not_le.mpr hcheck]
  have h3 : MyWiFi.handle.reconnect e (MyWiFi.millis s) s = s := by
    unfold MyWiFi.handle.reconnect
    simp [Nat.not_le.mpr hrec]
  have h : MyWiFi.handle e s = s := by
    unfold MyWiFi.handle
    simp only [hstop, if_false, h1, h2, h3]
  rw [h]
  simp

theorem handle_idle_tick_unchanged_witness :
    bootConnected.currentStatus = WIFI_STATUS_CONNECTED ∧
    MyWiFi.handle upEnv (atClock 1000 bootConnected) = atClock 1000 bootConnected :=
  ⟨by decide,
   (handle_idle_tick_unchanged upEnv (atClock 1000 bootConnected) rfl (by decide) (by decide)
      (by decide) (by decide)).2.2.2.2.2.2.2.2.2.2⟩

/-! ## C8: scanning from the portal -/

/-- C8: `handleScan` (served by the web server) replies `200` with the array of
scanned networks and leaves `currentMode` and `currentStatus` unchanged; started
with the radio in `WIFI_MODE_AP`, the last command it gives the radio is
`WiFi.mode(WIFI_MODE_AP)`, so the radio is in that mode again when it returns;
started in any other mode it issues no mode command. -/
theorem handleScan_restores_access_point (e : Env) (s : MyWiFi) (hweb : s.webServer = true) :
    (s.radioMode = WIFI_MODE_AP →
      (MyWiFi.handleScan e s).radioMode = WIFI_MODE_AP ∧
      (MyWiFi.handleScan e s).radioLog.getLast? = some (RadioCmd.mode WIFI_MODE_AP)) ∧
    (s.radioMode ≠ WIFI_MODE_AP →
      (MyWiFi.handleScan e s).radioMode = s.radioMode ∧
      ∃ cmds, (MyWiFi.handleScan e s).radioLog = s.radioLog ++ cmds ∧
        ∀ m, RadioCmd.mode m ∉ cmds) ∧
    (MyWiFi.handleScan e s).httpLog =
      s.httpLog ++ [⟨200, "application/json", .text (MyWiFi.scanJSON e e.scanCount)⟩] ∧
    (MyWiFi.handleScan e s).currentMode = s.currentMode ∧
    (MyWiFi.handleScan e s).currentStatus = s.currentStatus := by
  unfold MyWiFi.handleScan
  simp only [hweb, not_true_eq_false, if_false]
  refine ⟨?_, ?_, ?_, ?_, ?_⟩
  · intro h1
    by_cases h2 : e.status s.polls = WL_CONNECTED <;>
      simp [MyWiFi.send, MyWiFi.radio, MyWiFi.delay, MyWiFi.wifiMode, MyWiFi.wifiStatus, h1, h2]
  · intro h1
    by_cases h2 : e.status s.polls = WL_CONNECTED
    · refine ⟨?_, [RadioCmd.scanNetworks, RadioCmd.scanDelete], ?_, ?_⟩ <;>
        simp [MyWiFi.send, MyWiFi.radio, MyWiFi.delay, MyWiFi.wifiMode, MyWiFi.wifiStatus, h1, h2]
    · refine ⟨?_, [RadioCmd.disconnect false, RadioCmd.scanNetworks, RadioCmd.scanDelete],
        ?_, ?_⟩ <;>
        simp [MyWiFi.send, MyWiFi.radio, MyWiFi.delay, MyWiFi.wifiMode, MyWiFi.wifiStatus, h1, h2]
  · by_cases h1 : s.radioMode = WIFI_MODE_AP <;>
      by_cases h2 : e.status s.polls = WL_CONNECTED <;>
      simp [MyWiFi.send, MyWiFi.radio, MyWiFi.delay, MyWiFi.wifiMode, MyWiFi.wifiStatus, h1, h2]
  · by_cases h1 : s.radioMode = WIFI_MODE_AP <;>
      by_cases h2 : e.status s.polls = WL_CONNECTED <;>
      simp [MyWiFi.send, MyWiFi.radio, MyWiFi.delay, MyWiFi.wifiMode, MyWiFi.wifiStatus, h1, h2]
  · by_cases h1 : s.radioMode = WIFI_MODE_AP <;>
      by_cases h2 : e.status s.polls = WL_CONNECTED <;>
      simp [MyWiFi.send, MyWiFi.radio, MyWiFi.delay, MyWiFi.wifiMode, MyWiFi.wifiStatus, h1, h2]

theorem handleScan_restores_access_point_witness :
    ((MyWiFi.handleScan downEnv (MyWiFi.begin downEnv (MyWiFi.construct Nvs.empty 0)).2).radioMode
        = WIFI_MODE_AP ∧
      (MyWiFi.handleScan downEnv
        (MyWiFi.begin downEnv (MyWiFi.construct Nvs.empty 0)).2).radioLog.getLast?
        = some (RadioCmd.mode WIFI_MODE_AP)) ∧
    (MyWiFi.handleScan downEnv linkLost).radioMode = WIFI_MODE_APSTA :=
  ⟨(handleScan_restores_access_point downEnv
      (MyWiFi.begin downEnv (MyWiFi.construct Nvs.empty 0)).2 (by decide)).1 (by decide),
   ((handleScan_restores_access_point downEnv linkLost (by decide)).2.1 (by decide)).1⟩

/-! ## C9: a save request without ssid -/

/-- C9: `handleSave` (served by the web server) with an empty `ssid` field
replies `400` and leaves `staSSID`, `staPassword`, the store and its handle,
`shouldStopPortal` and `portalStopTime` unchanged, whatever the `password` field. -/
theorem handleSave_empty_ssid_rejected (e : Env) (password : String) (s : MyWiFi)
    (hweb : s.webServer = true) :
    (MyWiFi.handleSave e "" password s).httpLog = s.httpLog ++
      [⟨400, "text/html", .text "<html><body><h2>Error: SSID cannot be empty</h2></body></html>"⟩] ∧
    (MyWiFi.handleSave e "" password s).staSSID = s.staSSID ∧
    (MyWiFi.handleSave e "" password s).staPassword = s.staPassword ∧
    (MyWiFi.handleSave e "" password s).nvs = s.nvs ∧
    (MyWiFi.handleSave e "" password s).opens = s.opens ∧
    (MyWiFi.handleSave e "" password s).prefsStarted = s.prefsStarted ∧
    (MyWiFi.handleSave e "" password s).shouldStopPortal = s.shouldStopPortal ∧
    (MyWiFi.handleSave e "" password s).portalStopTime = s.portalStopTime := by
  have h0 : ¬ strlen "" > 0 := by decide
  simp [MyWiFi.handleSave, hweb, h0, MyWiFi.send]

theorem handleSave_empty_ssid_rejected_witness :
    (MyWiFi.handleSave downEnv "" "secretpw"
      (MyWiFi.begin downEnv (MyWiFi.construct Nvs.empty 0)).2).shouldStopPortal = false ∧
    (MyWiFi.handleSave downEnv "" "secretpw"
      (MyWiFi.begin downEnv (MyWiFi.construct Nvs.empty 0)).2).nvs = Nvs.empty :=
  ⟨(handleSave_empty_ssid_rejected downEnv "secretpw"
      (MyWiFi.begin downEnv (MyWiFi.construct Nvs.empty 0)).2 (by decide)).2.2.2.2.2.2.1,
   (handleSave_empty_ssid_rejected downEnv "secretpw"
      (MyWiFi.begin downEnv (MyWiFi.construct Nvs.empty 0)).2 (by decide)).2.2.2.1⟩

/-! ## C10: start-up -/

namespace MyWiFi

theorem connectToWiFi_portal (e : Env) (s : MyWiFi) :
    (connectToWiFi e s).2.configPortalActive = s.configPortalActive := by
  by_cases h : strlen s.staSSID = 0
  · simp [connectToWiFi, h]
  · obtain ⟨c, p, l, b, hc⟩ := connectToWiFi_shape e s h
    rw [hc]

/-- The bounded join succeeds exactly when an ssid is configured and the last
answer of the driver that `connectToWiFi` reads is `WL_CONNECTED`. -/
theorem connectToWiFi_result (e : Env) (s : MyWiFi) :
    ((connectToWiFi e s).1 = true ↔
      (¬ strlen s.staSSID = 0 ∧
        e.status ((connectToWiFi e s).2.polls - 1) = WL_CONNECTED)) := by
  by_cases h : strlen s.staSSID = 0
  · simp [connectToWiFi, h]
  · unfold connectToWiFi
    rw [if_neg h]
    dsimp only
    generalize (connectPoll e _ pollFuel _).getD _ = y
    simp only [wifiStatus]
    split
    · rename_i hc
      simpa [h] using hc
    · rename_i hc
      simpa [h] using hc

theorem loadConfig_portal (e : Env) (s : MyWiFi) :
    (loadConfig e s).2.configPortalActive = s.configPortalActive := by
  unfold loadConfig prefsBegin prefsEnd
  dsimp only
  split <;> split <;> (try split) <;> rfl

end MyWiFi

/-- C10: on the constructed object, for every store content and every driver,
`begin` returns `true` exactly when the loaded client SSID is non-empty and the
bounded join `connectToWiFi` succeeds, and then ends with
`WIFI_STATUS_CONNECTED`, `WIFI_MODE_STA` and the portal inactive; otherwise it
returns `false` and ends with `configPortalActive`, `WIFI_STATUS_CONFIG_PORTAL`
and `WIFI_MODE_AP`. -/
theorem begin_outcome (e : Env) (n : Nvs) (t : Nat) :
    ((MyWiFi.begin e (MyWiFi.construct n t)).1 = true ↔
      (0 < strlen (bootLoaded e n t).staSSID ∧
        (MyWiFi.connectToWiFi e (MyWiFi.startSTA (bootLoaded e n t))).1 = true)) ∧
    ((MyWiFi.begin e (MyWiFi.construct n t)).1 = true →
      (MyWiFi.begin e (MyWiFi.construct n t)).2.currentStatus = WIFI_STATUS_CONNECTED ∧
      (MyWiFi.begin e (MyWiFi.construct n t)).2.currentMode = WIFI_MODE_STA ∧
      (MyWiFi.begin e (MyWiFi.construct n t)).2.configPortalActive = false) ∧
    ((MyWiFi.begin e (MyWiFi.construct n t)).1 = false →
      (MyWiFi.begin e (MyWiFi.construct n t)).2.configPortalActive = true ∧
      (MyWiFi.begin e (MyWiFi.construct n t)).2.currentStatus = WIFI_STATUS_CONFIG_PORTAL ∧
      (MyWiFi.begin e (MyWiFi.construct n t)).2.currentMode = WIFI_MODE_AP) := by
  have hb : MyWiFi.begin e (MyWiFi.construct n t) =
      if strlen (bootLoaded e n t).staSSID > 0 then
        if (MyWiFi.connectToWiFi e (MyWiFi.startSTA (bootLoaded e n t))).1 = true then
          (true, { (MyWiFi.connectToWiFi e (MyWiFi.startSTA (bootLoaded e n t))).2 with
            currentStatus := WIFI_STATUS_CONNECTED, currentMode := WIFI_MODE_STA })
        else (false, MyWiFi.startConfigPortal
          (MyWiFi.connectToWiFi e (MyWiFi.startSTA (bootLoaded e n t))).2)
      else (false, MyWiFi.startConfigPortal (bootLoaded e n t)) := rfl
  rw [hb]
  have hp : (MyWiFi.connectToWiFi e (MyWiFi.startSTA (bootLoaded e n t))).2.configPortalActive
      = false := by
    rw [MyWiFi.connectToWiFi_portal]
    unfold bootLoaded
    simp only [MyWiFi.startSTA, MyWiFi.delay, MyWiFi.wifiMode]
    rw [MyWiFi.loadConfig_portal]
    rfl
  by_cases h1 : strlen (bootLoaded e n t).staSSID > 0
  · by_cases h2 : (MyWiFi.connectToWiFi e (MyWiFi.startSTA (bootLoaded e n t))).1 = true
    · rw [if_pos h1, if_pos h2]
      exact ⟨by simp [h1, h2], fun _ => ⟨rfl, rfl, hp⟩, fun h => by simp at h⟩
    · rw [if_pos h1, if_neg h2]
      have f := MyWiFi.startConfigPortal_fields
        (MyWiFi.connectToWiFi e (MyWiFi.startSTA (bootLoaded e n t))).2
      exact ⟨by simp [h2], fun h => by simp at h, fun _ => ⟨f.2.2.1, f.2.1, f.1⟩⟩
  · rw [if_neg h1]
    have f := MyWiFi.startConfigPortal_fields (bootLoaded e n t)
    exact ⟨by simp [h1], fun h => by simp at h, fun _ => ⟨f.2.2.1, f.2.1, f.1⟩⟩

theorem begin_outcome_witness :
    ((MyWiFi.begin upEnv (MyWiFi.construct ⟨some "Home", some "secretpw", none, none⟩ 0)).2.currentStatus
        = WIFI_STATUS_CONNECTED ∧
      (MyWiFi.begin upEnv (MyWiFi.construct ⟨some "Home", some "secretpw", none, none⟩ 0)).2.currentMode
        = WIFI_MODE_STA ∧
      (MyWiFi.begin upEnv
        (MyWiFi.construct ⟨some "Home", some "secretpw", none, none⟩ 0)).2.configPortalActive
        = false) ∧
    ((MyWiFi.begin downEnv
        (MyWiFi.construct ⟨some "Home", some "secretpw", none, none⟩ 0)).2.configPortalActive
        = true ∧
      (MyWiFi.begin downEnv (MyWiFi.construct ⟨some "Home", some "secretpw", none, none⟩ 0)).2.currentStatus
        = WIFI_STATUS_CONFIG_PORTAL ∧
      (MyWiFi.begin downEnv (MyWiFi.construct ⟨some "Home", some "secretpw", none, none⟩ 0)).2.currentMode
        = WIFI_MODE_AP) :=
  ⟨(begin_outcome upEnv ⟨some "Home", some "secretpw", none, none⟩ 0).2.1 (by decide),
   (begin_outcome downEnv ⟨some "Home", some "secretpw", none, none⟩ 0).2.2 (by decide)⟩

/-! ## C13: loading the profiles -/

namespace MyWiFi

theorem prefsBegin_read (e : Env) (ro : Bool) (s : MyWiFi) :
    (prefsBegin e ro s).2.nvs = s.nvs ∧ (prefsBegin e ro s).2.prefsStarted = readable e s := by
  unfold prefsBegin readable
  by_cases h1 : s.prefsStarted = true
  · simp [h1]
  · by_cases h2 : e.nvsOpen s.opens = true
    · simp [h1, h2]
    · simp [h1, h2]

/-- The four values `loadConfig` leaves in the object. -/
theorem loadConfig_values (e : Env) (s : MyWiFi) :
    (loadConfig e s).2.staSSID
      = (if readable e s then (s.nvs.sta_ssid).getD DEFAULT_STA_SSID else DEFAULT_STA_SSID) ∧
    (loadConfig e s).2.staPassword
      = (if readable e s then (s.nvs.sta_pwd).getD DEFAULT_STA_PASSWORD else DEFAULT_STA_PASSWORD) ∧
    (loadConfig e s).2.apSSID
      = (if readable e s then (s.nvs.ap_ssid).getD DEFAULT_AP_SSID else DEFAULT_AP_SSID) ∧
    (loadConfig e s).2.apPassword
      = (if strlen (if readable e s then (s.nvs.ap_pwd).getD DEFAULT_AP_PASSWORD
            else DEFAULT_AP_PASSWORD) < 8 then DEFAULT_AP_PASSWORD
         else (if readable e s then (s.nvs.ap_pwd).getD DEFAULT_AP_PASSWORD
            else DEFAULT_AP_PASSWORD)) := by
  obtain ⟨hn, hr⟩ := prefsBegin_read e true s
  unfold loadConfig
  dsimp only
  generalize (prefsBegin e true s).2 = x at hn hr
  simp only [prefsGetString, prefsEnd, hn, hr, Nvs.get]
  refine ⟨?_, ?_, ?_, ?_⟩ <;> split_ifs <;> rfl

end MyWiFi

/-- C13: for every content of the store, after `loadConfig` the access-point
passphrase in memory has at least 8 bytes: it is the stored value when that
value has at least 8 bytes (the namespace being readable) and the default
`12345678` when the stored value is shorter or absent; every absent key yields
its default (`""`, `""`, `ESP32-Gateway`, `12345678`). -/
theorem loadConfig_passphrase_and_defaults (e : Env) (s : MyWiFi) :
    8 ≤ strlen (MyWiFi.loadConfig e s).2.apPassword ∧
    (∀ v, (s.prefsStarted = true ∨ e.nvsOpen s.opens = true) → s.nvs.ap_pwd = some v →
      8 ≤ strlen v → (MyWiFi.loadConfig e s).2.apPassword = v) ∧
    ((∀ v, s.nvs.ap_pwd = some v → strlen v < 8) →
      (MyWiFi.loadConfig e s).2.apPassword = "12345678") ∧
    (s.nvs.sta_ssid = none → (MyWiFi.loadConfig e s).2.staSSID = "") ∧
    (s.nvs.sta_pwd = none → (MyWiFi.loadConfig e s).2.staPassword = "") ∧
    (s.nvs.ap_ssid = none → (MyWiFi.loadConfig e s).2.apSSID = "ESP32-Gateway") ∧
    (s.nvs.ap_pwd = none → (MyWiFi.loadConfig e s).2.apPassword = "12345678") := by
  obtain ⟨h1, h2, h3, h4⟩ := MyWiFi.loadConfig_values e s
  have hd : strlen DEFAULT_AP_PASSWORD = 8 := by decide
  have hshort : (∀ v, s.nvs.ap_pwd = some v → strlen v < 8) →
      (MyWiFi.loadConfig e s).2.apPassword = "12345678" := by
    intro hv
    rw [h4]
    cases hp : s.nvs.ap_pwd with
    | none => simp [hd, DEFAULT_AP_PASSWORD]
    | some v =>
      have := hv v hp
      by_cases hr : MyWiFi.readable e s = true
      · simp [hr, this, DEFAULT_AP_PASSWORD]
      · simp [hr, hd, DEFAULT_AP_PASSWORD]
  refine ⟨?_, ?_, hshort, ?_, ?_, ?_, ?_⟩
  · rw [h4]
    split_ifs <;> omega
  · intro v hr hp hv
    have hr' : MyWiFi.readable e s = true := by
      unfold MyWiFi.readable
      rcases hr with hr | hr <;> simp [hr]
    rw [h4]
    simp [hr', hp, Nat.not_lt.mpr hv]
  · intro hn
    rw [h1, hn]
    simp [DEFAULT_STA_SSID]
  · intro hn
    rw [h2, hn]
    simp [DEFAULT_STA_PASSWORD]
  · intro hn
    rw [h3, hn]
    simp [DEFAULT_AP_SSID]
  · intro hn
    exact hshort (by intro v hv; rw [hn] at hv; cases hv)

theorem loadConfig_passphrase_and_defaults_witness :
    (MyWiFi.loadConfig downEnv
      (MyWiFi.construct ⟨some "Home", none, none, some "long enough"⟩ 0)).2.apPassword
        = "long enough" ∧
    (MyWiFi.loadConfig downEnv
      (MyWiFi.construct ⟨some "Home", none, none, some "short"⟩ 0)).2.apPassword = "12345678" ∧
    (MyWiFi.loadConfig downEnv
      (MyWiFi.construct ⟨some "Home", none, none, some "short"⟩ 0)).2.staPassword = "" ∧
    (MyWiFi.loadConfig downEnv
      (MyWiFi.construct ⟨some "Home", none, none, some "short"⟩ 0)).2.apSSID = "ESP32-Gateway" :=
  ⟨(loadConfig_passphrase_and_defaults downEnv
      (MyWiFi.construct ⟨some "Home", none, none, some "long enough"⟩ 0)).2.1 "long enough"
      (Or.inr rfl) rfl (by decide),
   (loadConfig_passphrase_and_defaults downEnv
      (MyWiFi.construct ⟨some "Home", none, none, some "short"⟩ 0)).2.2.1
      (by intro v hv; cases hv; decide),
   (loadConfig_passphrase_and_defaults downEnv
      (MyWiFi.construct ⟨some "Home", none, none, some "short"⟩ 0)).2.2.2.2.1 rfl,
   (loadConfig_passphrase_and_defaults downEnv
      (MyWiFi.construct ⟨some "Home", none, none, some "short"⟩ 0)).2.2.2.2.2.1 rfl⟩

/-! ## C16: what `saveConfig` reports -/

namespace MyWiFi

theorem prefsPutString_nvs (e : Env) (k : NvsKey) (v : String) (s : MyWiFi)
    (h1 : s.prefsStarted = true) (h2 : s.prefsReadOnly = false) :
    (prefsPutString e k v s).2.nvs = if (e.nvsPut k v).stored then s.nvs.set k v else s.nvs := by
  simp only [prefsPutString, h1, h2, Bool.false_eq_true, not_false_eq_true, and_self, if_true]
  split <;> rfl

/-- Each of the four writes is made whatever the earlier ones reported: a key
holds the object's value exactly when its own write reached the store. -/
theorem write_nvs (e : Env) (s : MyWiFi)
    (h1 : s.prefsStarted = true) (h2 : s.prefsReadOnly = false) :
    (saveConfig.write e s).2.nvs =
      { sta_ssid := if (e.nvsPut .sta_ssid s.staSSID).stored then some s.staSSID
          else s.nvs.sta_ssid,
        sta_pwd := if (e.nvsPut .sta_pwd s.staPassword).stored then some s.staPassword
          else s.nvs.sta_pwd,
        ap_ssid := if (e.nvsPut .ap_ssid s.apSSID).stored then some s.apSSID else s.nvs.ap_ssid,
        ap_pwd := if (e.nvsPut .ap_pwd s.apPassword).stored then some s.apPassword
          else s.nvs.ap_pwd } := by
  unfold saveConfig.write
  dsimp only
  have a1 := prefsPutString_fields e .sta_ssid s.staSSID s
  have n1 := prefsPutString_nvs e .sta_ssid s.staSSID s h1 h2
  generalize prefsPutString e .sta_ssid s.staSSID s = x1 at *
  have a2 := prefsPutString_fields e .sta_pwd x1.2.staPassword x1.2
  have n2 := prefsPutString_nvs e .sta_pwd x1.2.staPassword x1.2 (by rw [a1.2.2.2.2.1, h1])
    (by rw [a1.2.2.2.2.2, h2])
  generalize prefsPutString e .sta_pwd x1.2.staPassword x1.2 = x2 at *
  have a3 := prefsPutString_fields e .ap_ssid x2.2.apSSID x2.2
  have n3 := prefsPutString_nvs e .ap_ssid x2.2.apSSID x2.2
    (by rw [a2.2.2.2.2.1, a1.2.2.2.2.1, h1]) (by rw [a2.2.2.2.2.2, a1.2.2.2.2.2, h2])
  generalize prefsPutString e .ap_ssid x2.2.apSSID x2.2 = x3 at *
  have n4 := prefsPutString_nvs e .ap_pwd x3.2.apPassword x3.2
    (by rw [a3.2.2.2.2.1, a2.2.2.2.2.1, a1.2.2.2.2.1, h1])
    (by rw [a3.2.2.2.2.2, a2.2.2.2.2.2, a1.2.2.2.2.2, h2])
  generalize prefsPutString e .ap_pwd x3.2.apPassword x3.2 = x4 at *
  show x4.2.nvs = _
  rw [n4, n3, n2, n1, a1.2.1, a2.2.2.1, a1.2.2.1, a3.2.2.2.1, a2.2.2.2.1, a1.2.2.2.1]
  generalize s.nvs = n
  cases n
  split_ifs <;> rfl

theorem prefsPutString_opens (e : Env) (k : NvsKey) (v : String) (s : MyWiFi) :
    (prefsPutString e k v s).2.opens = s.opens := by
  unfold prefsPutString
  split_ifs <;> rfl

/-- After `saveConfig` the four strings of the object are unchanged; on a store
that opens, the handle is closed again and one attempt to open was made. -/
theorem saveConfig_after (e : Env) (s : MyWiFi) :
    (saveConfig e s).2.staSSID = s.staSSID ∧ (saveConfig e s).2.staPassword = s.staPassword ∧
    (saveConfig e s).2.apSSID = s.apSSID ∧ (saveConfig e s).2.apPassword = s.apPassword ∧
    (e.nvsOpen s.opens = true →
      (saveConfig e s).2.prefsStarted = false ∧ (saveConfig e s).2.opens = s.opens + 1) := by
  obtain ⟨st, ro, n, c, o, hs⟩ := saveConfig_storeOnly e s
  refine ⟨by rw [hs], by rw [hs], by rw [hs], by rw [hs], ?_⟩
  intro h
  rw [saveConfig_opened e s h]
  refine ⟨rfl, ?_⟩
  unfold saveConfig.write
  simp only [prefsEnd, prefsPutString_opens]

end MyWiFi

namespace MyWiFi

/-- On a store that opens, `saveConfig` returns `true` exactly when each of the
four writes reports a positive byte count, and every write is made. -/
theorem saveConfig_result (e : Env) (s : MyWiFi) (h : e.nvsOpen s.opens = true) :
    ((saveConfig e s).1 = true ↔
      (0 < (e.nvsPut .sta_ssid s.staSSID).bytes ∧ 0 < (e.nvsPut .sta_pwd s.staPassword).bytes ∧
        0 < (e.nvsPut .ap_ssid s.apSSID).bytes ∧ 0 < (e.nvsPut .ap_pwd s.apPassword).bytes)) ∧
    (saveConfig e s).2.nvs =
      { sta_ssid := if (e.nvsPut .sta_ssid s.staSSID).stored then some s.staSSID
          else s.nvs.sta_ssid,
        sta_pwd := if (e.nvsPut .sta_pwd s.staPassword).stored then some s.staPassword
          else s.nvs.sta_pwd,
        ap_ssid := if (e.nvsPut .ap_ssid s.apSSID).stored then some s.apSSID else s.nvs.ap_ssid,
        ap_pwd := if (e.nvsPut .ap_pwd s.apPassword).stored then some s.apPassword
          else s.nvs.ap_pwd } := by
  rw [saveConfig_opened e s h]
  constructor
  · rw [write_result e _ rfl rfl]
    simp
  · rw [write_nvs e _ rfl rfl]

/-- On a store that opens, keeps every value and reports its length,
`saveConfig` succeeds exactly when none of the four strings is empty; the four
values are stored in either case and `loadConfig` reads them back, the
access-point passphrase subject to its length check. -/
theorem saveConfig_length_store (e : Env) (s : MyWiFi) (hopen : ∀ k, e.nvsOpen k = true)
    (hlen : ∀ k v, e.nvsPut k v = ⟨true, strlen v⟩) :
    ((saveConfig e s).1 = true ↔
      (0 < strlen s.staSSID ∧ 0 < strlen s.staPassword ∧ 0 < strlen s.apSSID ∧
        0 < strlen s.apPassword)) ∧
    (saveConfig e s).2.nvs
      = ⟨some s.staSSID, some s.staPassword, some s.apSSID, some s.apPassword⟩ ∧
    (loadConfig e (saveConfig e s).2).2.staSSID = s.staSSID ∧
    (loadConfig e (saveConfig e s).2).2.staPassword = s.staPassword ∧
    (loadConfig e (saveConfig e s).2).2.apSSID = s.apSSID ∧
    (loadConfig e (saveConfig e s).2).2.apPassword
      = (if strlen s.apPassword < 8 then DEFAULT_AP_PASSWORD else s.apPassword) := by
  obtain ⟨r1, r2⟩ := saveConfig_result e s (hopen _)
  simp only [hlen, if_true] at r1 r2
  obtain ⟨v1, v2, v3, v4⟩ := loadConfig_values e (saveConfig e s).2
  have hr : readable e (saveConfig e s).2 = true := by
    unfold readable
    simp [hopen]
  rw [hr, r2] at v1 v2 v3 v4
  simp only [if_true, Option.getD_some] at v1 v2 v3 v4
  exact ⟨r1, r2, v1, v2, v3, v4⟩

end MyWiFi

/-- C16 (counterexample): on a freshly constructed object, whose access-point
profile is still empty, and a store that reports string lengths,
`setSTACredentials("Home", "secretpw")` returns `false` and stores all four
values, but the following `loadConfig` does not return the stored (empty)
access-point passphrase: it yields the default `12345678`. -/
theorem saved_empty_passphrase_is_not_reloaded :
    (MyWiFi.setSTACredentials downEnv "Home" "secretpw" (MyWiFi.construct Nvs.empty 0)).1 = false ∧
    (MyWiFi.setSTACredentials downEnv "Home" "secretpw" (MyWiFi.construct Nvs.empty 0)).2.nvs
      = ⟨some "Home", some "secretpw", some "", some ""⟩ ∧
    (MyWiFi.setSTACredentials downEnv "Home" "secretpw"
      (MyWiFi.construct Nvs.empty 0)).2.apPassword = "" ∧
    (MyWiFi.loadConfig downEnv (MyWiFi.setSTACredentials downEnv "Home" "secretpw"
      (MyWiFi.construct Nvs.empty 0)).2).2.apPassword = "12345678" := by
  decide

/-- C16 (amended): on a store that opens, `saveConfig` makes all four writes
whatever the earlier ones reported and returns `true` exactly when each reports
a positive byte count; hence on a store that keeps every value and reports its
length, for every profile with an empty string `saveConfig` and
`setSTACredentials` return `false` although all four values are stored, and the
following `loadConfig` returns the client SSID, the client passphrase and the
access-point SSID as saved, and the access-point passphrase as saved when it has
at least 8 bytes (the default `12345678` when it is shorter). -/
theorem saveConfig_false_although_stored (e : Env) (s : MyWiFi) (ssid password : String)
    (hopen : ∀ k, e.nvsOpen k = true) :
    ((MyWiFi.saveConfig e s).1 = true ↔
      (0 < (e.nvsPut .sta_ssid s.staSSID).bytes ∧ 0 < (e.nvsPut .sta_pwd s.staPassword).bytes ∧
        0 < (e.nvsPut .ap_ssid s.apSSID).bytes ∧ 0 < (e.nvsPut .ap_pwd s.apPassword).bytes)) ∧
    (∀ k, (MyWiFi.saveConfig e s).2.nvs.get k =
      if (e.nvsPut k (match k with
          | .sta_ssid => s.staSSID | .sta_pwd => s.staPassword
          | .ap_ssid => s.apSSID | .ap_pwd => s.apPassword)).stored
      then some (match k with
          | .sta_ssid => s.staSSID | .sta_pwd => s.staPassword
          | .ap_ssid => s.apSSID | .ap_pwd => s.apPassword)
      else s.nvs.get k) ∧
    ((∀ k v, e.nvsPut k v = ⟨true, strlen v⟩) →
      ((strlen s.staSSID = 0 ∨ strlen s.staPassword = 0 ∨ strlen s.apSSID = 0 ∨
          strlen s.apPassword = 0) → (MyWiFi.saveConfig e s).1 = false) ∧
      (MyWiFi.saveConfig e s).2.nvs
        = ⟨some s.staSSID, some s.staPassword, some s.apSSID, some s.apPassword⟩ ∧
      (MyWiFi.loadConfig e (MyWiFi.saveConfig e s).2).2.staSSID = s.staSSID ∧
      (MyWiFi.loadConfig e (MyWiFi.saveConfig e s).2).2.staPassword = s.staPassword ∧
      (MyWiFi.loadConfig e (MyWiFi.saveConfig e s).2).2.apSSID = s.apSSID ∧
      (8 ≤ strlen s.apPassword →
        (MyWiFi.loadConfig e (MyWiFi.saveConfig e s).2).2.apPassword = s.apPassword) ∧
      (strlen s.apPassword < 8 →
        (MyWiFi.loadConfig e (MyWiFi.saveConfig e s).2).2.apPassword = "12345678") ∧
      ((strlen ssid = 0 ∨ strlen password = 0 ∨ strlen s.apSSID = 0 ∨ strlen s.apPassword = 0) →
        (MyWiFi.setSTACredentials e ssid password s).1 = false) ∧
      (MyWiFi.setSTACredentials e ssid password s).2.nvs
        = ⟨some ssid, some password, some s.apSSID, some s.apPassword⟩ ∧
      (MyWiFi.loadConfig e (MyWiFi.setSTACredentials e ssid password s).2).2.staSSID = ssid ∧
      (MyWiFi.loadConfig e (MyWiFi.setSTACredentials e ssid password s).2).2.staPassword
        = password) := by
  obtain ⟨r1, r2⟩ := MyWiFi.saveConfig_result e s (hopen _)
  refine ⟨r1, ?_, ?_⟩
  · intro k
    rw [r2]
    cases k <;> rfl
  · intro hlen
    obtain ⟨a1, a2, a3, a4, a5, a6⟩ := MyWiFi.saveConfig_length_store e s hopen hlen
    obtain ⟨b1, b2, b3, b4, _, _⟩ := MyWiFi.saveConfig_length_store e
      { s with staSSID := ssid, staPassword := password } hopen hlen
    refine ⟨?_, a2, a3, a4, a5, ?_, ?_, ?_, b2, b3, b4⟩
    · intro h0
      cases hres : (MyWiFi.saveConfig e s).1 with
      | false => rfl
      | true =>
        have := a1.mp hres
        omega
    · intro h8
      rw [a6, if_neg (by omega)]
    · intro h8
      rw [a6, if_pos h8]
      rfl
    · intro h0
      cases hres : (MyWiFi.setSTACredentials e ssid password s).1 with
      | false => rfl
      | true =>
        have := b1.mp hres
        simp only at this
        omega

theorem saveConfig_false_although_stored_witness :
    (MyWiFi.setSTACredentials downEnv "Cafe" "" bootConnected).1 = false ∧
    (MyWiFi.setSTACredentials downEnv "Cafe" "" bootConnected).2.nvs
      = ⟨some "Cafe", some "", some "ESP32-Gateway", some "12345678"⟩ ∧
    (MyWiFi.loadConfig downEnv (MyWiFi.setSTACredentials downEnv "Cafe" "" bootConnected).2).2.staSSID
      = "Cafe" ∧
    (MyWiFi.loadConfig downEnv
      (MyWiFi.setSTACredentials downEnv "Cafe" "" bootConnected).2).2.staPassword = "" :=
  ⟨((saveConfig_false_although_stored downEnv bootConnected "Cafe" "" (fun _ => rfl)).2.2
      (fun _ _ => rfl)).2.2.2.2.2.2.2.1 (Or.inr (Or.inl (by decide))),
   ((saveConfig_false_although_stored downEnv bootConnected "Cafe" "" (fun _ => rfl)).2.2
      (fun _ _ => rfl)).2.2.2.2.2.2.2.2.1,
   ((saveConfig_false_although_stored downEnv bootConnected "Cafe" "" (fun _ => rfl)).2.2
      (fun _ _ => rfl)).2.2.2.2.2.2.2.2.2.1,
   ((saveConfig_false_although_stored downEnv bootConnected "Cafe" "" (fun _ => rfl)).2.2
      (fun _ _ => rfl)).2.2.2.2.2.2.2.2.2.2⟩

/-! ## C11: the reaction to a lost link -/

namespace MyWiFi

/-- While the driver never answers `WL_CONNECTED` the loop of `handleReconnect`
ends with `connected = false`. -/
theorem reconnectPoll_down (e : Env) (start : Nat) (hdown : ∀ k, e.status k ≠ WL_CONNECTED) :
    ∀ (fuel : Nat) (s : MyWiFi) (r : Bool × MyWiFi),
      reconnectPoll e start fuel s = some r → r.1 = false := by
  intro fuel
  induction fuel with
  | zero => intro s r h; simp [reconnectPoll] at h
  | succ n ih =>
    intro s r h
    rw [reconnectPoll] at h
    split at h
    · dsimp only at h
      rw [if_neg (by simpa [wifiStatus] using hdown s.polls)] at h
      exact ih _ _ h
    · simp only [Option.some.injEq] at h
      rw [← h]

theorem handleReconnect_down (e : Env) (s : MyWiFi) (hdown : ∀ k, e.status k ≠ WL_CONNECTED) :
    (handleReconnect e s).currentStatus = WIFI_STATUS_DISCONNECTED := by
  unfold handleReconnect
  dsimp only
  generalize hs1 : (radio _ _ : MyWiFi) = s1
  have hb : ((reconnectPoll e (millis s1) pollFuel s1).getD (false, s1)).1 = false := by
    cases h : reconnectPoll e (millis s1) pollFuel s1 with
    | none => rfl
    | some r => exact reconnectPoll_down e _ hdown _ _ _ h
  obtain ⟨b, c, p, l, h⟩ := reconnectWait_shape e (millis s1) pollFuel s1
  rw [h] at hb ⊢
  simp only at hb
  subst hb
  simp only [Bool.false_eq_true, if_false]
  split <;> rfl

/-- The radio commands of `handleReconnect` are added to the log. -/
theorem handleReconnect_radioLog (e : Env) (s : MyWiFi) :
    ∃ rest, (handleReconnect e s).radioLog = s.radioLog ++ rest := by
  unfold handleReconnect
  dsimp only
  generalize hs1 : (radio _ _ : MyWiFi) = s1
  have h1 : ∃ r1, s1.radioLog = s.radioLog ++ r1 := by
    subst hs1
    by_cases hm : s.currentMode = WIFI_MODE_APSTA
    · exact ⟨[RadioCmd.join s.staSSID s.staPassword], by simp [radio, hm]⟩
    · exact ⟨[RadioCmd.mode WIFI_MODE_APSTA, RadioCmd.softAP s.apSSID s.apPassword,
        RadioCmd.join s.staSSID s.staPassword], by simp [radio, wifiMode, hm]⟩
  obtain ⟨r1, h1⟩ := h1
  obtain ⟨b, c, p, l, h⟩ := reconnectWait_shape e (millis s1) pollFuel s1
  rw [h]
  cases b
  · simp only [Bool.false_eq_true, if_false]
    split
    · exact ⟨r1 ++ [RadioCmd.mode WIFI_MODE_APSTA, RadioCmd.softAP s1.apSSID s1.apPassword],
        by simp [radio, wifiMode, h1]⟩
    · exact ⟨r1, h1⟩
  · simp only [if_true]
    refine ⟨r1 ++ [RadioCmd.mode WIFI_MODE_STA], ?_⟩
    by_cases hpa : s1.configPortalActive = true <;>
      simp [stopConfigPortal, delay, wifiMode, hpa, h1]

/-- Reaction of `checkSTAConnection` to a lost link, up to the first
reconnect attempt. -/
theorem onLoss_lost (e : Env) (x : MyWiFi) (hs : x.currentStatus = WIFI_STATUS_CONNECTED)
    (hdown : e.status x.polls ≠ WL_CONNECTED) :
    (((checkSTAConnection.onLoss e x).currentStatus = WIFI_STATUS_CONNECTED ∧
        (checkSTAConnection.onLoss e x).currentMode = WIFI_MODE_STA ∧
        (checkSTAConnection.onLoss e x).configPortalActive = false) ∨
      ((checkSTAConnection.onLoss e x).currentStatus = WIFI_STATUS_DISCONNECTED ∧
        (checkSTAConnection.onLoss e x).currentMode = WIFI_MODE_APSTA ∧
        (checkSTAConnection.onLoss e x).configPortalActive = true)) ∧
    ((∀ k, e.status k ≠ WL_CONNECTED) →
      (checkSTAConnection.onLoss e x).currentStatus = WIFI_STATUS_DISCONNECTED) ∧
    ∃ rest, (checkSTAConnection.onLoss e x).radioLog = x.radioLog ++
      RadioCmd.mode WIFI_MODE_APSTA :: RadioCmd.softAP x.apSSID x.apPassword :: rest := by
  have key : ∀ y : MyWiFi, y.configPortalActive = true →
      y.radioLog = x.radioLog ++
        [RadioCmd.mode WIFI_MODE_APSTA, RadioCmd.softAP x.apSSID x.apPassword] →
      (((handleReconnect e y).currentStatus = WIFI_STATUS_CONNECTED ∧
          (handleReconnect e y).currentMode = WIFI_MODE_STA ∧
          (handleReconnect e y).configPortalActive = false) ∨
        ((handleReconnect e y).currentStatus = WIFI_STATUS_DISCONNECTED ∧
          (handleReconnect e y).currentMode = WIFI_MODE_APSTA ∧
          (handleReconnect e y).configPortalActive = true)) ∧
      ((∀ k, e.status k ≠ WL_CONNECTED) →
        (handleReconnect e y).currentStatus = WIFI_STATUS_DISCONNECTED) ∧
      ∃ rest, (handleReconnect e y).radioLog = x.radioLog ++
        RadioCmd.mode WIFI_MODE_APSTA :: RadioCmd.softAP x.apSSID x.apPassword :: rest := by
    intro y hy1 hy2
    refine ⟨?_, fun hd => handleReconnect_down e y hd, ?_⟩
    · rcases handleReconnect_fields e y with h | h
      · exact Or.inl h
      · exact Or.inr ⟨h.1, h.2.1, by rw [h.2.2, hy1]⟩
    · obtain ⟨rest, hr⟩ := handleReconnect_radioLog e y
      exact ⟨rest, by rw [hr, hy2]; simp⟩
  unfold checkSTAConnection.onLoss
  dsimp only
  rw [if_pos (by simpa [wifiStatus] using And.intro hdown hs)]
  refine key _ ?_ ?_
  · by_cases hp : x.configPortalActive = true <;>
      simp [startAPSTA, setupWebServer, delay, radio, wifiMode, wifiStatus, hp]
  · by_cases hp : x.configPortalActive = true <;>
      simp [startAPSTA, setupWebServer, delay, radio, wifiMode, wifiStatus, hp]

/-- The retry of `checkSTAConnection` keeps the two outcomes. -/
theorem retry_outcome (e : Env) (y : MyWiFi)
    (h : (y.currentStatus = WIFI_STATUS_CONNECTED ∧ y.currentMode = WIFI_MODE_STA ∧
          y.configPortalActive = false) ∨
        (y.currentStatus = WIFI_STATUS_DISCONNECTED ∧ y.currentMode = WIFI_MODE_APSTA ∧
          y.configPortalActive = true)) :
    (((checkSTAConnection.retry e y).currentStatus = WIFI_STATUS_CONNECTED ∧
        (checkSTAConnection.retry e y).currentMode = WIFI_MODE_STA ∧
        (checkSTAConnection.retry e y).configPortalActive = false) ∨
      ((checkSTAConnection.retry e y).currentStatus = WIFI_STATUS_DISCONNECTED ∧
        (checkSTAConnection.retry e y).currentMode = WIFI_MODE_APSTA ∧
        (checkSTAConnection.retry e y).configPortalActive = true)) ∧
    ((∀ k, e.status k ≠ WL_CONNECTED) → y.currentStatus = WIFI_STATUS_DISCONNECTED →
      (checkSTAConnection.retry e y).currentStatus = WIFI_STATUS_DISCONNECTED) ∧
    ∃ rest, (checkSTAConnection.retry e y).radioLog = y.radioLog ++ rest := by
  have hcase : checkSTAConnection.retry e y = y ∨
      (y.currentStatus = WIFI_STATUS_DISCONNECTED ∧
        checkSTAConnection.retry e y = handleReconnect e { y with lastReconnectTime := millis y }) := by
    unfold checkSTAConnection.retry
    dsimp only
    split_ifs with hd <;> first | exact Or.inl rfl | exact Or.inr ⟨hd, rfl⟩
  rcases hcase with hc | ⟨hd, hc⟩
  · rw [hc]
    exact ⟨h, fun _ hd => hd, [], by simp⟩
  · rw [hc]
    have hpa : y.configPortalActive = true := by
      rcases h with h | h
      · rw [h.1] at hd; cases hd
      · exact h.2.2
    refine ⟨?_, fun hdown _ => handleReconnect_down e _ hdown, handleReconnect_radioLog e _⟩
    rcases handleReconnect_fields e { y with lastReconnectTime := millis y } with h2 | h2
    · exact Or.inl h2
    · exact Or.inr ⟨h2.1, h2.2.1, by rw [h2.2.2]; exact hpa⟩

/-- With the link recorded as connected, the portal block of `handle` leaves
status, mode, portal flag and `lastCheckTime` alone. -/
theorem portal_block_connected (e : Env) (t : Nat) (s : MyWiFi)
    (hs : s.currentStatus = WIFI_STATUS_CONNECTED) :
    (handle.portal e t s).currentStatus = s.currentStatus ∧
    (handle.portal e t s).currentMode = s.currentMode ∧
    (handle.portal e t s).configPortalActive = s.configPortalActive ∧
    (handle.portal e t s).lastCheckTime = s.lastCheckTime ∧
    (handle.portal e t s).apSSID = s.apSSID ∧
    (handle.portal e t s).apPassword = s.apPassword := by
  unfold handle.portal
  have hf := handleConfigPortal_frame e s
  obtain ⟨f1, f2, f3, _, _, _, f7, _, _, f10, f11, _⟩ := hf
  split
  · dsimp only
    split
    · rw [if_neg (by simp [f1, hs])]
      exact ⟨f1, f2, f3, f7, f10, f11⟩
    · exact ⟨f1, f2, f3, f7, f10, f11⟩
  · simp

end MyWiFi

namespace MyWiFi

theorem consistent_of_fields {s x : MyWiFi} (h : Consistent s)
    (h1 : x.currentStatus = s.currentStatus) (h2 : x.configPortalActive = s.configPortalActive)
    (h3 : x.shouldStopPortal = s.shouldStopPortal) : Consistent x := by
  unfold Consistent at *
  rw [h1, h2, h3]
  exact h

theorem consistent_of_portal {x : MyWiFi} (h1 : x.configPortalActive = true)
    (h2 : x.currentStatus ≠ WIFI_STATUS_CONNECTED) : Consistent x :=
  ⟨fun hc => absurd hc h2, fun _ => h1⟩

theorem consistent_of_idle {x : MyWiFi} (h1 : x.configPortalActive = false)
    (h2 : x.shouldStopPortal = false) : Consistent x := by
  refine ⟨fun _ => h1, fun hc => ?_⟩
  rw [h2] at hc
  cases hc

/-- After `stopConfigPortal` the portal is down, and no shutdown is scheduled if
none was scheduled with the portal down before. -/
theorem stopConfigPortal_idle (s : MyWiFi)
    (h : s.shouldStopPortal = true → s.configPortalActive = true) :
    (stopConfigPortal s).configPortalActive = false ∧
    (stopConfigPortal s).shouldStopPortal = false := by
  unfold stopConfigPortal
  split
  · exact ⟨rfl, rfl⟩
  · rename_i hp
    refine ⟨by simpa using hp, ?_⟩
    cases hq : s.shouldStopPortal with
    | false => rfl
    | true => exact absurd (h hq) hp

theorem handleReconnect_consistent (e : Env) (s : MyWiFi)
    (h : s.shouldStopPortal = true → s.configPortalActive = true) :
    Consistent (handleReconnect e s) := by
  unfold handleReconnect
  dsimp only
  generalize hs1 : (radio _ _ : MyWiFi) = s1
  obtain ⟨b, c, p, l, hw⟩ := reconnectWait_shape e (millis s1) pollFuel s1
  rw [hw]
  have ha : s1.configPortalActive = s.configPortalActive ∧
      s1.shouldStopPortal = s.shouldStopPortal := by
    subst hs1
    by_cases hmode : s.currentMode = WIFI_MODE_APSTA <;> simp [radio, wifiMode, hmode]
  clear hs1
  cases b
  · simp only [Bool.false_eq_true, if_false]
    have hres : ∀ z : MyWiFi, z.currentStatus = WIFI_STATUS_DISCONNECTED →
        z.configPortalActive = s.configPortalActive →
        z.shouldStopPortal = s.shouldStopPortal → Consistent z := by
      intro z h1 h2 h3
      refine consistent_of_fields (s := { s with currentStatus := WIFI_STATUS_DISCONNECTED })
        ⟨fun hc => ?_, h⟩ h1 h2 h3
      cases hc
    split
    · refine hres _ ?_ ?_ ?_ <;> simp [wifiMode, radio, ha.1, ha.2]
    · exact hres _ rfl ha.1 ha.2
  · simp only [if_true]
    have hi := stopConfigPortal_idle
      { s1 with clock := c, polls := p, driverLog := l,
                currentStatus := WIFI_STATUS_CONNECTED, reconnectAttempts := 0 }
      (by
        intro hq
        show s1.configPortalActive = true
        rw [ha.1]
        exact h (by rw [← ha.2]; exact hq))
    exact consistent_of_idle hi.1 hi.2

theorem checkAPMode_consistent (e : Env) (s : MyWiFi) (h : Consistent s) :
    Consistent (checkAPMode e s) := by
  unfold checkAPMode
  split
  · dsimp only
    split
    · have hi := stopConfigPortal_idle (wifiStatus e s).2 h.2
      exact consistent_of_idle hi.1 hi.2
    · split
      · split
        · exact consistent_of_fields h rfl rfl rfl
        · by_cases hm : s.currentMode = WIFI_MODE_AP
          · refine consistent_of_fields h ?_ ?_ ?_ <;>
              simp [radio, wifiStatus, wifiMode, delay, hm]
          · refine consistent_of_fields h ?_ ?_ ?_ <;>
              simp [radio, wifiStatus, wifiMode, delay, hm]
      · exact consistent_of_fields h rfl rfl rfl
  · exact h

theorem portal_block_consistent (e : Env) (t : Nat) (s : MyWiFi) (h : Consistent s) :
    Consistent (handle.portal e t s) := by
  unfold handle.portal
  have hf := handleConfigPortal_frame e s
  split
  · rename_i hg
    have hne : s.currentStatus ≠ WIFI_STATUS_CONNECTED := by
      intro hc
      have := h.1 hc
      rw [hg.1] at this
      cases this
    have h0 : Consistent (handleConfigPortal e s) :=
      consistent_of_portal (by rw [hf.2.2.1]; exact hg.1) (by rw [hf.1]; exact hne)
    dsimp only
    split
    · split
      · exact checkAPMode_consistent e _ (consistent_of_fields h0 rfl rfl rfl)
      · exact consistent_of_fields h0 rfl rfl rfl
    · exact h0
  · exact h

theorem onLoss_consistent (e : Env) (x : MyWiFi) (h : Consistent x) :
    Consistent (checkSTAConnection.onLoss e x) := by
  have key : ∀ y : MyWiFi, y.configPortalActive = true → Consistent (handleReconnect e y) :=
    fun y hy => handleReconnect_consistent e y (fun _ => hy)
  unfold checkSTAConnection.onLoss
  dsimp only
  split
  · refine key _ ?_
    by_cases hp : x.configPortalActive = true <;>
      simp [startAPSTA, setupWebServer, delay, radio, wifiMode, wifiStatus, hp]
  · exact consistent_of_fields h rfl rfl rfl

theorem retry_consistent (e : Env) (y : MyWiFi) (h : Consistent y) :
    Consistent (checkSTAConnection.retry e y) := by
  unfold checkSTAConnection.retry
  dsimp only
  split_ifs <;> first | exact h | exact handleReconnect_consistent e _ h.2

theorem linkCheck_consistent (e : Env) (t : Nat) (s : MyWiFi) (h : Consistent s) :
    Consistent (handle.linkCheck e t s) := by
  unfold handle.linkCheck checkSTAConnection
  split_ifs
  · exact retry_consistent e _ (onLoss_consistent e _ (consistent_of_fields h rfl rfl rfl))
  · exact h
  · exact h

theorem reconnect_block_consistent (e : Env) (t : Nat) (s : MyWiFi) (h : Consistent s) :
    Consistent (handle.reconnect e t s) := by
  unfold handle.reconnect
  split_ifs
  · exact handleReconnect_consistent e _ h.2
  · exact h
  · exact h

theorem connectToWiFi_portal_fields (e : Env) (s : MyWiFi) :
    (connectToWiFi e s).2.configPortalActive = s.configPortalActive ∧
    (connectToWiFi e s).2.shouldStopPortal = s.shouldStopPortal := by
  by_cases h : strlen s.staSSID = 0
  · simp [connectToWiFi, h]
  · obtain ⟨c, p, l, b, hc⟩ := connectToWiFi_shape e s h
    rw [hc]
    exact ⟨rfl, rfl⟩

theorem startConfigPortal_consistent (s : MyWiFi) : Consistent (startConfigPortal s) :=
  consistent_of_portal (startConfigPortal_fields s).2.2.1
    (by rw [(startConfigPortal_fields s).2.1]; decide)

theorem deferredStop_consistent (e : Env) (s : MyWiFi) :
    Consistent (handle.deferredStop e s) := by
  unfold handle.deferredStop
  dsimp only
  have hi := stopConfigPortal_idle { s with shouldStopPortal := false }
    (fun hq => by cases hq)
  obtain ⟨c1, c2⟩ := connectToWiFi_portal_fields e
    (wifiMode WIFI_MODE_STA (stopConfigPortal { s with shouldStopPortal := false }))
  split
  · exact consistent_of_idle (c1.trans hi.1) (c2.trans hi.2)
  · exact startConfigPortal_consistent _

theorem handle_consistent (e : Env) (s : MyWiFi) (h : Consistent s) :
    Consistent (handle e s) := by
  unfold handle
  dsimp only
  split
  · exact deferredStop_consistent e s
  · exact reconnect_block_consistent e _ _
      (linkCheck_consistent e _ _ (portal_block_consistent e _ s h))

theorem loadConfig_portal_fields (e : Env) (s : MyWiFi) :
    (loadConfig e s).2.configPortalActive = s.configPortalActive ∧
    (loadConfig e s).2.shouldStopPortal = s.shouldStopPortal := by
  unfold loadConfig prefsBegin prefsEnd
  dsimp only
  constructor <;> split_ifs <;> rfl

theorem begin_consistent (e : Env) (s : MyWiFi) (h1 : s.configPortalActive = false)
    (h2 : s.shouldStopPortal = false) : Consistent (begin e s).2 := by
  unfold begin
  dsimp only
  generalize hx : (loadConfig e (delay 100 (wifiMode WIFI_MODE_NULL s))).2 = x
  have hx1 : x.configPortalActive = false ∧ x.shouldStopPortal = false := by
    subst hx
    rw [(loadConfig_portal_fields e _).1, (loadConfig_portal_fields e _).2]
    exact ⟨h1, h2⟩
  split
  · obtain ⟨c1, c2⟩ := connectToWiFi_portal_fields e (startSTA x)
    split
    · exact consistent_of_idle (c1.trans hx1.1) (c2.trans hx1.2)
    · exact startConfigPortal_consistent _
  · exact startConfigPortal_consistent x

end MyWiFi

theorem reachable_consistent (s : MyWiFi) (h : Reachable s) : MyWiFi.Consistent s := by
  induction h with
  | boot e n t => exact MyWiFi.begin_consistent e _ rfl rfl
  | tick e t s _ ih =>
    exact MyWiFi.handle_consistent e _ (MyWiFi.consistent_of_fields ih rfl rfl rfl)

/-- When a tick starts with the link recorded as connected, no shutdown of the
portal is scheduled. -/
theorem tickStart_not_due (s : MyWiFi) (h : TickStart s)
    (hs : s.currentStatus = WIFI_STATUS_CONNECTED) :
    ¬ (s.shouldStopPortal = true ∧ MyWiFi.millis s ≥ s.portalStopTime) := by
  obtain ⟨s0, t, hr, rfl⟩ := h
  have hc := reachable_consistent s0 hr
  intro hd
  have h1 : s0.configPortalActive = false := hc.1 hs
  have h2 : s0.configPortalActive = true := hc.2 hd.1
  rw [h1] at h2
  cases h2

/-- C11: in a state with status `WIFI_STATUS_CONNECTED` and mode STA or APSTA,
when the link-check interval has elapsed and the driver answers the link check
with anything but `WL_CONNECTED`, the tick commands `WIFI_AP_STA` with the
access point and ends either `WIFI_STATUS_CONNECTED` / `WIFI_MODE_STA` (a
reconnect attempt of this tick succeeded) or `WIFI_STATUS_DISCONNECTED` /
`WIFI_MODE_APSTA` with `configPortalActive`; the latter whenever the driver
never answers `WL_CONNECTED`.  This holds at the start of every tick of a run of
`begin` and ticks, and in any state whatsoever in which the deferred shutdown
(which has priority and returns early) is not due. -/
theorem link_loss_enters_dual_mode (e : Env) (s : MyWiFi)
    (hs : s.currentStatus = WIFI_STATUS_CONNECTED)
    (hm : s.currentMode = WIFI_MODE_STA ∨ s.currentMode = WIFI_MODE_APSTA)
    (hi : usub (MyWiFi.millis s) s.lastCheckTime ≥ WIFI_CHECK_INTERVAL)
    (hr : TickStart s ∨
      ¬ (s.shouldStopPortal = true ∧ MyWiFi.millis s ≥ s.portalStopTime))
    (hdown : e.status (MyWiFi.handle.portal e (MyWiFi.millis s) s).polls ≠ WL_CONNECTED) :
    (((MyWiFi.handle e s).currentStatus = WIFI_STATUS_CONNECTED ∧
        (MyWiFi.handle e s).currentMode = WIFI_MODE_STA) ∨
      ((MyWiFi.handle e s).currentStatus = WIFI_STATUS_DISCONNECTED ∧
        (MyWiFi.handle e s).currentMode = WIFI_MODE_APSTA ∧
        (MyWiFi.handle e s).configPortalActive = true)) ∧
    ((∀ k, e.status k ≠ WL_CONNECTED) →
      (MyWiFi.handle e s).currentStatus = WIFI_STATUS_DISCONNECTED ∧
      (MyWiFi.handle e s).currentMode = WIFI_MODE_APSTA ∧
      (MyWiFi.handle e s).configPortalActive = true) ∧
    ∃ rest, (MyWiFi.handle e s).radioLog =
      (MyWiFi.handle.portal e (MyWiFi.millis s) s).radioLog ++
        RadioCmd.mode WIFI_MODE_APSTA :: RadioCmd.softAP s.apSSID s.apPassword :: rest := by
  have hstop := hr.elim (fun h => tickStart_not_due s h hs) id
  obtain ⟨p1, p2, p3, p4, p5, p6⟩ := MyWiFi.portal_block_connected e (MyWiFi.millis s) s hs
  unfold MyWiFi.handle
  dsimp only
  rw [if_neg hstop]
  generalize MyWiFi.handle.portal e (MyWiFi.millis s) s = p at *
  have hlc : MyWiFi.handle.linkCheck e (MyWiFi.millis s) p
      = MyWiFi.checkSTAConnection.retry e
          (MyWiFi.checkSTAConnection.onLoss e { p with lastCheckTime := MyWiFi.millis s }) := by
    unfold MyWiFi.handle.linkCheck
    rw [if_pos ⟨by rw [p2]; exact hm, by rw [p1]; exact hs⟩, if_pos (by rw [p4]; exact hi)]
    rfl
  rw [hlc]
  obtain ⟨o1, o2, rest1, o3⟩ := MyWiFi.onLoss_lost e { p with lastCheckTime := MyWiFi.millis s }
    (by rw [← hs, ← p1]) hdown
  generalize MyWiFi.checkSTAConnection.onLoss e { p with lastCheckTime := MyWiFi.millis s } = y at *
  obtain ⟨r1, r2, rest2, r3⟩ := MyWiFi.retry_outcome e y o1
  generalize MyWiFi.checkSTAConnection.retry e y = z at *
  have hrec : MyWiFi.handle.reconnect e (MyWiFi.millis s) z = z := by
    unfold MyWiFi.handle.reconnect
    rcases r1 with h | h
    · rw [if_neg (by rw [h.1]; simp)]
    · rw [if_neg (by rw [h.2.2]; simp)]
  rw [hrec]
  refine ⟨?_, ?_, ?_⟩
  · rcases r1 with h | h
    · exact Or.inl ⟨h.1, h.2.1⟩
    · exact Or.inr h
  · intro hd
    have hz := r2 hd (o2 hd)
    rcases r1 with h | h
    · rw [h.1] at hz; cases hz
    · exact h
  · refine ⟨rest1 ++ rest2, ?_⟩
    rw [r3, o3]
    simp [p5, p6]

theorem link_loss_enters_dual_mode_witness :
    (MyWiFi.handle downEnv (atClock 20000 bootConnected)).currentStatus
      = WIFI_STATUS_DISCONNECTED ∧
    (MyWiFi.handle downEnv (atClock 20000 bootConnected)).currentMode = WIFI_MODE_APSTA ∧
    (MyWiFi.handle downEnv (atClock 20000 bootConnected)).configPortalActive = true :=
  (link_loss_enters_dual_mode downEnv (atClock 20000 bootConnected) (by decide)
    (Or.inl (by decide)) (by decide)
    (Or.inl ⟨bootConnected, 20000, Reachable.boot _ _ _, rfl⟩) (by decide)).2.1
    (fun _ h => by cases h)

/-! ## C15: disconnected only with the portal -/

namespace MyWiFi

/-- Outcome of `handleReconnect` with the counter. -/
theorem handleReconnect_counter (e : Env) (s : MyWiFi) :
    ((handleReconnect e s).currentStatus = WIFI_STATUS_CONNECTED ∧
      (handleReconnect e s).reconnectAttempts = 0) ∨
    ((handleReconnect e s).currentStatus = WIFI_STATUS_DISCONNECTED ∧
      (handleReconnect e s).reconnectAttempts = s.reconnectAttempts + 1 ∧
      (handleReconnect e s).configPortalActive = s.configPortalActive) := by
  unfold handleReconnect
  dsimp only
  generalize hs1 : (radio _ _ : MyWiFi) = s1
  obtain ⟨b, c, p, l, h⟩ := reconnectWait_shape e (millis s1) pollFuel s1
  rw [h]
  have ha : s1.reconnectAttempts = s.reconnectAttempts + 1 ∧
      s1.configPortalActive = s.configPortalActive := by
    subst hs1
    by_cases hmode : s.currentMode = WIFI_MODE_APSTA <;> simp [radio, wifiMode, hmode]
  cases b
  · right
    simp only [Bool.false_eq_true, if_false]
    split <;> simp [wifiMode, radio, ha.1, ha.2]
  · left
    simp only [if_true]
    by_cases hpa : s1.configPortalActive = true <;>
      simp [stopConfigPortal, delay, wifiMode, hpa]

theorem good_of_fields {s x : MyWiFi} (h : Good s) (h1 : x.currentStatus = s.currentStatus)
    (h2 : x.configPortalActive = s.configPortalActive)
    (h3 : x.reconnectAttempts = s.reconnectAttempts) : Good x := by
  unfold Good at *
  rw [h1, h2, h3]
  exact h

theorem good_of_connected {x : MyWiFi} (h1 : x.currentStatus = WIFI_STATUS_CONNECTED)
    (h2 : x.reconnectAttempts ≤ 2) : Good x := by
  refine ⟨?_, h2⟩
  intro hd
  rw [h1] at hd
  cases hd

theorem good_of_portal {x : MyWiFi} (h1 : x.configPortalActive = true)
    (h2 : x.reconnectAttempts ≤ 2) : Good x := ⟨fun _ => h1, h2⟩

theorem checkAPMode_good (e : Env) (s : MyWiFi) (h : Good s) : Good (checkAPMode e s) := by
  unfold checkAPMode
  split
  · dsimp only
    split
    · unfold Good
      by_cases hpa : s.configPortalActive = true <;>
        simp [stopConfigPortal, delay, wifiMode, wifiStatus, hpa]
    · split
      · split
        · exact good_of_fields h rfl rfl rfl
        · by_cases hm : s.currentMode = WIFI_MODE_AP
          · refine good_of_fields h ?_ ?_ ?_ <;>
              simp [radio, wifiStatus, wifiMode, delay, hm]
          · refine good_of_fields h ?_ ?_ ?_ <;>
              simp [radio, wifiStatus, wifiMode, delay, hm]
      · exact good_of_fields h rfl rfl rfl
  · exact h

theorem portal_block_good (e : Env) (t : Nat) (s : MyWiFi) (h : Good s) :
    Good (handle.portal e t s) := by
  unfold handle.portal
  have hf := handleConfigPortal_frame e s
  have h0 : Good (handleConfigPortal e s) := good_of_fields h hf.1 hf.2.2.1 hf.2.2.2.2.2.1
  split
  · dsimp only
    split
    · split
      · exact checkAPMode_good e _ (good_of_fields h0 rfl rfl rfl)
      · exact good_of_fields h0 rfl rfl rfl
    · exact h0
  · exact h

/-- After the first statement of `checkSTAConnection`, entered with the link
recorded as connected: still connected, or disconnected with the portal up
after exactly one attempt. -/
theorem onLoss_counter (e : Env) (x : MyWiFi) (hs : x.currentStatus = WIFI_STATUS_CONNECTED)
    (ha : x.reconnectAttempts ≤ 2) :
    ((checkSTAConnection.onLoss e x).currentStatus = WIFI_STATUS_CONNECTED ∧
      (checkSTAConnection.onLoss e x).reconnectAttempts ≤ 2) ∨
    ((checkSTAConnection.onLoss e x).currentStatus = WIFI_STATUS_DISCONNECTED ∧
      (checkSTAConnection.onLoss e x).reconnectAttempts = 1 ∧
      (checkSTAConnection.onLoss e x).configPortalActive = true) := by
  have key : ∀ y : MyWiFi, y.configPortalActive = true → y.reconnectAttempts = 0 →
      ((handleReconnect e y).currentStatus = WIFI_STATUS_CONNECTED ∧
        (handleReconnect e y).reconnectAttempts ≤ 2) ∨
      ((handleReconnect e y).currentStatus = WIFI_STATUS_DISCONNECTED ∧
        (handleReconnect e y).reconnectAttempts = 1 ∧
        (handleReconnect e y).configPortalActive = true) := by
    intro y hy1 hy2
    rcases handleReconnect_counter e y with h | h
    · exact Or.inl ⟨h.1, by rw [h.2]; decide⟩
    · exact Or.inr ⟨h.1, by rw [h.2.1, hy2]; rfl, by rw [h.2.2, hy1]⟩
  unfold checkSTAConnection.onLoss
  dsimp only
  split
  · refine key _ ?_ ?_
    · by_cases hp : x.configPortalActive = true <;>
        simp [startAPSTA, setupWebServer, delay, radio, wifiMode, wifiStatus, hp]
    · by_cases hp : x.configPortalActive = true <;>
        simp [startAPSTA, setupWebServer, delay, radio, wifiMode, wifiStatus, hp]
  · exact Or.inl ⟨hs, ha⟩

theorem checkSTAConnection_good (e : Env) (x : MyWiFi)
    (hs : x.currentStatus = WIFI_STATUS_CONNECTED) (ha : x.reconnectAttempts ≤ 2) :
    Good (checkSTAConnection e x) := by
  unfold checkSTAConnection
  have ho := onLoss_counter e x hs ha
  generalize checkSTAConnection.onLoss e x = y at ho
  have hcase : checkSTAConnection.retry e y = y ∨
      (y.currentStatus = WIFI_STATUS_DISCONNECTED ∧
        checkSTAConnection.retry e y = handleReconnect e { y with lastReconnectTime := millis y }) := by
    unfold checkSTAConnection.retry
    dsimp only
    split_ifs with hd <;> first | exact Or.inl rfl | exact Or.inr ⟨hd, rfl⟩
  rcases hcase with hc | ⟨hd, hc⟩
  · rw [hc]
    rcases ho with h | h
    · exact good_of_connected h.1 h.2
    · exact good_of_portal h.2.2 (by rw [h.2.1]; decide)
  · rw [hc]
    rcases ho with h | h
    · rw [h.1] at hd; cases hd
    · rcases handleReconnect_counter e { y with lastReconnectTime := millis y } with h2 | h2
      · exact good_of_connected h2.1 (by rw [h2.2]; decide)
      · refine good_of_portal (by rw [h2.2.2]; exact h.2.2) ?_
        rw [h2.2.1]
        show y.reconnectAttempts + 1 ≤ 2
        rw [h.2.1]
        decide

theorem linkCheck_good (e : Env) (t : Nat) (s : MyWiFi) (h : Good s) :
    Good (handle.linkCheck e t s) := by
  unfold handle.linkCheck
  split
  · rename_i hg
    split
    · exact checkSTAConnection_good e _ hg.2 h.2
    · exact h
  · exact h

/-- On a good state the reconnect block of `handle` does nothing: its guard
is false. -/
theorem reconnect_block_idle (e : Env) (t : Nat) (s : MyWiFi) (h : Good s) :
    ¬ (s.currentStatus = WIFI_STATUS_DISCONNECTED ∧ ¬ s.configPortalActive = true) ∧
    handle.reconnect e t s = s := by
  have hg : ¬ (s.currentStatus = WIFI_STATUS_DISCONNECTED ∧ ¬ s.configPortalActive = true) :=
    fun hc => hc.2 (h.1 hc.1)
  refine ⟨hg, ?_⟩
  unfold handle.reconnect
  rw [if_neg hg]

theorem startConfigPortal_counter (s : MyWiFi) :
    (startConfigPortal s).reconnectAttempts = s.reconnectAttempts := by
  by_cases hp : s.configPortalActive = true <;>
    simp [startConfigPortal, stopConfigPortal, setupWebServer, startAP, delay, radio, wifiMode, hp]

theorem startConfigPortal_good (s : MyWiFi) (h : s.reconnectAttempts ≤ 2) :
    Good (startConfigPortal s) := by
  refine ⟨fun hd => (startConfigPortal_fields s).2.2.1, ?_⟩
  rw [startConfigPortal_counter]
  exact h

/-- A bounded join leaves the counter alone or resets it. -/
theorem connectToWiFi_counter (e : Env) (s : MyWiFi) :
    ((connectToWiFi e s).1 = true → (connectToWiFi e s).2.reconnectAttempts = 0) ∧
    ((connectToWiFi e s).1 = false →
      (connectToWiFi e s).2.reconnectAttempts = s.reconnectAttempts) := by
  by_cases h : strlen s.staSSID = 0
  · simp [connectToWiFi, h]
  · obtain ⟨c, p, l, b, hc⟩ := connectToWiFi_shape e s h
    rw [hc]
    cases b <;> simp

theorem deferredStop_good (e : Env) (s : MyWiFi) (h : Good s) :
    Good (handle.deferredStop e s) := by
  unfold handle.deferredStop
  dsimp only
  generalize hx : wifiMode WIFI_MODE_STA (stopConfigPortal { s with shouldStopPortal := false }) = x
  have hx1 : x.reconnectAttempts = s.reconnectAttempts := by
    subst hx
    by_cases hp : s.configPortalActive = true <;> simp [wifiMode, stopConfigPortal, delay, hp]
  obtain ⟨c1, c2⟩ := connectToWiFi_counter e x
  cases hr : (connectToWiFi e x).1 with
  | true =>
    simp only [if_true]
    refine good_of_connected rfl ?_
    show (connectToWiFi e x).2.reconnectAttempts ≤ 2
    rw [c1 hr]
    decide
  | false =>
    simp only [Bool.false_eq_true, if_false]
    exact startConfigPortal_good _ (by rw [c2 hr, hx1]; exact h.2)

theorem handle_good (e : Env) (s : MyWiFi) (h : Good s) : Good (handle e s) := by
  unfold handle
  dsimp only
  split
  · exact deferredStop_good e s h
  · have h2 := linkCheck_good e (millis s) _ (portal_block_good e (millis s) s h)
    rw [(reconnect_block_idle e (millis s) _ h2).2]
    exact h2

theorem loadConfig_machine (e : Env) (s : MyWiFi) :
    (loadConfig e s).2.reconnectAttempts = s.reconnectAttempts ∧
    (loadConfig e s).2.currentStatus = s.currentStatus := by
  unfold loadConfig prefsBegin prefsEnd
  dsimp only
  constructor <;> split_ifs <;> rfl

theorem begin_good (e : Env) (s : MyWiFi) (h : Good s) : Good (begin e s).2 := by
  unfold begin
  dsimp only
  generalize hx : (loadConfig e (delay 100 (wifiMode WIFI_MODE_NULL s))).2 = x
  have hx1 : x.reconnectAttempts = s.reconnectAttempts := by
    subst hx
    rw [(loadConfig_machine e _).1]
    rfl
  split
  · obtain ⟨c1, c2⟩ := connectToWiFi_counter e (startSTA x)
    cases hr : (connectToWiFi e (startSTA x)).1 with
    | true =>
      simp only [if_true]
      refine good_of_connected rfl ?_
      show (connectToWiFi e (startSTA x)).2.reconnectAttempts ≤ 2
      rw [c1 hr]
      decide
    | false =>
      simp only [Bool.false_eq_true, if_false]
      refine startConfigPortal_good _ ?_
      rw [c2 hr]
      show x.reconnectAttempts ≤ 2
      rw [hx1]
      exact h.2
  · exact startConfigPortal_good x (by rw [hx1]; exact h.2)

theorem operated_good (s : MyWiFi) (h : Operated s) : Good s := by
  induction h with
  | construct n t =>
    refine ⟨fun hd => ?_, ?_⟩
    · cases hd
    · show (0 : Int) ≤ 2
      decide
  | elapse t s _ ih => exact good_of_fields ih rfl rfl rfl
  | begin e s _ ih => exact begin_good e s ih
  | handle e s _ ih => exact handle_good e s ih
  | setSTACredentials e a b s _ ih =>
    obtain ⟨st, ro, n, c, o, hs⟩ := saveConfig_storeOnly e { s with staSSID := a, staPassword := b }
    refine good_of_fields ih ?_ ?_ ?_ <;> simp only [setSTACredentials, hs]
  | setAPCredentials e a b s _ ih =>
    unfold setAPCredentials
    split
    · exact ih
    · obtain ⟨st, ro, n, c, o, hs⟩ := saveConfig_storeOnly e { s with apSSID := a, apPassword := b }
      refine good_of_fields ih ?_ ?_ ?_ <;> simp only [hs]
  | clearConfig e s _ ih =>
    refine good_of_fields ih ?_ ?_ ?_ <;>
      (simp only [clearConfig, prefsBegin, prefsClear, prefsEnd]; split_ifs <;> rfl)
  | startConfigPortal s _ ih => exact startConfigPortal_good s ih.2
  | disconnect s _ ih =>
    refine ⟨fun hd => ?_, ?_⟩
    · simp [disconnect] at hd
    have : (disconnect s).reconnectAttempts = s.reconnectAttempts := by
      by_cases hp : s.configPortalActive = true <;>
        simp [disconnect, stopConfigPortal, delay, radio, wifiMode, hp]
    rw [this]
    exact ih.2
  | isConnected e s _ ih => exact good_of_fields ih rfl rfl rfl

end MyWiFi

/-- C15: in every state reachable from the constructed object through `begin`,
`handle` ticks (with their portal requests) and the public operations, status
`WIFI_STATUS_DISCONNECTED` implies `configPortalActive` and `reconnectAttempts`
is at most 2; in the next tick the guard of the reconnect branch of `handle`
(disconnected with the portal down) is false where it is evaluated, and where
`checkSTAConnection` selects its retry interval (disconnected after its first
statement) `reconnectAttempts` is below 3, so the interval is
`WIFI_RECONNECT_INTERVAL`, never the slow one. -/
theorem disconnected_only_with_portal (s : MyWiFi) (h : Operated s) :
    (s.currentStatus = WIFI_STATUS_DISCONNECTED → s.configPortalActive = true) ∧
    s.reconnectAttempts ≤ 2 ∧
    (∀ e : Env,
      ¬ ((MyWiFi.handle.linkCheck e (MyWiFi.millis s)
            (MyWiFi.handle.portal e (MyWiFi.millis s) s)).currentStatus
          = WIFI_STATUS_DISCONNECTED ∧
        ¬ (MyWiFi.handle.linkCheck e (MyWiFi.millis s)
            (MyWiFi.handle.portal e (MyWiFi.millis s) s)).configPortalActive = true)) ∧
    (∀ e : Env,
      (MyWiFi.handle.portal e (MyWiFi.millis s) s).currentStatus = WIFI_STATUS_CONNECTED →
      (MyWiFi.checkSTAConnection.onLoss e
          { MyWiFi.handle.portal e (MyWiFi.millis s) s with
            lastCheckTime := MyWiFi.millis s }).currentStatus = WIFI_STATUS_DISCONNECTED →
      (MyWiFi.checkSTAConnection.onLoss e
          { MyWiFi.handle.portal e (MyWiFi.millis s) s with
            lastCheckTime := MyWiFi.millis s }).reconnectAttempts < 3) := by
  have hg := MyWiFi.operated_good s h
  refine ⟨hg.1, hg.2, ?_, ?_⟩
  · intro e
    exact (MyWiFi.reconnect_block_idle e (MyWiFi.millis s) _
      (MyWiFi.linkCheck_good e (MyWiFi.millis s) _
        (MyWiFi.portal_block_good e (MyWiFi.millis s) s hg))).1
  · intro e hc hd
    have hp := MyWiFi.portal_block_good e (MyWiFi.millis s) s hg
    rcases MyWiFi.onLoss_counter e
      { MyWiFi.handle.portal e (MyWiFi.millis s) s with lastCheckTime := MyWiFi.millis s }
      hc hp.2 with h1 | h1
    · rw [h1.1] at hd
      cases hd
    · rw [h1.2.1]
      decide

theorem disconnected_only_with_portal_witness :
    linkLost.currentStatus = WIFI_STATUS_DISCONNECTED ∧
    linkLost.configPortalActive = true ∧ linkLost.reconnectAttempts ≤ 2 :=
  ⟨by decide,
   (disconnected_only_with_portal linkLost
      (Operated.handle _ _ (Operated.elapse _ _ (Operated.handle _ _ (Operated.elapse _ _
        (Operated.begin _ _ (Operated.construct _ _))))))).1 (by decide),
   (disconnected_only_with_portal linkLost
      (Operated.handle _ _ (Operated.elapse _ _ (Operated.handle _ _ (Operated.elapse _ _
        (Operated.begin _ _ (Operated.construct _ _))))))).2.1⟩

/-! ## C12: when the radio is switched to station-only mode -/

theorem modeAllowed_none {c : DriverCall} (p : Option DriverCall)
    (h : modeAllowed none c = true) : modeAllowed p c = true := by
  cases c with
  | status a => rfl
  | command r =>
    cases r with
    | mode m => cases m <;> simp_all [modeAllowed]
    | _ => rfl

theorem modesVerified_none (p : Option DriverCall) (l : List DriverEvent)
    (h : modesVerified none l = true) : modesVerified p l = true := by
  cases l with
  | nil => rfl
  | cons x xs =>
    simp only [modesVerified, Bool.and_eq_true] at h ⊢
    exact ⟨modeAllowed_none p h.1, h.2⟩

theorem modesVerified_append (p : Option DriverCall) (a b : List DriverEvent)
    (ha : modesVerified p a = true) (hb : modesVerified none b = true) :
    modesVerified p (a ++ b) = true := by
  induction a generalizing p with
  | nil => exact modesVerified_none p b hb
  | cons x xs ih =>
    simp only [List.cons_append, modesVerified, Bool.and_eq_true] at ha ⊢
    exact ⟨ha.1, ih _ ha.2⟩

theorem modesVerified_polls (p : Option DriverCall) (l : List DriverEvent) (h : pollsOnly l) :
    modesVerified p l = true := by
  induction l generalizing p with
  | nil => rfl
  | cons x xs ih =>
    simp only [modesVerified, Bool.and_eq_true]
    obtain ⟨a, hx⟩ := h x (by simp)
    refine ⟨by rw [hx]; rfl, ih _ (fun y hy => h y (by simp [hy]))⟩

theorem pollsOnly_append {a b : List DriverEvent} (ha : pollsOnly a) (hb : pollsOnly b) :
    pollsOnly (a ++ b) := by
  intro x hx
  rcases List.mem_append.mp hx with h | h
  · exact ha x h
  · exact hb x h

namespace MyWiFi

/-- What the loop of `handleReconnect` adds to the record of driver calls:
status queries only, the last one answered `WL_CONNECTED` exactly when the
loop ends with `connected = true`. -/
theorem reconnectPoll_events (e : Env) (start : Nat) :
    ∀ (fuel : Nat) (s : MyWiFi) (b : Bool) (s' : MyWiFi),
      reconnectPoll e start fuel s = some (b, s') →
      ∃ l0, pollsOnly l0 ∧
        ((b = true ∧ ∃ t, s'.driverLog = s.driverLog ++ l0 ++ [⟨t, .status WL_CONNECTED⟩]) ∨
          (b = false ∧ s'.driverLog = s.driverLog ++ l0)) := by
  intro fuel
  induction fuel with
  | zero => intro s b s' h; simp [reconnectPoll] at h
  | succ n ih =>
    intro s b s' h
    rw [reconnectPoll] at h
    split at h
    · dsimp only at h
      split at h
      · rename_i hc
        simp only [Option.some.injEq, Prod.mk.injEq] at h
        obtain ⟨hb, hs⟩ := h
        subst hb hs
        refine ⟨[], fun x hx => by simp at hx, Or.inl ⟨rfl, s.clock, ?_⟩⟩
        simp only [wifiStatus] at hc ⊢
        rw [hc]
        simp
      · obtain ⟨l0, hl0, hcase⟩ := ih _ _ _ h
        refine ⟨⟨s.clock, .status (e.status s.polls)⟩ :: l0, ?_, ?_⟩
        · intro x hx
          rcases List.mem_cons.mp hx with hx | hx
          · exact ⟨e.status s.polls, by rw [hx]⟩
          · exact hl0 x hx
        · rcases hcase with ⟨hb, t, ht⟩ | ⟨hb, ht⟩
          · exact Or.inl ⟨hb, t, by rw [ht]; simp [delay, wifiStatus]⟩
          · exact Or.inr ⟨hb, by rw [ht]; simp [delay, wifiStatus]⟩
    · simp only [Option.some.injEq, Prod.mk.injEq] at h
      obtain ⟨hb, hs⟩ := h
      subst hb hs
      exact ⟨[], fun x hx => by simp at hx, Or.inr ⟨rfl, by simp⟩⟩

/-- What the loop of `connectToWiFi` adds: status queries only. -/
theorem connectPoll_events (e : Env) (start : Nat) :
    ∀ (fuel : Nat) (s s' : MyWiFi), connectPoll e start fuel s = some s' →
      ∃ l0, pollsOnly l0 ∧ s'.driverLog = s.driverLog ++ l0 := by
  intro fuel
  induction fuel with
  | zero => intro s s' h; simp [connectPoll] at h
  | succ n ih =>
    intro s s' h
    rw [connectPoll] at h
    split at h
    · obtain ⟨l0, hl0, ht⟩ := ih _ _ h
      refine ⟨⟨s.clock, .status (e.status s.polls)⟩ :: l0, ?_, by rw [ht]; simp [delay, wifiStatus]⟩
      intro x hx
      rcases List.mem_cons.mp hx with hx | hx
      · exact ⟨e.status s.polls, by rw [hx]⟩
      · exact hl0 x hx
    · simp only [Option.some.injEq] at h
      subst h
      refine ⟨[⟨s.clock, .status (e.status s.polls)⟩], ?_, by simp [wifiStatus]⟩
      intro x hx
      exact ⟨e.status s.polls, by rw [List.mem_singleton.mp hx]⟩

end MyWiFi

namespace MyWiFi

theorem verified_refl (s : MyWiFi) : Verified s s := ⟨[], by simp, rfl⟩

theorem verified_trans {a b c : MyWiFi} (h1 : Verified a b) (h2 : Verified b c) :
    Verified a c := by
  obtain ⟨e1, l1, v1⟩ := h1
  obtain ⟨e2, l2, v2⟩ := h2
  exact ⟨e1 ++ e2, by rw [l2, l1, List.append_assoc], modesVerified_append none e1 e2 v1 v2⟩

theorem verified_of_log {a b : MyWiFi} (h : b.driverLog = a.driverLog) : Verified a b :=
  ⟨[], by simp [h], rfl⟩

/-- Result of the loop of `handleReconnect` as used by the function. -/
theorem reconnectWait_events (e : Env) (s : MyWiFi) :
    ∃ l0, pollsOnly l0 ∧
      ((((reconnectPoll e (millis s) pollFuel s).getD (false, s)).1 = true ∧
          ∃ t, ((reconnectPoll e (millis s) pollFuel s).getD (false, s)).2.driverLog
            = s.driverLog ++ l0 ++ [⟨t, .status WL_CONNECTED⟩]) ∨
        (((reconnectPoll e (millis s) pollFuel s).getD (false, s)).1 = false ∧
          ((reconnectPoll e (millis s) pollFuel s).getD (false, s)).2.driverLog
            = s.driverLog ++ l0)) := by
  cases h : reconnectPoll e (millis s) pollFuel s with
  | none => exact ⟨[], fun x hx => by simp at hx, Or.inr ⟨rfl, by simp⟩⟩
  | some r =>
    obtain ⟨b, s'⟩ := r
    exact reconnectPoll_events e (millis s) pollFuel s b s' h

theorem handleReconnect_verified (e : Env) (s : MyWiFi) : Verified s (handleReconnect e s) := by
  unfold handleReconnect
  dsimp only
  generalize hs1 : (radio _ _ : MyWiFi) = s1
  have h1 : ∃ pre, s1.driverLog = s.driverLog ++ pre ∧ modesVerified none pre = true := by
    subst hs1
    by_cases hm : s.currentMode = WIFI_MODE_APSTA
    · exact ⟨[⟨s.clock, .command (.join s.staSSID s.staPassword)⟩], by simp [radio, hm], rfl⟩
    · exact ⟨[⟨s.clock, .command (.mode WIFI_MODE_APSTA)⟩,
        ⟨s.clock, .command (.softAP s.apSSID s.apPassword)⟩,
        ⟨s.clock, .command (.join s.staSSID s.staPassword)⟩],
        by simp [radio, wifiMode, hm], rfl⟩
  obtain ⟨pre, hpre, vpre⟩ := h1
  obtain ⟨l0, hl0, hev⟩ := reconnectWait_events e s1
  obtain ⟨b, c, p, l, h⟩ := reconnectWait_shape e (millis s1) pollFuel s1
  rw [h] at hev ⊢
  have vl0 := modesVerified_polls none l0 hl0
  rcases hev with ⟨hb, t, hl⟩ | ⟨hb, hl⟩
  · simp only at hb hl
    subst hb
    simp only [if_true]
    refine ⟨pre ++ (l0 ++ [⟨t, .status WL_CONNECTED⟩,
      ⟨(if s1.configPortalActive = true then c + 100 else c) + 100,
        .command (.mode WIFI_MODE_STA)⟩]), ?_, ?_⟩
    · by_cases hpa : s1.configPortalActive = true <;>
        simp [stopConfigPortal, delay, wifiMode, hpa, hl, hpre]
    · exact modesVerified_append none _ _ vpre (modesVerified_append none _ _ vl0 rfl)
  · simp only at hb hl
    subst hb
    simp only [Bool.false_eq_true, if_false]
    split
    · refine ⟨pre ++ (l0 ++ [⟨c, .command (.mode WIFI_MODE_APSTA)⟩,
        ⟨c, .command (.softAP s1.apSSID s1.apPassword)⟩]), ?_, ?_⟩
      · simp [radio, wifiMode, hl, hpre]
      · exact modesVerified_append none _ _ vpre (modesVerified_append none _ _ vl0 rfl)
    · exact ⟨pre ++ l0, by simp [hl, hpre], modesVerified_append none _ _ vpre vl0⟩

theorem checkAPMode_verified (e : Env) (s : MyWiFi) : Verified s (checkAPMode e s) := by
  unfold checkAPMode
  split
  · dsimp only
    split
    · rename_i hc
      refine ⟨[⟨s.clock, .status WL_CONNECTED⟩,
        ⟨(if s.configPortalActive = true then s.clock + 100 else s.clock) + 100,
          .command (.mode WIFI_MODE_STA)⟩], ?_, rfl⟩
      simp only [wifiStatus] at hc
      by_cases hpa : s.configPortalActive = true <;>
        simp [stopConfigPortal, delay, wifiMode, wifiStatus, hpa, hc]
    · split
      · split
        · exact ⟨[⟨s.clock, .status (e.status s.polls)⟩], by simp [wifiStatus], rfl⟩
        · by_cases hm : s.currentMode = WIFI_MODE_AP
          · exact ⟨[⟨s.clock, .status (e.status s.polls)⟩,
              ⟨s.clock, .command (.mode WIFI_MODE_APSTA)⟩,
              ⟨s.clock + 100, .command (.join s.staSSID s.staPassword)⟩],
              by simp [radio, wifiStatus, wifiMode, delay, hm], rfl⟩
          · exact ⟨[⟨s.clock, .status (e.status s.polls)⟩,
              ⟨s.clock, .command (.join s.staSSID s.staPassword)⟩],
              by simp [radio, wifiStatus, wifiMode, delay, hm], rfl⟩
      · exact ⟨[⟨s.clock, .status (e.status s.polls)⟩], by simp [wifiStatus], rfl⟩
  · exact verified_refl s

end MyWiFi


namespace MyWiFi

theorem verified_send {s x : MyWiFi} (c : Nat) (ty : String) (b : HttpBody)
    (h : Verified s x) : Verified s (send c ty b x) :=
  verified_trans h (verified_of_log rfl)

theorem verified_delay {s x : MyWiFi} (ms : Nat) (h : Verified s x) : Verified s (delay ms x) :=
  verified_trans h (verified_of_log rfl)

theorem verified_wifiStatus {s x : MyWiFi} (e : Env) (h : Verified s x) :
    Verified s (wifiStatus e x).2 :=
  verified_trans h ⟨[⟨x.clock, .status (e.status x.polls)⟩], rfl, rfl⟩

theorem verified_radio {s x : MyWiFi} (c : RadioCmd)
    (hc : modeAllowed none (.command c) = true) (h : Verified s x) : Verified s (radio c x) :=
  verified_trans h ⟨[⟨x.clock, .command c⟩], rfl, by simp [modesVerified, hc]⟩

theorem verified_wifiMode {s x : MyWiFi} (m : wifi_mode_t)
    (hc : modeAllowed none (.command (.mode m)) = true) (h : Verified s x) :
    Verified s (wifiMode m x) :=
  verified_trans h ⟨[⟨x.clock, .command (.mode m)⟩], rfl, by simp [modesVerified, hc]⟩

theorem handleScan_verified (e : Env) (s : MyWiFi) : Verified s (handleScan e s) := by
  unfold handleScan
  split
  · exact verified_refl s
  · dsimp only
    apply verified_send
    have h1 : Verified s (if s.radioMode = WIFI_MODE_AP then
        delay 100 (wifiMode WIFI_MODE_APSTA s) else s) := by
      split
      · exact verified_delay _ (verified_wifiMode _ rfl (verified_refl s))
      · exact verified_refl s
    generalize (if s.radioMode = WIFI_MODE_AP then
        delay 100 (wifiMode WIFI_MODE_APSTA s) else s) = x1 at h1 ⊢
    have h2 : Verified s (if (wifiStatus e x1).1 ≠ WL_CONNECTED then
        delay 200 (radio (.disconnect false) (wifiStatus e x1).2) else (wifiStatus e x1).2) := by
      split
      · exact verified_delay _ (verified_radio _ rfl (verified_wifiStatus e h1))
      · exact verified_wifiStatus e h1
    generalize (if (wifiStatus e x1).1 ≠ WL_CONNECTED then
        delay 200 (radio (.disconnect false) (wifiStatus e x1).2) else (wifiStatus e x1).2) = x2
      at h2 ⊢
    have h3 : Verified s (radio .scanDelete (delay e.scanMillis (radio .scanNetworks x2))) :=
      verified_radio _ rfl (verified_delay _ (verified_radio _ rfl h2))
    split
    · exact verified_delay _ (verified_wifiMode _ rfl h3)
    · exact h3

theorem handleStatus_verified (e : Env) (s : MyWiFi) : Verified s (handleStatus e s) := by
  unfold handleStatus
  split
  · exact verified_refl s
  · exact verified_send _ _ _
      (verified_wifiStatus e (verified_wifiStatus e (verified_wifiStatus e (verified_refl s))))

theorem handleSave_verified (e : Env) (a b : String) (s : MyWiFi) :
    Verified s (handleSave e a b s) := by
  apply verified_of_log
  unfold handleSave
  split
  · rfl
  · split
    · obtain ⟨st, ro, n, c, o, h⟩ := saveConfig_storeOnly e { s with staSSID := a, staPassword := b }
      simp only [h]
      rfl
    · rfl

theorem handleRoot_verified (s : MyWiFi) : Verified s (handleRoot s) := by
  apply verified_of_log
  unfold handleRoot
  split <;> rfl

theorem handleConfigPortal_verified (e : Env) (s : MyWiFi) :
    Verified s (handleConfigPortal e s) := by
  unfold handleConfigPortal handleClient
  split
  · exact verified_refl s
  · split
    · exact verified_refl s
    · split_ifs
      · exact handleRoot_verified s
      · exact handleSave_verified e _ _ s
      · exact handleScan_verified e s
      · exact handleStatus_verified e s
      · exact handleRoot_verified s

end MyWiFi

namespace MyWiFi

theorem startAPSTA_verified {s x : MyWiFi} (h : Verified s x) : Verified s (startAPSTA x) := by
  unfold startAPSTA
  dsimp only
  apply verified_delay
  refine verified_trans (b := radio _ (wifiMode WIFI_MODE_APSTA x)) ?_ (verified_of_log rfl)
  exact verified_radio _ rfl (verified_wifiMode _ rfl h)

theorem onLoss_verified (e : Env) (s : MyWiFi) :
    Verified s (checkSTAConnection.onLoss e s) := by
  unfold checkSTAConnection.onLoss
  have h0 : Verified s (wifiStatus e s).2 := verified_wifiStatus e (verified_refl s)
  generalize wifiStatus e s = r at h0 ⊢
  obtain ⟨a, x⟩ := r
  dsimp only at h0 ⊢
  split
  · refine verified_trans ?_ (handleReconnect_verified e _)
    have h1 : Verified s (startAPSTA
        { x with currentStatus := WIFI_STATUS_DISCONNECTED,
                 lastReconnectTime := millis x, reconnectAttempts := 0 }) :=
      startAPSTA_verified (verified_trans h0 (verified_of_log rfl))
    split
    · exact verified_trans h1 (verified_of_log rfl)
    · exact h1
  · exact h0

theorem retry_verified (e : Env) (s : MyWiFi) :
    Verified s (checkSTAConnection.retry e s) := by
  unfold checkSTAConnection.retry
  dsimp only
  split_ifs
  · exact verified_trans (verified_of_log rfl) (handleReconnect_verified e _)
  · exact verified_refl s
  · exact verified_trans (verified_of_log rfl) (handleReconnect_verified e _)
  · exact verified_refl s
  · exact verified_refl s

theorem checkSTAConnection_verified (e : Env) (s : MyWiFi) :
    Verified s (checkSTAConnection e s) :=
  verified_trans (onLoss_verified e s) (retry_verified e _)

theorem linkCheck_verified (e : Env) (t : Nat) (s : MyWiFi) :
    Verified s (handle.linkCheck e t s) := by
  unfold handle.linkCheck
  split_ifs
  · exact verified_trans (verified_of_log rfl) (checkSTAConnection_verified e _)
  · exact verified_refl s
  · exact verified_refl s

theorem reconnect_block_verified (e : Env) (t : Nat) (s : MyWiFi) :
    Verified s (handle.reconnect e t s) := by
  unfold handle.reconnect
  split_ifs
  · exact verified_trans (verified_of_log rfl) (handleReconnect_verified e _)
  · exact verified_refl s
  · exact verified_refl s

theorem portal_block_verified (e : Env) (t : Nat) (s : MyWiFi) :
    Verified s (handle.portal e t s) := by
  unfold handle.portal
  dsimp only
  have h := handleConfigPortal_verified e s
  split_ifs
  · exact verified_trans (verified_trans h (verified_of_log rfl)) (checkAPMode_verified e _)
  · exact verified_trans h (verified_of_log rfl)
  · exact h
  · exact verified_refl s

/-- A tick in which the deferred shutdown is not due commands station-only
mode only directly after the driver answered `WL_CONNECTED`. -/
theorem handle_verified (e : Env) (s : MyWiFi)
    (h : ¬ (s.shouldStopPortal = true ∧ millis s ≥ s.portalStopTime)) :
    Verified s (handle e s) := by
  unfold handle
  dsimp only
  rw [if_neg h]
  exact verified_trans (verified_trans (portal_block_verified e _ s) (linkCheck_verified e _ _))
    (reconnect_block_verified e _ _)

theorem connectWait_verified (e : Env) (s : MyWiFi) :
    Verified s ((connectPoll e (millis s) pollFuel s).getD s) := by
  cases h : connectPoll e (millis s) pollFuel s with
  | none => exact verified_refl s
  | some s' =>
    obtain ⟨l0, hl0, ht⟩ := connectPoll_events e _ _ _ _ h
    exact ⟨l0, ht, modesVerified_polls none l0 hl0⟩

theorem connectToWiFi_verified (e : Env) (s : MyWiFi) : Verified s (connectToWiFi e s).2 := by
  unfold connectToWiFi
  split
  · exact verified_refl s
  · dsimp only
    have h1 : Verified s (radio (.join s.staSSID s.staPassword)
        { s with currentStatus := WIFI_STATUS_CONNECTING }) :=
      verified_radio _ rfl (verified_of_log rfl)
    have h2 := verified_wifiStatus e (verified_trans h1 (connectWait_verified e _))
    split
    · exact verified_trans h2 (verified_of_log rfl)
    · exact h2

theorem stopConfigPortal_verified {s x : MyWiFi} (h : Verified s x) :
    Verified s (stopConfigPortal x) := by
  refine verified_trans h (verified_of_log ?_)
  unfold stopConfigPortal
  split <;> rfl

theorem startAP_verified {s x : MyWiFi} (h : Verified s x) : Verified s (startAP x) := by
  unfold startAP
  dsimp only
  apply verified_delay
  refine verified_trans (b := radio _ (wifiMode WIFI_MODE_AP x)) ?_ (verified_of_log rfl)
  exact verified_radio _ rfl (verified_wifiMode _ rfl h)

theorem startConfigPortal_verified {s x : MyWiFi} (h : Verified s x) :
    Verified s (startConfigPortal x) :=
  verified_trans (startAP_verified (stopConfigPortal_verified h)) (verified_of_log rfl)

/-- A tick in which the deferred shutdown is due starts its driver calls with
`WiFi.mode(WIFI_STA)`; the calls after it are all allowed. -/
theorem deferredStop_events (e : Env) (s : MyWiFi) :
    ∃ t ev, (handle.deferredStop e s).driverLog
        = s.driverLog ++ ⟨t, .command (.mode WIFI_MODE_STA)⟩ :: ev ∧
      modesVerified none ev = true := by
  have h0 : (wifiMode WIFI_MODE_STA (stopConfigPortal { s with shouldStopPortal := false })).driverLog
      = s.driverLog ++ [⟨(stopConfigPortal { s with shouldStopPortal := false }).clock,
          .command (.mode WIFI_MODE_STA)⟩] := by
    unfold stopConfigPortal wifiMode
    split <;> rfl
  have h1 : Verified (wifiMode WIFI_MODE_STA (stopConfigPortal { s with shouldStopPortal := false }))
      (handle.deferredStop e s) := by
    unfold handle.deferredStop
    dsimp only
    have hc := connectToWiFi_verified e
      (wifiMode WIFI_MODE_STA (stopConfigPortal { s with shouldStopPortal := false }))
    split
    · exact verified_trans hc (verified_of_log rfl)
    · exact startConfigPortal_verified hc
  obtain ⟨ev, hl, hv⟩ := h1
  exact ⟨(stopConfigPortal { s with shouldStopPortal := false }).clock, ev,
    by rw [hl, h0]; simp, hv⟩

end MyWiFi

/-! ### C12 -/

/-- C12 (counterexample): a device in the portal got the credentials `Home` /
`secretpw` saved at clock `1000`; in the tick at clock `3010` the radio, which is
in pure access-point mode, is commanded `WiFi.mode(WIFI_STA)` and only then the
join is issued, although no status answer of the driver was `WL_CONNECTED`: the
calls of this tick are not all allowed. -/
theorem deferred_stop_switches_before_join :
    savedDue.radioMode = WIFI_MODE_AP ∧
    (∀ ev ∈ (MyWiFi.handle downEnv savedDue).driverLog, ev.call ≠ .status WL_CONNECTED) ∧
    (((MyWiFi.handle downEnv savedDue).driverLog.drop savedDue.driverLog.length).take 2
      = [⟨3110, .command (.mode WIFI_MODE_STA)⟩, ⟨3110, .command (.join "Home" "secretpw")⟩]) ∧
    ¬ MyWiFi.Verified savedDue (MyWiFi.handle downEnv savedDue) := by
  refine ⟨by decide, by decide, by decide, ?_⟩
  rintro ⟨ev, hl, hv⟩
  have hd : (MyWiFi.handle downEnv savedDue).driverLog
      = savedDue.driverLog ++ (MyWiFi.handle downEnv savedDue).driverLog.drop
          savedDue.driverLog.length := by decide
  have hev := List.append_cancel_left (hl.symm.trans hd)
  subst hev
  revert hv
  decide

/-- C12 (amended): in a tick in which the deferred shutdown of the portal is not
due, every `WiFi.mode(WIFI_STA)` comes immediately after a status answer
`WL_CONNECTED` of the driver and the radio is never switched off; in a tick in
which the deferred shutdown is due, the first call of the driver is
`WiFi.mode(WIFI_STA)`, before the join, and all calls after it are allowed. -/
theorem station_mode_verified_unless_deferred_stop (e : Env) (s : MyWiFi) :
    (¬ (s.shouldStopPortal = true ∧ MyWiFi.millis s ≥ s.portalStopTime) →
      MyWiFi.Verified s (MyWiFi.handle e s)) ∧
    ((s.shouldStopPortal = true ∧ MyWiFi.millis s ≥ s.portalStopTime) →
      ∃ t ev, (MyWiFi.handle e s).driverLog
          = s.driverLog ++ ⟨t, .command (.mode WIFI_MODE_STA)⟩ :: ev ∧
        modesVerified none ev = true) := by
  refine ⟨MyWiFi.handle_verified e s, fun h => ?_⟩
  have hh : MyWiFi.handle e s = MyWiFi.handle.deferredStop e s := by
    unfold MyWiFi.handle
    dsimp only
    rw [if_pos h]
  rw [hh]
  exact MyWiFi.deferredStop_events e s

theorem station_mode_verified_unless_deferred_stop_witness :
    MyWiFi.Verified (atClock 20000 bootConnected)
        (MyWiFi.handle downEnv (atClock 20000 bootConnected)) ∧
    ∃ t ev, (MyWiFi.handle downEnv savedDue).driverLog
        = savedDue.driverLog ++ ⟨t, .command (.mode WIFI_MODE_STA)⟩ :: ev ∧
      modesVerified none ev = true :=
  ⟨(station_mode_verified_unless_deferred_stop downEnv (atClock 20000 bootConnected)).1
      (by decide),
    (station_mode_verified_unless_deferred_stop downEnv savedDue).2 (by decide)⟩

/-! ## C14: spacing of the join requests of `checkAPMode` -/

theorem joinTimes_append (a b : List DriverEvent) :
    joinTimes (a ++ b) = joinTimes a ++ joinTimes b := by
  simp [joinTimes]

namespace MyWiFi

theorem steady_refl (s : MyWiFi) : Steady s s := ⟨rfl, Nat.le_refl _⟩

theorem steady_trans {a b c : MyWiFi} (h1 : Steady a b) (h2 : Steady b c) : Steady a c :=
  ⟨h2.1.trans h1.1, Nat.le_trans h1.2 h2.2⟩

theorem steady_same {a b : MyWiFi} (h1 : b.lastAttempt = a.lastAttempt)
    (h2 : b.clock = a.clock) : Steady a b :=
  ⟨h1, Nat.le_of_eq h2.symm⟩

theorem steady_delay {s x : MyWiFi} (ms : Nat) (h : Steady s x) : Steady s (delay ms x) :=
  steady_trans h ⟨rfl, Nat.le_add_right _ _⟩

theorem steady_wifiStatus {s x : MyWiFi} (e : Env) (h : Steady s x) :
    Steady s (wifiStatus e x).2 :=
  steady_trans h (steady_same rfl rfl)

theorem steady_radio {s x : MyWiFi} (c : RadioCmd) (h : Steady s x) : Steady s (radio c x) :=
  steady_trans h (steady_same rfl rfl)

theorem steady_wifiMode {s x : MyWiFi} (m : wifi_mode_t) (h : Steady s x) :
    Steady s (wifiMode m x) :=
  steady_trans h (steady_same rfl rfl)

theorem steady_stopConfigPortal {s x : MyWiFi} (h : Steady s x) :
    Steady s (stopConfigPortal x) := by
  refine steady_trans h ?_
  unfold stopConfigPortal
  split
  · exact ⟨rfl, Nat.le_add_right _ _⟩
  · exact steady_refl x

theorem steady_prefsEnd {s x : MyWiFi} (h : Steady s x) : Steady s (prefsEnd x) :=
  steady_trans h (steady_same rfl rfl)

theorem steady_prefsClear {s x : MyWiFi} (h : Steady s x) : Steady s (prefsClear x) := by
  refine steady_trans h ?_
  unfold prefsClear
  split
  · exact steady_same rfl rfl
  · exact steady_refl x

theorem steady_prefsBegin {s x : MyWiFi} (e : Env) (ro : Bool) (h : Steady s x) :
    Steady s (prefsBegin e ro x).2 := by
  refine steady_trans h ?_
  unfold prefsBegin
  split
  · exact steady_refl x
  · split <;> exact steady_same rfl rfl

theorem steady_prefsPutString {s x : MyWiFi} (e : Env) (k : NvsKey) (v : String)
    (h : Steady s x) : Steady s (prefsPutString e k v x).2 := by
  refine steady_trans h ?_
  unfold prefsPutString
  split
  · dsimp only
    split
    · exact steady_same rfl rfl
    · exact steady_refl x
  · exact steady_refl x

theorem steady_write {s x : MyWiFi} (e : Env) (h : Steady s x) :
    Steady s (saveConfig.write e x).2 := by
  unfold saveConfig.write
  dsimp only
  apply steady_prefsEnd
  apply steady_prefsPutString
  apply steady_prefsPutString
  apply steady_prefsPutString
  apply steady_prefsPutString
  exact h

theorem saveConfig_steady (e : Env) (s : MyWiFi) : Steady s (saveConfig e s).2 := by
  unfold saveConfig
  dsimp only
  have h0 : Steady s (prefsBegin e false (delay 10 (prefsEnd s))).2 :=
    steady_prefsBegin e false (steady_delay 10 (steady_prefsEnd (steady_refl s)))
  split
  · exact steady_write e h0
  · have h1 := steady_prefsBegin e false (steady_delay 100 (steady_prefsEnd
      (steady_prefsClear (steady_prefsBegin e false h0))))
    split
    · exact steady_write e h1
    · exact h1

theorem calm_refl (s : MyWiFi) : Calm s s := ⟨steady_refl s, [], by simp, rfl⟩

theorem calm_trans {a b c : MyWiFi} (h1 : Calm a b) (h2 : Calm b c) : Calm a c := by
  obtain ⟨s1, e1, l1, j1⟩ := h1
  obtain ⟨s2, e2, l2, j2⟩ := h2
  exact ⟨steady_trans s1 s2, e1 ++ e2, by rw [l2, l1, List.append_assoc],
    by rw [joinTimes_append, j1, j2]; rfl⟩

theorem calm_of_steady {a b : MyWiFi} (h : Steady a b) (hl : b.driverLog = a.driverLog) :
    Calm a b :=
  ⟨h, [], by simp [hl], rfl⟩

theorem calm_send {s x : MyWiFi} (c : Nat) (ty : String) (b : HttpBody) (h : Calm s x) :
    Calm s (send c ty b x) :=
  calm_trans h (calm_of_steady (steady_same rfl rfl) rfl)

theorem calm_delay {s x : MyWiFi} (ms : Nat) (h : Calm s x) : Calm s (delay ms x) :=
  calm_trans h (calm_of_steady ⟨rfl, Nat.le_add_right _ _⟩ rfl)

theorem calm_wifiStatus {s x : MyWiFi} (e : Env) (h : Calm s x) : Calm s (wifiStatus e x).2 :=
  calm_trans h ⟨steady_same rfl rfl, [⟨x.clock, .status (e.status x.polls)⟩], rfl, rfl⟩

theorem calm_radio {s x : MyWiFi} (c : RadioCmd) (hc : isJoin (.command c) = false)
    (h : Calm s x) : Calm s (radio c x) :=
  calm_trans h ⟨steady_same rfl rfl, [⟨x.clock, .command c⟩], rfl, by simp [joinTimes, hc]⟩

theorem calm_wifiMode {s x : MyWiFi} (m : wifi_mode_t) (h : Calm s x) :
    Calm s (wifiMode m x) :=
  calm_trans h ⟨steady_same rfl rfl, [⟨x.clock, .command (.mode m)⟩], rfl, rfl⟩

theorem calm_stopConfigPortal {s x : MyWiFi} (h : Calm s x) : Calm s (stopConfigPortal x) := by
  refine calm_trans h (calm_of_steady (steady_stopConfigPortal (steady_refl x)) ?_)
  unfold stopConfigPortal
  split <;> rfl

theorem handleScan_calm (e : Env) (s : MyWiFi) : Calm s (handleScan e s) := by
  unfold handleScan
  split
  · exact calm_refl s
  · dsimp only
    apply calm_send
    have h1 : Calm s (if s.radioMode = WIFI_MODE_AP then
        delay 100 (wifiMode WIFI_MODE_APSTA s) else s) := by
      split
      · exact calm_delay _ (calm_wifiMode _ (calm_refl s))
      · exact calm_refl s
    generalize (if s.radioMode = WIFI_MODE_AP then
        delay 100 (wifiMode WIFI_MODE_APSTA s) else s) = x1 at h1 ⊢
    have h2 : Calm s (if (wifiStatus e x1).1 ≠ WL_CONNECTED then
        delay 200 (radio (.disconnect false) (wifiStatus e x1).2) else (wifiStatus e x1).2) := by
      split
      · exact calm_delay _ (calm_radio _ rfl (calm_wifiStatus e h1))
      · exact calm_wifiStatus e h1
    generalize (if (wifiStatus e x1).1 ≠ WL_CONNECTED then
        delay 200 (radio (.disconnect false) (wifiStatus e x1).2) else (wifiStatus e x1).2) = x2
      at h2 ⊢
    have h3 : Calm s (radio .scanDelete (delay e.scanMillis (radio .scanNetworks x2))) :=
      calm_radio _ rfl (calm_delay _ (calm_radio _ rfl h2))
    split
    · exact calm_delay _ (calm_wifiMode _ h3)
    · exact h3

theorem handleStatus_calm (e : Env) (s : MyWiFi) : Calm s (handleStatus e s) := by
  unfold handleStatus
  split
  · exact calm_refl s
  · exact calm_send _ _ _
      (calm_wifiStatus e (calm_wifiStatus e (calm_wifiStatus e (calm_refl s))))

theorem handleSave_calm (e : Env) (a b : String) (s : MyWiFi) :
    Calm s (handleSave e a b s) := by
  unfold handleSave
  split
  · exact calm_refl s
  · split
    · have h1 : Steady s (saveConfig e { s with staSSID := a, staPassword := b }).2 :=
        steady_trans (steady_same rfl rfl) (saveConfig_steady e _)
      have h2 : (saveConfig e { s with staSSID := a, staPassword := b }).2.driverLog
          = s.driverLog := by
        obtain ⟨st, ro, n, c, o, h⟩ :=
          saveConfig_storeOnly e { s with staSSID := a, staPassword := b }
        rw [h]
      exact calm_trans (calm_of_steady h1 h2) (calm_of_steady (steady_same rfl rfl) rfl)
    · exact calm_of_steady (steady_same rfl rfl) rfl

theorem handleRoot_calm (s : MyWiFi) : Calm s (handleRoot s) := by
  unfold handleRoot
  split
  · exact calm_refl s
  · exact calm_of_steady (steady_same rfl rfl) rfl

theorem handleConfigPortal_calm (e : Env) (s : MyWiFi) : Calm s (handleConfigPortal e s) := by
  unfold handleConfigPortal handleClient
  split
  · exact calm_refl s
  · split
    · exact calm_refl s
    · split_ifs
      · exact handleRoot_calm s
      · exact handleSave_calm e _ _ s
      · exact handleScan_calm e s
      · exact handleStatus_calm e s
      · exact handleRoot_calm s

end MyWiFi

namespace MyWiFi

theorem reconnectPoll_steady (e : Env) (start : Nat) :
    ∀ (fuel : Nat) (s : MyWiFi) (b : Bool) (s' : MyWiFi),
      reconnectPoll e start fuel s = some (b, s') → Steady s s' := by
  intro fuel
  induction fuel with
  | zero => intro s b s' h; simp [reconnectPoll] at h
  | succ n ih =>
    intro s b s' h
    rw [reconnectPoll] at h
    split at h
    · dsimp only at h
      split at h
      · simp only [Option.some.injEq, Prod.mk.injEq] at h
        rw [← h.2]
        exact steady_wifiStatus e (steady_refl s)
      · exact steady_trans (steady_delay 500 (steady_wifiStatus e (steady_refl s))) (ih _ _ _ h)
    · simp only [Option.some.injEq, Prod.mk.injEq] at h
      rw [← h.2]
      exact steady_refl s

theorem connectPoll_steady (e : Env) (start : Nat) :
    ∀ (fuel : Nat) (s s' : MyWiFi), connectPoll e start fuel s = some s' → Steady s s' := by
  intro fuel
  induction fuel with
  | zero => intro s s' h; simp [connectPoll] at h
  | succ n ih =>
    intro s s' h
    rw [connectPoll] at h
    split at h
    · exact steady_trans (steady_delay 500 (steady_wifiStatus e (steady_refl s))) (ih _ _ h)
    · simp only [Option.some.injEq] at h
      rw [← h]
      exact steady_wifiStatus e (steady_refl s)

theorem reconnectWait_steady (e : Env) (s : MyWiFi) :
    Steady s ((reconnectPoll e (millis s) pollFuel s).getD (false, s)).2 := by
  cases h : reconnectPoll e (millis s) pollFuel s with
  | none => exact steady_refl s
  | some r =>
    obtain ⟨b, s'⟩ := r
    exact reconnectPoll_steady e _ _ _ _ _ h

theorem connectWait_steady (e : Env) (s : MyWiFi) :
    Steady s ((connectPoll e (millis s) pollFuel s).getD s) := by
  cases h : connectPoll e (millis s) pollFuel s with
  | none => exact steady_refl s
  | some s' => exact connectPoll_steady e _ _ _ _ h

theorem handleReconnect_steady (e : Env) (s : MyWiFi) : Steady s (handleReconnect e s) := by
  unfold handleReconnect
  dsimp only
  generalize hs1 : (radio _ _ : MyWiFi) = s1
  have h1 : Steady s s1 := by
    subst hs1
    split_ifs <;> exact steady_same rfl rfl
  have h2 := steady_trans h1 (reconnectWait_steady e s1)
  generalize (reconnectPoll e (millis s1) pollFuel s1).getD (false, s1) = r at h2 ⊢
  obtain ⟨b, x⟩ := r
  dsimp only at h2 ⊢
  cases b
  · simp only [Bool.false_eq_true, if_false]
    split
    · exact steady_trans h2 (steady_same rfl rfl)
    · exact steady_trans h2 (steady_same rfl rfl)
  · simp only [if_true]
    have h3 : Steady s (wifiMode WIFI_MODE_STA (delay 100 (stopConfigPortal
        { x with currentStatus := WIFI_STATUS_CONNECTED, reconnectAttempts := 0 }))) :=
      steady_wifiMode _ (steady_delay _ (steady_stopConfigPortal
        (steady_trans h2 (steady_same rfl rfl))))
    exact h3

theorem connectToWiFi_steady (e : Env) (s : MyWiFi) : Steady s (connectToWiFi e s).2 := by
  unfold connectToWiFi
  split
  · exact steady_refl s
  · dsimp only
    have h1 : Steady s (radio (.join s.staSSID s.staPassword)
        { s with currentStatus := WIFI_STATUS_CONNECTING }) :=
      steady_radio _ (steady_same rfl rfl)
    have h2 := steady_wifiStatus e (steady_trans h1 (connectWait_steady e _))
    split
    · exact steady_trans h2 (steady_same rfl rfl)
    · exact h2

theorem startConfigPortal_steady {s x : MyWiFi} (h : Steady s x) :
    Steady s (startConfigPortal x) := by
  have h1 : Steady s (delay 100 (radio (.softAP (stopConfigPortal x).apSSID
      (stopConfigPortal x).apPassword) (wifiMode WIFI_MODE_AP (stopConfigPortal x)))) :=
    steady_delay _ (steady_radio _ (steady_wifiMode _ (steady_stopConfigPortal h)))
  exact h1

theorem deferredStop_steady (e : Env) (s : MyWiFi) : Steady s (handle.deferredStop e s) := by
  unfold handle.deferredStop
  dsimp only
  have h0 : Steady s (wifiMode WIFI_MODE_STA
      (stopConfigPortal { s with shouldStopPortal := false })) :=
    steady_wifiMode _ (steady_stopConfigPortal (steady_same rfl rfl))
  have hc := steady_trans h0 (connectToWiFi_steady e _)
  split
  · exact steady_trans hc (steady_same rfl rfl)
  · exact startConfigPortal_steady hc

theorem onLoss_steady (e : Env) (s : MyWiFi) : Steady s (checkSTAConnection.onLoss e s) := by
  unfold checkSTAConnection.onLoss
  have h0 : Steady s (wifiStatus e s).2 := steady_wifiStatus e (steady_refl s)
  generalize wifiStatus e s = r at h0 ⊢
  obtain ⟨a, x⟩ := r
  dsimp only at h0 ⊢
  split
  · refine steady_trans ?_ (handleReconnect_steady e _)
    have h1 : Steady s (startAPSTA
        { x with currentStatus := WIFI_STATUS_DISCONNECTED,
                 lastReconnectTime := millis x, reconnectAttempts := 0 }) :=
      steady_trans h0 ⟨rfl, Nat.le_add_right _ _⟩
    split
    · exact steady_trans h1 (steady_same rfl rfl)
    · exact h1
  · exact h0

theorem retry_steady (e : Env) (s : MyWiFi) : Steady s (checkSTAConnection.retry e s) := by
  unfold checkSTAConnection.retry
  dsimp only
  split_ifs
  · exact steady_trans (steady_same rfl rfl) (handleReconnect_steady e _)
  · exact steady_refl s
  · exact steady_trans (steady_same rfl rfl) (handleReconnect_steady e _)
  · exact steady_refl s
  · exact steady_refl s

theorem checkSTAConnection_steady (e : Env) (s : MyWiFi) :
    Steady s (checkSTAConnection e s) :=
  steady_trans (onLoss_steady e s) (retry_steady e _)

theorem linkCheck_steady (e : Env) (t : Nat) (s : MyWiFi) :
    Steady s (handle.linkCheck e t s) := by
  unfold handle.linkCheck
  split_ifs
  · exact steady_trans (steady_same rfl rfl) (checkSTAConnection_steady e _)
  · exact steady_refl s
  · exact steady_refl s

theorem reconnect_block_steady (e : Env) (t : Nat) (s : MyWiFi) :
    Steady s (handle.reconnect e t s) := by
  unfold handle.reconnect
  split_ifs
  · exact steady_trans (steady_same rfl rfl) (handleReconnect_steady e _)
  · exact steady_refl s
  · exact steady_refl s

/-- What `checkAPMode` does to the stamp and to the record of driver calls:
nothing joins and the stamp stays, or one join is issued at most 100 ms after
the new stamp, which is at least 3000 ms (on the wrapping clock) after the old
one. -/
theorem checkAPMode_probe (e : Env) (y : MyWiFi) :
    Calm y (checkAPMode e y) ∨
    ∃ tj ev, (checkAPMode e y).driverLog = y.driverLog ++ ev ∧ joinTimes ev = [tj] ∧
      y.clock ≤ tj ∧ tj ≤ y.clock + 100 ∧ (checkAPMode e y).clock = tj ∧
      3000 ≤ usub (millis y) y.lastAttempt ∧ (checkAPMode e y).lastAttempt = millis y := by
  unfold checkAPMode
  split
  · dsimp only
    split
    · left
      have h : Calm y (wifiMode WIFI_MODE_STA (delay 100
          { stopConfigPortal (wifiStatus e y).2 with
            currentStatus := WIFI_STATUS_CONNECTED, reconnectAttempts := 0 })) :=
        calm_wifiMode _ (calm_delay _ (calm_trans
          (calm_stopConfigPortal (calm_wifiStatus e (calm_refl y)))
          (calm_of_steady (steady_same rfl rfl) rfl)))
      exact calm_trans h (calm_of_steady (steady_same rfl rfl) rfl)
    · split
      · split
        · exact Or.inl (calm_wifiStatus e (calm_refl y))
        · rename_i hge
          right
          have hge' : 3000 ≤ usub (millis y) y.lastAttempt := Nat.le_of_not_lt hge
          by_cases hm : y.currentMode = WIFI_MODE_AP
          · refine ⟨y.clock + 100, [⟨y.clock, .status (e.status y.polls)⟩,
              ⟨y.clock, .command (.mode WIFI_MODE_APSTA)⟩,
              ⟨y.clock + 100, .command (.join y.staSSID y.staPassword)⟩], ?_, rfl,
              Nat.le_add_right _ _, Nat.le_refl _, ?_, hge', ?_⟩ <;>
              simp [radio, wifiStatus, wifiMode, delay, hm, millis]
          · refine ⟨y.clock, [⟨y.clock, .status (e.status y.polls)⟩,
              ⟨y.clock, .command (.join y.staSSID y.staPassword)⟩], ?_, rfl,
              Nat.le_refl _, Nat.le_add_right _ _, ?_, hge', ?_⟩ <;>
              simp [radio, wifiStatus, wifiMode, delay, hm, millis]
      · exact Or.inl (calm_wifiStatus e (calm_refl y))
  · exact Or.inl (calm_refl y)

end MyWiFi

namespace MyWiFi

theorem portal_block_probe (e : Env) (t : Nat) (s : MyWiFi) :
    Calm s (handle.portal e t s) ∨
    ∃ R tj ev, (handle.portal e t s).driverLog = s.driverLog ++ ev ∧ joinTimes ev = [tj] ∧
      s.clock ≤ R ∧ R ≤ tj ∧ tj ≤ R + 100 ∧ (handle.portal e t s).clock = tj ∧
      3000 ≤ usub (R % ULONG) s.lastAttempt ∧
      (handle.portal e t s).lastAttempt = R % ULONG := by
  unfold handle.portal
  dsimp only
  have h := handleConfigPortal_calm e s
  split_ifs
  · rcases checkAPMode_probe e { handleConfigPortal e s with lastReconnectTime := t } with
      hc | ⟨tj, ev, hl, hj, h1, h2, h3, h4, h5⟩
    · exact Or.inl (calm_trans (calm_trans h (calm_of_steady (steady_same rfl rfl) rfl)) hc)
    · right
      obtain ⟨⟨hla, hck⟩, ev0, hl0, hj0⟩ := h
      refine ⟨(handleConfigPortal e s).clock, tj, ev0 ++ ev, ?_, ?_, hck, h1, h2, h3, ?_, h5⟩
      · rw [hl]
        show (handleConfigPortal e s).driverLog ++ ev = _
        rw [hl0, List.append_assoc]
      · rw [joinTimes_append, hj0, hj]
        rfl
      · rw [← hla]
        exact h4
  · exact Or.inl (calm_trans h (calm_of_steady (steady_same rfl rfl) rfl))
  · exact Or.inl h
  · exact Or.inl (calm_refl s)

/-- One tick: its portal block issues no join and the stamp stays, or it issues
one join, at most 100 ms after the new stamp `R`, which is taken at least
3000 ms (on the wrapping clock) after the old one. -/
theorem handle_probe (e : Env) (s : MyWiFi) :
    (probeJoins e s = [] ∧ Steady s (handle e s)) ∨
    ∃ R tj, probeJoins e s = [tj] ∧ s.clock ≤ R ∧ R ≤ tj ∧ tj ≤ R + 100 ∧
      tj ≤ (handle e s).clock ∧ 3000 ≤ usub (R % ULONG) s.lastAttempt ∧
      (handle e s).lastAttempt = R % ULONG := by
  unfold handle probeJoins
  dsimp only
  split_ifs with hd
  · exact Or.inl ⟨rfl, deferredStop_steady e s⟩
  · have h2 := steady_trans (linkCheck_steady e (millis s) (handle.portal e (millis s) s))
      (reconnect_block_steady e (millis s) _)
    rcases portal_block_probe e (millis s) s with
      hc | ⟨R, tj, ev, hl, hj, h1, h3, h4, h5, h6, h7⟩
    · left
      obtain ⟨hs, ev, hl, hj⟩ := hc
      refine ⟨?_, steady_trans hs h2⟩
      rw [hl, List.drop_left]
      exact hj
    · right
      refine ⟨R, tj, ?_, h1, h3, h4, ?_, h6, ?_⟩
      · rw [hl, List.drop_left]
        exact hj
      · rw [← h5]
        exact h2.2
      · rw [h2.1]
        exact h7

theorem usub_gap (R R0 : Nat) (h : R0 ≤ R) (hg : 3000 ≤ usub (R % ULONG) (R0 % ULONG)) :
    R0 + 3000 ≤ R := by
  unfold usub ULONG at hg
  omega

/-- The call `checkAPMode()` asks the driver for the status at most once and
takes at most 200 ms. -/
theorem checkAPMode_bounded (e : Env) (x : MyWiFi) :
    (checkAPMode e x).clock ≤ x.clock + 200 ∧ (checkAPMode e x).polls ≤ x.polls + 1 := by
  unfold checkAPMode
  split
  · dsimp only
    split
    · by_cases hp : x.configPortalActive = true <;>
        simp [stopConfigPortal, wifiStatus, wifiMode, delay, hp]
    · split
      · split
        · simp [wifiStatus]
        · by_cases hm : x.currentMode = WIFI_MODE_AP <;>
            simp [radio, wifiStatus, wifiMode, delay, hm]
      · simp [wifiStatus]
  · simp

end MyWiFi

/-- Invariant of the runs: consecutive joins of the portal blocks are at least
2900 ms apart, and the last one was issued at most 100 ms after the time `R` the
stamp `lastAttempt` was taken. -/
theorem probed_spaced (s0 s : MyWiFi) (js : List Nat) (h : Probed s0 s js) :
    List.Chain' (fun a b => a + 2900 ≤ b) js ∧
    ∀ j, js.getLast? = some j →
      ∃ R, j ≤ R + 100 ∧ R ≤ s.clock ∧ s.lastAttempt = R % ULONG := by
  induction h with
  | start => exact ⟨List.chain'_nil, fun j hj => by simp at hj⟩
  | tick e t s js hp ht ih =>
    obtain ⟨hch, hlast⟩ := ih
    rcases MyWiFi.handle_probe e (atClock t s) with
      ⟨hnil, hst⟩ | ⟨R, tj, hone, h1, h2, h3, h4, h5, h6⟩
    · rw [hnil, List.append_nil]
      refine ⟨hch, fun j hj => ?_⟩
      obtain ⟨R, hR1, hR2, hR3⟩ := hlast j hj
      exact ⟨R, hR1, Nat.le_trans hR2 (Nat.le_trans ht hst.2), by rw [hst.1]; exact hR3⟩
    · rw [hone]
      have h1' : t ≤ R := h1
      refine ⟨?_, fun j hj => ?_⟩
      · refine List.Chain'.append hch (List.chain'_singleton tj) ?_
        intro x hx y hy
        obtain ⟨R0, hR1, hR2, hR3⟩ := hlast x hx
        have hy' : y = tj := by simpa using hy.symm
        have h5' : 3000 ≤ usub (R % ULONG) (R0 % ULONG) := by
          rw [← hR3]
          exact h5
        have hg := MyWiFi.usub_gap R R0 (Nat.le_trans hR2 (Nat.le_trans ht h1')) h5'
        omega
      · have hj' : j = tj := by simpa using hj.symm
        exact ⟨R, by omega, Nat.le_trans h2 h4, h6⟩

theorem probedTwice_run : Probed bootPortal probedTwice [11100, 14000] := by
  have h1 := Probed.tick downEnv 11000 bootPortal [] Probed.start (by decide)
  have h2 := Probed.tick downEnv 14000 _ _ h1 (by decide)
  have hj : ([] ++ MyWiFi.probeJoins downEnv (atClock 11000 bootPortal)) ++
      MyWiFi.probeJoins downEnv
        (atClock 14000 (MyWiFi.handle downEnv (atClock 11000 bootPortal)))
      = [11100, 14000] := by decide
  rw [hj] at h2
  exact h2

/-! ### C14 -/

/-- C14 (counterexample): a device with stored credentials boots with the
network out of reach and ends in the portal, in access-point mode; the tick at
clock `11000` stamps `lastAttempt = 11000`, switches to dual mode, waits 100 ms
and issues the join at `11100`; the tick at clock `14000` issues the next join
at once: the two consecutive joins of `checkAPMode` are 2900 ms apart. -/
theorem probe_joins_closer_than_3000 :
    Probed bootPortal probedTwice [11100, 14000] ∧
    probedTwice.driverLog.drop bootPortal.driverLog.length
      = [⟨11000, .status WL_DISCONNECTED⟩, ⟨11000, .command (.mode WIFI_MODE_APSTA)⟩,
         ⟨11100, .command (.join "Home" "secretpw")⟩, ⟨14000, .status WL_DISCONNECTED⟩,
         ⟨14000, .command (.join "Home" "secretpw")⟩] ∧
    ¬ List.Chain' (fun a b => a + 3000 ≤ b) [11100, 14000] :=
  ⟨probedTwice_run, by decide, fun h => absurd (List.chain'_pair.mp h) (by decide)⟩

/-- C14 (amended): in every run of `handle` ticks (any environment at each tick,
the clock never running backwards), two consecutive joins issued by the portal
block, that is by `checkAPMode`, are at least 2900 ms apart; and every call of
`checkAPMode` asks the driver for the status at most once, takes at most 200 ms,
issues at most one join, and issues one only when `millis() - lastAttempt` is at
least 3000, stamping `lastAttempt` with that reading of `millis()`. -/
theorem probe_joins_at_least_2900_apart (s0 s : MyWiFi) (js : List Nat)
    (h : Probed s0 s js) :
    List.Chain' (fun a b => a + 2900 ≤ b) js ∧
    ∀ (e : Env) (x : MyWiFi),
      (MyWiFi.checkAPMode e x).clock ≤ x.clock + 200 ∧
      (MyWiFi.checkAPMode e x).polls ≤ x.polls + 1 ∧
      (joinTimes ((MyWiFi.checkAPMode e x).driverLog.drop x.driverLog.length)).length ≤ 1 ∧
      (joinTimes ((MyWiFi.checkAPMode e x).driverLog.drop x.driverLog.length) ≠ [] →
        3000 ≤ usub (MyWiFi.millis x) x.lastAttempt ∧
        (MyWiFi.checkAPMode e x).lastAttempt = MyWiFi.millis x) := by
  refine ⟨(probed_spaced s0 s js h).1, fun e x => ?_⟩
  refine ⟨(MyWiFi.checkAPMode_bounded e x).1, (MyWiFi.checkAPMode_bounded e x).2, ?_⟩
  rcases MyWiFi.checkAPMode_probe e x with ⟨_, ev, hl, hj⟩ | ⟨tj, ev, hl, hj, _, _, _, h4, h5⟩
  · rw [hl, List.drop_left, hj]
    exact ⟨by simp, fun hne => absurd rfl hne⟩
  · rw [hl, List.drop_left, hj]
    exact ⟨by simp, fun _ => ⟨h4, h5⟩⟩

theorem probe_joins_at_least_2900_apart_witness :
    Probed bootPortal probedTwice [11100, 14000] ∧
    List.Chain' (fun a b => a + 2900 ≤ b) [11100, 14000] :=
  ⟨probedTwice_run,
    (probe_joins_at_least_2900_apart bootPortal probedTwice [11100, 14000] probedTwice_run).1⟩

end S3
